import Mathlib

/-! Vulkan-Guide: frame overlap, deletion queues and uniform-buffer padding.

A shallow embedding of the engine of `Chapter-4/vk_engine.h` (and of the parts it
shares with the earlier chapters): the alignment arithmetic of
`pad_uniform_buffer_size`, the frame-slot selection, the `draw` loop as a step
relation together with the GPU, the deletion queues, `init`/`cleanup` as traces of
resource creations and destructions, and the `VK_CHECK` abort policy.

Machine integers are natural numbers or integers with explicit reduction modulo
`2 ^ 64` (`size_t`) or `2 ^ 32` (`unsigned int`, `int`).
-/

namespace VkGuide

/-! ## `size_t` arithmetic (64-bit target) -/

/-- Number of value bits of `size_t`. -/
def SIZE_BITS : Nat := 64

/-- Unsigned addition of two `size_t` values. -/
def sizeAdd (a b : Nat) : Nat := (a + b) % 2 ^ SIZE_BITS

/-- Unsigned subtraction of two `size_t` values (wraps below zero). -/
def sizeSub (a b : Nat) : Nat := (a % 2 ^ SIZE_BITS + 2 ^ SIZE_BITS - b % 2 ^ SIZE_BITS) % 2 ^ SIZE_BITS

/-- Unsigned multiplication of two `size_t` values. -/
def sizeMul (a b : Nat) : Nat := (a * b) % 2 ^ SIZE_BITS

/-- Bitwise complement `~a` of a `size_t` value. -/
def sizeNot (a : Nat) : Nat := 2 ^ SIZE_BITS - 1 - a % 2 ^ SIZE_BITS

/-- Bitwise conjunction `a & b` of two `size_t` values. -/
def sizeAnd (a b : Nat) : Nat := a &&& b

/-- The body of `VulkanEngine::pad_uniform_buffer_size`; `minUboAlignment` is the field
`_gpuProperties.limits.minUniformBufferOffsetAlignment` read by the first statement. -/
def pad_uniform_buffer_size (minUboAlignment originalSize : Nat) : Nat :=
  let alignedSize := originalSize
  if minUboAlignment > 0 then
    sizeAnd (sizeSub (sizeAdd alignedSize minUboAlignment) 1) (sizeNot (sizeSub minUboAlignment 1))
  else
    alignedSize

/-! ## Frame slots -/

/-- The constant `FRAME_OVERLAP`. -/
def FRAME_OVERLAP : Nat := 2

/-- Largest value of `int`. -/
def INT_MAX : Int := 2 ^ 31 - 1

/-- Conversion of an `int` value to `unsigned int`. -/
def toUnsigned (n : Int) : Nat := (n % 2 ^ 32).toNat

/-- Conversion of an `unsigned int` value to `int` (two's complement). -/
def toInt (u : Nat) : Int :=
  if u % 2 ^ 32 < 2 ^ 31 then ((u % 2 ^ 32 : Nat) : Int) else ((u % 2 ^ 32 : Nat) : Int) - 2 ^ 32

/-- Conversion of an `int` value to `size_t`. -/
def intToSize (n : Int) : Nat := (n % 2 ^ SIZE_BITS).toNat

/-- The index `_frameNumber % FRAME_OVERLAP` used by `get_current_frame`: the `int` is
converted to `unsigned int` before the remainder is taken. -/
def get_current_frame (_frameNumber : Int) : Nat :=
  toUnsigned _frameNumber % FRAME_OVERLAP

/-- The index `(_frameNumber - 1) % FRAME_OVERLAP` used by `get_last_frame`. -/
def get_last_frame (_frameNumber : Int) : Nat :=
  toUnsigned (_frameNumber - 1) % FRAME_OVERLAP

/-- The local `int frameIndex = _frameNumber % FRAME_OVERLAP;` of `draw_objects`. -/
def draw_objects_frameIndex (_frameNumber : Int) : Int :=
  toInt (toUnsigned _frameNumber % FRAME_OVERLAP)

/-- The value of `sizeof(GPUSceneData)`: five `glm::vec4` of four 4-byte floats. -/
def sizeof_GPUSceneData : Nat := 5 * (4 * 4)

/-- The byte offset added to `sceneData` in `draw_objects`:
`pad_uniform_buffer_size(sizeof(GPUSceneData)) * frameIndex`, computed in `size_t`. -/
def draw_objects_sceneOffset (minUboAlignment : Nat) (_frameNumber : Int) : Nat :=
  sizeMul (pad_uniform_buffer_size minUboAlignment sizeof_GPUSceneData)
    (intToSize (draw_objects_frameIndex _frameNumber))

/-- The constant `sceneParamBufferSize` of `init_descriptors`:
`FRAME_OVERLAP * pad_uniform_buffer_size(sizeof(GPUSceneData))`, computed in `size_t`. -/
def sceneParamBufferSize (minUboAlignment : Nat) : Nat :=
  sizeMul FRAME_OVERLAP (pad_uniform_buffer_size minUboAlignment sizeof_GPUSceneData)

/-! ## The abort policy -/

/-- How a checked call ends: the program goes on, or the process is aborted after
printing the result code. -/
inductive Outcome (σ : Type) where
  | continues (s : σ)
  | aborts (printed : Int) (s : σ)
  deriving DecidableEq

/-- The statement `VK_CHECK(x)`: `x` is an expression whose evaluation in state `s` yields a
`VkResult` and a new state; `err = x` is evaluated once and the process aborts when `err`
is non-zero. -/
def VK_CHECK {σ : Type} (x : σ → Int × σ) (s : σ) : Outcome σ :=
  let r := x s
  let err := r.1
  if err ≠ 0 then Outcome.aborts err r.2 else Outcome.continues r.2

/-- An expression instrumented with a counter of its evaluations. -/
def counted {σ : Type} (x : σ → Int × σ) : σ × Nat → Int × (σ × Nat) :=
  fun p => ((x p.1).1, ((x p.1).2, p.2 + 1))

/-- The state in which a checked call leaves the process. -/
def Outcome.state {σ : Type} : Outcome σ → σ
  | Outcome.continues s => s
  | Outcome.aborts _ s => s

/-- Whether the process was aborted. -/
def Outcome.aborted {σ : Type} : Outcome σ → Bool
  | Outcome.continues _ => false
  | Outcome.aborts _ _ => true

/-! ## The frame loop together with the GPU -/

/-- The statements of `VulkanEngine::draw`, in source order. -/
inductive DrawPc where
  | getFrame
  | waitForFences
  | resetFences
  | resetCommandBuffer
  | acquireNextImage
  | beginCommandBuffer
  | cmdBeginRenderPass
  | drawObjects
  | cmdEndRenderPass
  | endCommandBuffer
  | queueSubmit
  | queuePresent
  | incFrameNumber
  deriving DecidableEq

/-- State of the frame loop: the host's position in `draw`, the fences and the
submissions the GPU has not finished. -/
structure LoopState where
  /-- The member `_frameNumber`. -/
  _frameNumber : Int
  /-- The next statement of `draw`. -/
  pc : DrawPc
  /-- The slot of the local copy `frame` taken by the first statement of `draw`. -/
  frame : Nat
  /-- Whether `_frames[i]._renderFence` is signaled. -/
  fences : List Bool
  /-- The slots whose submitted command buffer the GPU is still executing. -/
  inFlight : List Nat
  /-- Whether `abort()` was called. -/
  aborted : Bool
  deriving DecidableEq

/-- The fences as `init_sync_structures` creates them: one per slot, each with
`VK_FENCE_CREATE_SIGNALED_BIT`. -/
def init_sync_structures_fences : List Bool := List.replicate FRAME_OVERLAP true

/-- The loop state after `init`: `_frameNumber = 0`, nothing submitted. -/
def loopInit : LoopState :=
  { _frameNumber := 0, pc := DrawPc.getFrame, frame := 0,
    fences := init_sync_structures_fences, inFlight := [], aborted := false }

/-- A graphics-API call returning `result`, whose effect takes place on success. -/
def apiCall (result : Int) (effect : LoopState → LoopState) : LoopState → Int × LoopState :=
  fun s => (result, if result = 0 then effect s else s)

/-- A statement `VK_CHECK(call)` of `draw` followed by the move to statement `next`. -/
def checked (result : Int) (effect : LoopState → LoopState) (next : DrawPc)
    (s : LoopState) : LoopState :=
  match VK_CHECK (apiCall result effect) s with
  | Outcome.continues s1 => { s1 with pc := next }
  | Outcome.aborts _ s1 => { s1 with aborted := true }

/-- The increment `_frameNumber++` on `int` (two's complement wrap at `INT_MAX`, where the
C++ standard leaves the behaviour undefined). -/
def incFrameNumber (n : Int) : Int := toInt (toUnsigned (n + 1))

/-- One statement of `draw` executed by the host; `result` is the code returned by the API
call of that statement (ignored by statements that return nothing). A wait can only
return success on a signaled fence. -/
def hostStep (result : Int) (s : LoopState) : Option LoopState :=
  if s.aborted then none else
  match s.pc with
  | DrawPc.getFrame =>
      some { s with frame := get_current_frame s._frameNumber, pc := DrawPc.waitForFences }
  | DrawPc.waitForFences =>
      if result = 0 ∧ s.fences.getD s.frame false = false then none
      else some (checked result id DrawPc.resetFences s)
  | DrawPc.resetFences =>
      some (checked result (fun t => { t with fences := t.fences.set t.frame false })
        DrawPc.resetCommandBuffer s)
  | DrawPc.resetCommandBuffer => some (checked result id DrawPc.acquireNextImage s)
  | DrawPc.acquireNextImage => some (checked result id DrawPc.beginCommandBuffer s)
  | DrawPc.beginCommandBuffer => some (checked result id DrawPc.cmdBeginRenderPass s)
  | DrawPc.cmdBeginRenderPass => some { s with pc := DrawPc.drawObjects }
  | DrawPc.drawObjects => some { s with pc := DrawPc.cmdEndRenderPass }
  | DrawPc.cmdEndRenderPass => some { s with pc := DrawPc.endCommandBuffer }
  | DrawPc.endCommandBuffer => some (checked result id DrawPc.queueSubmit s)
  | DrawPc.queueSubmit =>
      some (checked result (fun t => { t with inFlight := t.inFlight ++ [t.frame] })
        DrawPc.queuePresent s)
  | DrawPc.queuePresent => some (checked result id DrawPc.incFrameNumber s)
  | DrawPc.incFrameNumber =>
      some { s with _frameNumber := incFrameNumber s._frameNumber, pc := DrawPc.getFrame }

/-- The GPU finishes the `i`-th unfinished submission and signals the fence passed to
`vkQueueSubmit` with it. -/
def gpuStep (i : Nat) (s : LoopState) : Option LoopState :=
  if s.aborted then none else
  match s.inFlight.get? i with
  | none => none
  | some k => some { s with inFlight := s.inFlight.eraseIdx i, fences := s.fences.set k true }

/-- Labels of the steps of the loop. -/
inductive Label where
  | host (result : Int)
  | gpu (i : Nat)
  deriving DecidableEq

/-- One step of the host or of the GPU. -/
def step : Label → LoopState → Option LoopState
  | Label.host r, s => hostStep r s
  | Label.gpu i, s => gpuStep i s

/-- A sequence of steps. -/
def run : List Label → LoopState → Option LoopState
  | [], s => some s
  | l :: ls, s =>
    match step l s with
    | none => none
    | some t => run ls t

/-- The states the loop reaches from the state left by `init`. -/
def Reachable (s : LoopState) : Prop := ∃ ls, run ls loopInit = some s

/-- The slots whose per-frame resources the next host statement resets, records into or
writes: the command buffer `frame._mainCommandBuffer` of the local copy, and in
`draw_objects` the camera and object buffers of `get_current_frame()`. -/
def hostTouches (s : LoopState) : List Nat :=
  match s.pc with
  | DrawPc.resetCommandBuffer => [s.frame]
  | DrawPc.beginCommandBuffer => [s.frame]
  | DrawPc.cmdBeginRenderPass => [s.frame]
  | DrawPc.drawObjects => [get_current_frame s._frameNumber, s.frame]
  | DrawPc.cmdEndRenderPass => [s.frame]
  | DrawPc.endCommandBuffer => [s.frame]
  | _ => []

/-- Statements of `draw` after the fence wait and up to the submission. -/
def afterWait : DrawPc → Bool
  | DrawPc.getFrame => false
  | DrawPc.waitForFences => false
  | DrawPc.queuePresent => false
  | DrawPc.incFrameNumber => false
  | _ => true

/-- Statements of `draw` after the fence reset and up to the submission. -/
def afterReset : DrawPc → Bool
  | DrawPc.resetFences => false
  | pc => afterWait pc

/-- The invariant of the frame loop: the fence of a slot with an unfinished submission is
unsignaled, no slot has two unfinished submissions, the local copy `frame` is the current
slot, and between the wait and the submission the current slot has no unfinished
submission (and, once reset, an unsignaled fence). -/
def LoopInv (s : LoopState) : Prop :=
  (∀ k ∈ s.inFlight, s.fences.getD k false = false) ∧
  s.inFlight.Nodup ∧
  (s.pc ≠ DrawPc.getFrame → s.frame = get_current_frame s._frameNumber) ∧
  (afterWait s.pc = true → s.frame ∉ s.inFlight) ∧
  (afterReset s.pc = true → s.fences.getD s.frame false = false)

/-- One call of `draw` in which every API call returns `VK_SUCCESS`. -/
def draw (s : LoopState) : Option LoopState :=
  run (List.replicate 13 (Label.host 0)) s

/-! ## Deletion queues -/

/-- The struct `DeletionQueue`: a deque of deletors of type `F`. -/
structure DeletionQueue (F : Type) where
  /-- The member `deletors`, front first. -/
  deletors : List F
  deriving DecidableEq

/-- A queue without deletors (the default-constructed member). -/
def DeletionQueue.empty {F : Type} : DeletionQueue F := { deletors := [] }

/-- The method `push_function`: `deletors.push_back(function)`. -/
def DeletionQueue.push_function {F : Type} (q : DeletionQueue F) (function : F) :
    DeletionQueue F :=
  { deletors := q.deletors ++ [function] }

/-- The method `flush`: the loop from `rbegin()` to `rend()` calls every deletor on the
world `w`; the deque itself is left as it is. -/
def DeletionQueue.flush {F W : Type} (call : F → W → W) (q : DeletionQueue F) (w : W) :
    DeletionQueue F × W :=
  (q, q.deletors.reverse.foldl (fun acc f => call f acc) w)

/-- A world that only records which function was called, in call order. -/
def recordCall {F : Type} (f : F) (log : List F) : List F := log ++ [f]

/-! ## Resources, `init` and `cleanup` -/

/-- The meshes uploaded by `load_meshes`. -/
inductive MeshName where
  | triangle
  | monkey
  deriving DecidableEq

/-- The shader files loaded by `init_pipelines`. -/
inductive ShaderName where
  | default_lit_frag
  | tri_mesh_ssbo_vert
  deriving DecidableEq

/-- The objects that `init` creates through GLFW, vk-bootstrap, Vulkan and the memory
allocator. Command buffers and descriptor sets are allocated from pools and released
with them; they have no create or destroy call of their own. -/
inductive Resource where
  | glfw
  | window
  | vkInstance
  | debugMessenger
  | surface
  | device
  | allocator
  | swapchain
  | swapchainImageView (i : Nat)
  | depthImage
  | depthImageView
  | renderPass
  | framebuffer (i : Nat)
  | commandPool (i : Nat)
  | renderFence (i : Nat)
  | presentSemaphore (i : Nat)
  | renderSemaphore (i : Nat)
  | descriptorPool
  | globalSetLayout
  | objectSetLayout
  | sceneParameterBuffer
  | cameraBuffer (i : Nat)
  | objectBuffer (i : Nat)
  | shaderModule (name : ShaderName)
  | pipelineLayout
  | pipeline
  | vertexBuffer (mesh : MeshName)
  deriving DecidableEq

/-- A create or destroy call. -/
inductive Event where
  | create (r : Resource)
  | destroy (r : Resource)
  deriving DecidableEq

/-- A deletor lambda, given by the destroy calls of its body in written order. -/
abbrev Deletor := List Resource

/-- Calling a deletor performs its destroy calls. -/
def callDeletor (d : Deletor) (trace : List Event) : List Event :=
  trace ++ d.map Event.destroy

/-- The part of `VulkanEngine` that `init` and `cleanup` act on, with the calls made so far. -/
structure Engine where
  /-- The create and destroy calls performed so far. -/
  trace : List Event
  /-- The member `_mainDeletionQueue`. -/
  _mainDeletionQueue : DeletionQueue Deletor
  /-- The members `_frames[i]._frameDeletionQueue`. -/
  _frames : List (DeletionQueue Deletor)
  /-- The value of `_swapchainImageViews.size()`. -/
  _swapchainImageViews : Nat
  /-- The member `_isInitialized`. -/
  _isInitialized : Bool
  deriving DecidableEq

/-- The engine object before `init`. -/
def Engine.fresh : Engine :=
  { trace := [], _mainDeletionQueue := DeletionQueue.empty,
    _frames := List.replicate FRAME_OVERLAP DeletionQueue.empty,
    _swapchainImageViews := 0, _isInitialized := false }

/-- A successful create call. -/
def Engine.create (r : Resource) (e : Engine) : Engine :=
  { e with trace := e.trace ++ [Event.create r] }

/-- A destroy call. -/
def Engine.destroy (r : Resource) (e : Engine) : Engine :=
  { e with trace := e.trace ++ [Event.destroy r] }

/-- The statement `_mainDeletionQueue.push_function(...)`. -/
def Engine.pushMain (d : Deletor) (e : Engine) : Engine :=
  { e with _mainDeletionQueue := e._mainDeletionQueue.push_function d }

/-- The statement `_frames[i]._frameDeletionQueue.push_function(...)`. -/
def Engine.pushFrame (i : Nat) (d : Deletor) (e : Engine) : Engine :=
  { e with _frames := e._frames.set i ((e._frames.getD i DeletionQueue.empty).push_function d) }

/-- A loop `for (i = 0; i < n; i++) body`. -/
def forRange (n : Nat) (body : Nat → Engine → Engine) (e : Engine) : Engine :=
  (List.range n).foldl (fun acc i => body i acc) e

/-- The function `init_vulkan`. -/
def init_vulkan (e : Engine) : Engine :=
  e |>.create Resource.vkInstance |>.create Resource.debugMessenger
    |>.create Resource.surface |>.create Resource.device
    |>.create Resource.allocator |>.pushMain [Resource.allocator]

/-- The function `init_swapchain`; `imageCount` is the number of images of the swapchain
built by vk-bootstrap. -/
def init_swapchain (imageCount : Nat) (e : Engine) : Engine :=
  let e1 := e.create Resource.swapchain
  let e2 := forRange imageCount (fun i acc => acc.create (Resource.swapchainImageView i)) e1
  let e3 := { e2 with _swapchainImageViews := imageCount }
  e3 |>.pushMain [Resource.swapchain]
    |>.create Resource.depthImage |>.create Resource.depthImageView
    |>.pushMain [Resource.depthImageView, Resource.depthImage]

/-- The function `init_default_renderpass`. -/
def init_default_renderpass (e : Engine) : Engine :=
  e |>.create Resource.renderPass |>.pushMain [Resource.renderPass]

/-- What framebuffer `i` is created from in `init_framebuffers`: the render pass of
`fb_info` and the two attachments. -/
def framebuffer_references (i : Nat) : List Resource :=
  [Resource.renderPass, Resource.swapchainImageView i, Resource.depthImageView]

/-- The function `init_framebuffers`; the loop bound is `_swapchainImages.size()`. -/
def init_framebuffers (e : Engine) : Engine :=
  forRange e._swapchainImageViews
    (fun i acc => acc |>.create (Resource.framebuffer i) |>.pushMain [Resource.framebuffer i]) e

/-- The function `init_commands`. -/
def init_commands (e : Engine) : Engine :=
  forRange FRAME_OVERLAP
    (fun i acc => acc |>.create (Resource.commandPool i) |>.pushMain [Resource.commandPool i]) e

/-- The function `init_sync_structures`. -/
def init_sync_structures (e : Engine) : Engine :=
  forRange FRAME_OVERLAP
    (fun i acc => acc |>.create (Resource.renderFence i) |>.pushMain [Resource.renderFence i]
      |>.create (Resource.presentSemaphore i) |>.create (Resource.renderSemaphore i)
      |>.pushMain [Resource.presentSemaphore i, Resource.renderSemaphore i]) e

/-- The function `init_descriptors`. -/
def init_descriptors (e : Engine) : Engine :=
  let e1 := e |>.create Resource.descriptorPool |>.pushMain [Resource.descriptorPool]
    |>.create Resource.globalSetLayout |>.pushMain [Resource.globalSetLayout]
    |>.create Resource.objectSetLayout |>.pushMain [Resource.objectSetLayout]
    |>.create Resource.sceneParameterBuffer |>.pushMain [Resource.sceneParameterBuffer]
  forRange FRAME_OVERLAP
    (fun i acc => acc |>.create (Resource.cameraBuffer i) |>.pushFrame i [Resource.cameraBuffer i]
      |>.create (Resource.objectBuffer i) |>.pushFrame i [Resource.objectBuffer i]) e1

/-- The function `init_pipelines` when both shader files load. -/
def init_pipelines (e : Engine) : Engine :=
  e |>.create (Resource.shaderModule ShaderName.default_lit_frag)
    |>.create (Resource.shaderModule ShaderName.tri_mesh_ssbo_vert)
    |>.create Resource.pipelineLayout |>.create Resource.pipeline
    |>.destroy (Resource.shaderModule ShaderName.tri_mesh_ssbo_vert)
    |>.destroy (Resource.shaderModule ShaderName.default_lit_frag)
    |>.pushMain [Resource.pipeline, Resource.pipelineLayout]

/-- The function `upload_mesh`. -/
def upload_mesh (mesh : MeshName) (e : Engine) : Engine :=
  e |>.create (Resource.vertexBuffer mesh) |>.pushMain [Resource.vertexBuffer mesh]

/-- The function `load_meshes`. -/
def load_meshes (e : Engine) : Engine :=
  e |> upload_mesh MeshName.triangle |> upload_mesh MeshName.monkey

/-- The function `init` on the path where every create call succeeds (a failing checked
call aborts the process before `cleanup` can run). -/
def init (imageCount : Nat) (e : Engine) : Engine :=
  let e1 := e |>.create Resource.glfw |>.create Resource.window
    |> init_vulkan |> init_swapchain imageCount |> init_default_renderpass
    |> init_framebuffers |> init_commands |> init_sync_structures |> init_descriptors
    |> init_pipelines |> load_meshes
  { e1 with _isInitialized := true }

/-- The statement `_frames[i]._frameDeletionQueue.flush()`. -/
def flushFrame (i : Nat) (e : Engine) : Engine :=
  match e._frames.get? i with
  | none => e
  | some q =>
    let r := q.flush callDeletor e.trace
    { e with trace := r.2, _frames := e._frames.set i r.1 }

/-- The statement `_mainDeletionQueue.flush()`. -/
def flushMain (e : Engine) : Engine :=
  let r := e._mainDeletionQueue.flush callDeletor e.trace
  { e with trace := r.2, _mainDeletionQueue := r.1 }

/-- The function `cleanup` (the two fence waits at its top create and destroy nothing). -/
def cleanup (e : Engine) : Engine :=
  if e._isInitialized then
    let e1 := forRange FRAME_OVERLAP flushFrame e
    let e2 := flushMain e1
    let e3 := forRange e2._swapchainImageViews
      (fun i acc => acc.destroy (Resource.swapchainImageView i)) e2
    e3 |>.destroy Resource.device |>.destroy Resource.surface
      |>.destroy Resource.debugMessenger |>.destroy Resource.vkInstance
      |>.destroy Resource.window |>.destroy Resource.glfw
  else e

/-- The resources created in a trace, in call order. -/
def created (trace : List Event) : List Resource :=
  trace.filterMap (fun ev => match ev with
    | Event.create r => some r
    | Event.destroy _ => none)

/-- The resources destroyed in a trace, in call order. -/
def destroyed (trace : List Event) : List Resource :=
  trace.filterMap (fun ev => match ev with
    | Event.create _ => none
    | Event.destroy r => some r)

/-- The resources `init` creates and leaves alive, in creation order. -/
def initCreates (imageCount : Nat) : List Resource :=
  let tr := (init imageCount Engine.fresh).trace
  (created tr).filter (fun r => decide (r ∉ destroyed tr))

/-- The resources destroyed by one `cleanup` after one `init`, in call order. -/
def cleanupDestroys (imageCount : Nat) : List Resource :=
  let e := init imageCount Engine.fresh
  destroyed ((cleanup e).trace.drop e.trace.length)

/-- A create call whose result `init` does not check: the result code is not read, or it
is only compared with `VK_SUCCESS` and the caller goes on. `failed r` tells whether the
call for `r` fails; then no object is created. In both cases `init` continues. -/
def Engine.createUnchecked (failed : Resource → Bool) (r : Resource) (e : Engine) : Engine :=
  { e with trace := e.trace ++ (if failed r then [] else [Event.create r]) }

/-- The resources whose create call in `init` is not checked: `glfwInit`,
`glfwCreateWindow`, `glfwCreateWindowSurface`, `vmaCreateAllocator`, `vmaCreateImage`,
`vkCreateDescriptorPool` and the two `vkCreateDescriptorSetLayout` calls (result not read),
the two `vkCreateShaderModule` calls and `vkCreateGraphicsPipelines` (result compared). -/
def uncheckedCreates : List Resource :=
  [Resource.glfw, Resource.window, Resource.surface, Resource.allocator, Resource.depthImage,
    Resource.descriptorPool, Resource.globalSetLayout, Resource.objectSetLayout,
    Resource.shaderModule ShaderName.default_lit_frag,
    Resource.shaderModule ShaderName.tri_mesh_ssbo_vert, Resource.pipeline]

/-- The function `init_vulkan` with the outcome of its unchecked create calls. -/
def init_vulkan_results (failed : Resource → Bool) (e : Engine) : Engine :=
  e |>.create Resource.vkInstance |>.create Resource.debugMessenger
    |>.createUnchecked failed Resource.surface |>.create Resource.device
    |>.createUnchecked failed Resource.allocator |>.pushMain [Resource.allocator]

/-- The function `init_swapchain` with the outcome of its unchecked create call. -/
def init_swapchain_results (failed : Resource → Bool) (imageCount : Nat) (e : Engine) :
    Engine :=
  let e1 := e.create Resource.swapchain
  let e2 := forRange imageCount (fun i acc => acc.create (Resource.swapchainImageView i)) e1
  let e3 := { e2 with _swapchainImageViews := imageCount }
  e3 |>.pushMain [Resource.swapchain]
    |>.createUnchecked failed Resource.depthImage |>.create Resource.depthImageView
    |>.pushMain [Resource.depthImageView, Resource.depthImage]

/-- The function `init_descriptors` with the outcome of its unchecked create calls. -/
def init_descriptors_results (failed : Resource → Bool) (e : Engine) : Engine :=
  let e1 := e |>.createUnchecked failed Resource.descriptorPool
    |>.pushMain [Resource.descriptorPool]
    |>.createUnchecked failed Resource.globalSetLayout |>.pushMain [Resource.globalSetLayout]
    |>.createUnchecked failed Resource.objectSetLayout |>.pushMain [Resource.objectSetLayout]
    |>.create Resource.sceneParameterBuffer |>.pushMain [Resource.sceneParameterBuffer]
  forRange FRAME_OVERLAP
    (fun i acc => acc |>.create (Resource.cameraBuffer i) |>.pushFrame i [Resource.cameraBuffer i]
      |>.create (Resource.objectBuffer i) |>.pushFrame i [Resource.objectBuffer i]) e1

/-- The function `init_pipelines` with the outcome of the two shader loads and of
`build_pipeline`; the two `vkDestroyShaderModule` calls and the deletor do not depend on
them. -/
def init_pipelines_results (failed : Resource → Bool) (e : Engine) : Engine :=
  e |>.createUnchecked failed (Resource.shaderModule ShaderName.default_lit_frag)
    |>.createUnchecked failed (Resource.shaderModule ShaderName.tri_mesh_ssbo_vert)
    |>.create Resource.pipelineLayout |>.createUnchecked failed Resource.pipeline
    |>.destroy (Resource.shaderModule ShaderName.tri_mesh_ssbo_vert)
    |>.destroy (Resource.shaderModule ShaderName.default_lit_frag)
    |>.pushMain [Resource.pipeline, Resource.pipelineLayout]

/-- The function `init` on the paths on which it returns: every checked create call
succeeds (a failing one aborts the process), and the create calls of `uncheckedCreates`
fail where `failed` says so. -/
def init_results (failed : Resource → Bool) (imageCount : Nat) (e : Engine) : Engine :=
  let e1 := e |>.createUnchecked failed Resource.glfw |>.createUnchecked failed Resource.window
    |> init_vulkan_results failed |> init_swapchain_results failed imageCount
    |> init_default_renderpass
    |> init_framebuffers |> init_commands |> init_sync_structures
    |> init_descriptors_results failed
    |> init_pipelines_results failed |> load_meshes
  { e1 with _isInitialized := true }

/-- The resources `init` creates and leaves alive, in creation order, for given outcomes
of the unchecked create calls. -/
def initCreatesWith (failed : Resource → Bool) (imageCount : Nat) : List Resource :=
  let tr := (init_results failed imageCount Engine.fresh).trace
  (created tr).filter (fun r => decide (r ∉ destroyed tr))

/-- The resources destroyed by one `cleanup` after one `init`, in call order, for given
outcomes of the unchecked create calls. -/
def cleanupDestroysWith (failed : Resource → Bool) (imageCount : Nat) : List Resource :=
  let e := init_results failed imageCount Engine.fresh
  destroyed ((cleanup e).trace.drop e.trace.length)

/-- The run of `init` in which `vkCreateGraphicsPipelines` fails and every other create
call succeeds. -/
def pipelineFails (r : Resource) : Bool := decide (r = Resource.pipeline)

/-- The run of `init` in which `vkCreateDescriptorPool` fails and every other create call
succeeds. -/
def descriptorPoolFails (r : Resource) : Bool := decide (r = Resource.descriptorPool)

/-- The run of `init` in which every create call succeeds. -/
def nothingFails (_ : Resource) : Bool := false

/-- Whether a deletor of the queue `q` destroys the resource `r`. -/
def queuedIn (q : DeletionQueue Deletor) (r : Resource) : Bool :=
  decide (r ∈ q.deletors.flatten)

/-- The render semaphores (the second of the two semaphores a slot's deletor destroys). -/
def isRenderSemaphore : Resource → Bool
  | Resource.renderSemaphore _ => true
  | _ => false

/-- The resources `cleanup` destroys by explicit calls after the swapchain image views. -/
def explicitTail : List Resource :=
  [Resource.device, Resource.surface, Resource.debugMessenger, Resource.vkInstance,
    Resource.window, Resource.glfw]

/-- The resources whose teardown is specified, for `imageCount` swapchain images: the
single objects, the per-image objects and the per-slot objects. -/
def teardownList (imageCount : Nat) : List Resource :=
  [Resource.allocator, Resource.swapchain, Resource.depthImage, Resource.depthImageView,
    Resource.renderPass, Resource.descriptorPool, Resource.globalSetLayout,
    Resource.objectSetLayout, Resource.sceneParameterBuffer,
    Resource.vertexBuffer MeshName.triangle, Resource.vertexBuffer MeshName.monkey,
    Resource.pipeline, Resource.pipelineLayout, Resource.device, Resource.surface,
    Resource.vkInstance] ++
  (List.range imageCount).map Resource.swapchainImageView ++
  (List.range imageCount).map Resource.framebuffer ++
  (List.range FRAME_OVERLAP).map Resource.commandPool ++
  (List.range FRAME_OVERLAP).map Resource.renderFence ++
  (List.range FRAME_OVERLAP).map Resource.presentSemaphore ++
  (List.range FRAME_OVERLAP).map Resource.renderSemaphore ++
  (List.range FRAME_OVERLAP).map Resource.cameraBuffer ++
  (List.range FRAME_OVERLAP).map Resource.objectBuffer

/-- In the list `l` an occurrence of `a` comes before an occurrence of `b`. -/
def Before (a b : Resource) (l : List Resource) : Prop :=
  ∃ l1 l2 l3, l = l1 ++ a :: (l2 ++ b :: l3)

/-! ## Dynamic offset, last frame, command-pool create-info -/

/-- The local `uint32_t uniform_offset =
(uint32_t)pad_uniform_buffer_size(sizeof(GPUSceneData)) * frameIndex;` of `draw_objects`:
the padded size is truncated to 32 bits, `frameIndex` is converted to `unsigned int`, and
the product is taken modulo `2 ^ 32`. -/
def draw_objects_uniform_offset (minUboAlignment : Nat) (_frameNumber : Int) : Nat :=
  ((pad_uniform_buffer_size minUboAlignment sizeof_GPUSceneData % 2 ^ 32) *
    toUnsigned (draw_objects_frameIndex _frameNumber)) % 2 ^ 32

/-- The slots whose fences the two `vkWaitForFences` calls at the top of `cleanup` wait
on: `get_last_frame()._renderFence`, then `get_current_frame()._renderFence`. -/
def cleanup_fence_waits (_frameNumber : Int) : List Nat :=
  [get_last_frame _frameNumber, get_current_frame _frameNumber]

/-- The value of `VK_STRUCTURE_TYPE_COMMAND_POOL_CREATE_INFO` in the Vulkan headers. -/
def VK_STRUCTURE_TYPE_COMMAND_POOL_CREATE_INFO : Nat := 39

/-- The value of `VK_COMMAND_POOL_CREATE_RESET_COMMAND_BUFFER_BIT` in the Vulkan headers. -/
def VK_COMMAND_POOL_CREATE_RESET_COMMAND_BUFFER_BIT : Nat := 2

/-- The struct `VkCommandPoolCreateInfo` (`pNext` is a null pointer throughout). -/
structure VkCommandPoolCreateInfo where
  sType : Nat
  flags : Nat
  queueFamilyIndex : Nat
  deriving DecidableEq

/-- The function `vkinit::command_pool_create_info`: `info{}` zero-initialises every
field, then `sType` and `flags` are assigned; no statement assigns `queueFamilyIndex`. -/
def command_pool_create_info (queueFamilyIndex : Nat) (flags : Nat) :
    VkCommandPoolCreateInfo :=
  let info : VkCommandPoolCreateInfo := { sType := 0, flags := 0, queueFamilyIndex := 0 }
  let info := { info with sType := VK_STRUCTURE_TYPE_COMMAND_POOL_CREATE_INFO }
  let info := { info with flags := flags }
  info

/-- The create-info `commandPoolInfo` that `init_commands` passes to every
`vkCreateCommandPool` call. -/
def init_commands_commandPoolInfo (_graphicsQueueFamily : Nat) : VkCommandPoolCreateInfo :=
  command_pool_create_info _graphicsQueueFamily VK_COMMAND_POOL_CREATE_RESET_COMMAND_BUFFER_BIT

/-- The resources `init` allocates from the memory allocator (`vmaCreateImage`,
`vmaCreateBuffer`). -/
def allocatedFromAllocator : List Resource :=
  [Resource.depthImage, Resource.sceneParameterBuffer] ++
  (List.range FRAME_OVERLAP).map Resource.cameraBuffer ++
  (List.range FRAME_OVERLAP).map Resource.objectBuffer ++
  [Resource.vertexBuffer MeshName.triangle, Resource.vertexBuffer MeshName.monkey]

/-! ## Shader and model loading -/

/-- The value of `sizeof(uint32_t)`. -/
def sizeof_uint32_t : Nat := 4

/-- The element count of `std::vector<uint32_t> buffer(fileSize / sizeof(uint32_t))` in
`load_shader_module`. -/
def load_shader_module_bufferWords (fileSize : Nat) : Nat := fileSize / sizeof_uint32_t

/-- The size in bytes of the storage of `buffer`. -/
def load_shader_module_bufferBytes (fileSize : Nat) : Nat :=
  load_shader_module_bufferWords fileSize * sizeof_uint32_t

/-- The number of bytes that `file.read((char*)buffer.data(), fileSize)` stores from
`buffer.data()` on, for a file of `fileSize` bytes. -/
def load_shader_module_bytesRead (fileSize : Nat) : Nat := fileSize

/-- The field `createInfo.codeSize = buffer.size() * sizeof(uint32_t)`. -/
def load_shader_module_codeSize (fileSize : Nat) : Nat :=
  sizeMul (load_shader_module_bufferWords fileSize) sizeof_uint32_t

/-- The function `load_shader_module`. `file` is `none` when the file cannot be opened and
otherwise its size in bytes; `createResult` and `shaderModule` are the result code and the
handle produced by `vkCreateShaderModule`; `outShaderModule` is the content of
`*outShaderModule` before the call (`none` for an unset variable). The result is the
returned `bool` and the content of `*outShaderModule` after the call; it is `none` when
`file.read` stores bytes past the end of `buffer`, which is undefined behaviour. -/
def load_shader_module {H : Type} (file : Option Nat) (createResult : Int) (shaderModule : H)
    (outShaderModule : Option H) : Option (Bool × Option H) :=
  match file with
  | none => some (false, outShaderModule)
  | some fileSize =>
    if load_shader_module_bufferBytes fileSize < load_shader_module_bytesRead fileSize then none
    else if createResult ≠ 0 then some (false, outShaderModule)
    else some (true, some shaderModule)

/-- A `glm::vec3` over the scalar type `α`. -/
structure Vec3 (α : Type) where
  x : α
  y : α
  z : α
  deriving DecidableEq

/-- The struct `Vertex`. -/
structure Vertex (α : Type) where
  position : Vec3 α
  normal : Vec3 α
  color : Vec3 α
  deriving DecidableEq

/-- The fields of `tinyobj::index_t` that the loader reads. -/
structure index_t where
  vertex_index : Int
  normal_index : Int
  deriving DecidableEq

/-- The fields of `tinyobj::shape_t::mesh` that the loader reads. -/
structure shape_t where
  indices : List index_t
  num_face_vertices : List Nat
  deriving DecidableEq

/-- The fields of `tinyobj::attrib_t` that the loader reads. -/
structure attrib_t (α : Type) where
  vertices : List α
  normals : List α
  deriving DecidableEq

/-- What `tinyobj::LoadObj` leaves in its output arguments. -/
structure LoadObjOutput (α : Type) where
  attrib : attrib_t α
  shapes : List shape_t
  warn : String
  err : String
  deriving DecidableEq

/-- The element `v[3 * index + k]` of a float array, with the index expression computed in
`int` and converted to `size_t`; `none` when the expression overflows or the access is out
of range (undefined behaviour in the source). -/
def readComponent {α : Type} (v : List α) (index : Int) (k : Int) : Option α :=
  if 0 ≤ 3 * index + k ∧ 3 * index + k ≤ INT_MAX then v.get? (3 * index + k).toNat else none

/-- The body of the innermost loop of `load_from_obj`: the vertex built from
`shapes[s].mesh.indices[pos]`. -/
def loadVertex {α : Type} (attrib : attrib_t α) (indices : List index_t) (pos : Nat) :
    Option (Vertex α) :=
  match indices.get? pos with
  | none => none
  | some idx =>
    match readComponent attrib.vertices idx.vertex_index 0,
          readComponent attrib.vertices idx.vertex_index 1,
          readComponent attrib.vertices idx.vertex_index 2,
          readComponent attrib.normals idx.normal_index 0,
          readComponent attrib.normals idx.normal_index 1,
          readComponent attrib.normals idx.normal_index 2 with
    | some vx, some vy, some vz, some nx, some ny, some nz =>
      some { position := { x := vx, y := vy, z := vz },
             normal := { x := nx, y := ny, z := nz },
             color := { x := nx, y := ny, z := nz } }
    | _, _, _, _, _, _ => none

/-- The loop `for (v = 0; v < fv; v++)` with `fv = 3`: three vertices are pushed. -/
def loadFace {α : Type} (attrib : attrib_t α) (indices : List index_t) (index_offset : Nat)
    (_vertices : List (Vertex α)) : Option (List (Vertex α)) :=
  (List.range 3).foldlM
    (fun vs v => (loadVertex attrib indices (index_offset + v)).map (fun nv => vs ++ [nv]))
    _vertices

/-- The loop over the faces of one shape; `index_offset` starts at 0 and grows by 3. -/
def loadShape {α : Type} (attrib : attrib_t α) (shape : shape_t)
    (_vertices : List (Vertex α)) : Option (List (Vertex α)) :=
  ((List.range shape.num_face_vertices.length).foldlM
    (fun (st : Nat × List (Vertex α)) _ =>
      (loadFace attrib shape.indices st.1 st.2).map (fun vs => (st.1 + 3, vs)))
    (0, _vertices)).map Prod.snd

/-- The method `Mesh::load_from_obj` after `tinyobj::LoadObj` has returned `out`; the
argument `_vertices` is the member before the call. The result is the returned `bool` and
the member after the call, or `none` when an array access is undefined. -/
def load_from_obj {α : Type} (out : LoadObjOutput α) (_vertices : List (Vertex α)) :
    Option (Bool × List (Vertex α)) :=
  if out.err ≠ "" then some (false, _vertices)
  else (out.shapes.foldlM (fun vs shape => loadShape out.attrib shape vs) _vertices).map
    (fun vs => (true, vs))

/-- The lines `init_pipelines` may print. -/
inductive ConsoleLine where
  | errorDefaultLit
  | errorVertexShader
  | vertexShaderLoaded
  deriving DecidableEq

/-- The two shader stages of the mesh pipeline. -/
inductive ShaderStage where
  | vertex
  | fragment
  deriving DecidableEq

/-- The steps of `init_pipelines` and `load_meshes` that follow the load calls. A shader
module variable is `none` while nothing was written to it. -/
inductive InitStep where
  | print (line : ConsoleLine)
  | shaderStage (stage : ShaderStage) (module : Option ShaderName)
  | createPipelineLayout
  | buildPipeline
  | createMaterial
  | destroyShaderModule (module : Option ShaderName)
  | createVertexBuffer (mesh : MeshName) (vertexCount : Nat)
  | copyVertices (mesh : MeshName) (vertexCount : Nat)
  | pushMain (d : Deletor)
  | registerMesh (mesh : MeshName)
  | abort
  deriving DecidableEq

/-- Whether a step is console output. -/
def InitStep.isPrint : InitStep → Bool
  | InitStep.print _ => true
  | _ => false

/-- A step without the data it carries: module variables unset, vertex counts zero. -/
def InitStep.shape : InitStep → InitStep
  | InitStep.shaderStage stage _ => InitStep.shaderStage stage none
  | InitStep.destroyShaderModule _ => InitStep.destroyShaderModule none
  | InitStep.createVertexBuffer mesh _ => InitStep.createVertexBuffer mesh 0
  | InitStep.copyVertices mesh _ => InitStep.copyVertices mesh 0
  | step => step

/-- The steps after a statement `VK_CHECK(call)` whose call returned `result`: the steps
`rest` on success, `abort` otherwise. -/
def afterCheck (result : Int) (rest : List InitStep) : List InitStep :=
  match VK_CHECK (fun (u : Unit) => (result, u)) () with
  | Outcome.continues _ => rest
  | Outcome.aborts _ _ => [InitStep.abort]

/-- The function `init_pipelines`: the two loads (file and `vkCreateShaderModule` result
of each), the console lines, and the steps that follow; `layoutResult` is the result of
the checked `vkCreatePipelineLayout`. `none` when a load is undefined. -/
def init_pipelines_steps (fragFile vertFile : Option Nat) (fragCreate vertCreate : Int)
    (layoutResult : Int) : Option (List InitStep) :=
  match load_shader_module fragFile fragCreate ShaderName.default_lit_frag none with
  | none => none
  | some colorMeshShader =>
    match load_shader_module vertFile vertCreate ShaderName.tri_mesh_ssbo_vert none with
    | none => none
    | some meshVertShader =>
      some
        ((if !colorMeshShader.1 then [InitStep.print ConsoleLine.errorDefaultLit] else []) ++
         (if !meshVertShader.1 then [InitStep.print ConsoleLine.errorVertexShader]
          else [InitStep.print ConsoleLine.vertexShaderLoaded]) ++
         [InitStep.shaderStage ShaderStage.vertex meshVertShader.2,
          InitStep.shaderStage ShaderStage.fragment colorMeshShader.2] ++
         afterCheck layoutResult
           [InitStep.createPipelineLayout, InitStep.buildPipeline, InitStep.createMaterial,
            InitStep.destroyShaderModule meshVertShader.2,
            InitStep.destroyShaderModule colorMeshShader.2,
            InitStep.pushMain [Resource.pipeline, Resource.pipelineLayout]])

/-- The function `upload_mesh` for a mesh with `vertexCount` vertices; `bufferResult` is
the result of the checked `vmaCreateBuffer`, after which `rest` follows. -/
def upload_mesh_steps (mesh : MeshName) (vertexCount : Nat) (bufferResult : Int)
    (rest : List InitStep) : List InitStep :=
  InitStep.createVertexBuffer mesh vertexCount ::
  afterCheck bufferResult
    ([InitStep.pushMain [Resource.vertexBuffer mesh], InitStep.copyVertices mesh vertexCount]
      ++ rest)

/-- The function `load_meshes`: the value returned by `load_from_obj` is not read; the
triangle (3 vertices) and the monkey (whatever `_vertices` holds after the load) are
uploaded and both meshes are stored in `_meshes`. `none` when the load is undefined. -/
def load_meshes_steps {α : Type} (out : LoadObjOutput α) (triResult monkeyResult : Int) :
    Option (List InitStep) :=
  match load_from_obj out [] with
  | none => none
  | some loaded =>
    some (upload_mesh_steps MeshName.triangle 3 triResult
      (upload_mesh_steps MeshName.monkey loaded.2.length monkeyResult
        [InitStep.registerMesh MeshName.monkey, InitStep.registerMesh MeshName.triangle]))

/-! ## The operations of one `draw` -/

/-- The API operations of `draw`, each with the slot whose objects it is given: fence,
command buffer, semaphores, per-frame buffers. -/
inductive DrawOp where
  | waitForFences (fence : Nat)
  | resetFences (fence : Nat)
  | resetCommandBuffer (cmd : Nat)
  | acquireNextImage (presentSemaphore : Nat)
  | beginCommandBuffer (cmd : Nat)
  | cmdBeginRenderPass (cmd : Nat)
  | draw_objects (cmd : Nat) (frameBuffers : Nat)
  | cmdEndRenderPass (cmd : Nat)
  | endCommandBuffer (cmd : Nat)
  | queueSubmit (cmd : Nat) (waitSemaphore : Nat) (signalSemaphore : Nat) (fence : Nat)
  | queuePresent (waitSemaphore : Nat)
  deriving DecidableEq

/-- The operation performed by the next statement of `draw`, if it performs one: the
handles come from the local copy `frame`, except that `draw_objects` takes the per-frame
buffers from `get_current_frame()`. -/
def hostOp (s : LoopState) : Option DrawOp :=
  match s.pc with
  | DrawPc.getFrame => none
  | DrawPc.waitForFences => some (DrawOp.waitForFences s.frame)
  | DrawPc.resetFences => some (DrawOp.resetFences s.frame)
  | DrawPc.resetCommandBuffer => some (DrawOp.resetCommandBuffer s.frame)
  | DrawPc.acquireNextImage => some (DrawOp.acquireNextImage s.frame)
  | DrawPc.beginCommandBuffer => some (DrawOp.beginCommandBuffer s.frame)
  | DrawPc.cmdBeginRenderPass => some (DrawOp.cmdBeginRenderPass s.frame)
  | DrawPc.drawObjects =>
      some (DrawOp.draw_objects s.frame (get_current_frame s._frameNumber))
  | DrawPc.cmdEndRenderPass => some (DrawOp.cmdEndRenderPass s.frame)
  | DrawPc.endCommandBuffer => some (DrawOp.endCommandBuffer s.frame)
  | DrawPc.queueSubmit => some (DrawOp.queueSubmit s.frame s.frame s.frame s.frame)
  | DrawPc.queuePresent => some (DrawOp.queuePresent s.frame)
  | DrawPc.incFrameNumber => none

/-- The operations the host performs along a sequence of steps, in order. -/
def runOps : List Label → LoopState → List DrawOp
  | [], _ => []
  | l :: ls, s =>
    match step l s with
    | none => []
    | some t =>
      (match l with
        | Label.host _ => (hostOp s).toList
        | Label.gpu _ => []) ++ runOps ls t

/-- The operations of one call of `draw` in which every API call returns `VK_SUCCESS`. -/
def drawOps (s : LoopState) : List DrawOp :=
  runOps (List.replicate 13 (Label.host 0)) s

/-- Whether an operation is a queue submission. -/
def DrawOp.isSubmit : DrawOp → Bool
  | DrawOp.queueSubmit _ _ _ _ => true
  | _ => false

/-- Whether an operation is a present. -/
def DrawOp.isPresent : DrawOp → Bool
  | DrawOp.queuePresent _ => true
  | _ => false

/-! ## Result codes of the API calls -/

/-- The calls of `init`, `draw` and `cleanup` that return a `VkResult`. -/
inductive Api where
  | glfwCreateWindowSurface
  | vmaCreateAllocator
  | vmaCreateImage
  | vkCreateImageView
  | vkCreateRenderPass
  | vkCreateFramebuffer
  | vkCreateCommandPool
  | vkAllocateCommandBuffers
  | vkCreateFence
  | vkCreateSemaphore
  | vkCreateDescriptorPool
  | vkCreateDescriptorSetLayout
  | vmaCreateBuffer
  | vkAllocateDescriptorSets
  | vkCreateShaderModule
  | vkCreatePipelineLayout
  | vkCreateGraphicsPipelines
  | vmaMapMemory
  | vkWaitForFences
  | vkResetFences
  | vkResetCommandBuffer
  | vkAcquireNextImageKHR
  | vkBeginCommandBuffer
  | vkEndCommandBuffer
  | vkQueueSubmit
  | vkQueuePresentKHR
  deriving DecidableEq

/-- What the source does with the result code of a call: wraps the call in `VK_CHECK`,
compares the code with `VK_SUCCESS` and returns `false` or a null handle on a mismatch, or
does not read it. -/
inductive Handling where
  | vkCheck
  | compared
  | discarded
  deriving DecidableEq

/-- A call in the source together with the treatment of its result. -/
structure CallSite where
  api : Api
  handling : Handling
  deriving DecidableEq

/-- The result-returning calls of `init`, in execution order, for `imageCount` swapchain
images (both shader files open). -/
def initCalls (imageCount : Nat) : List CallSite :=
  -- init_vulkan
  [⟨Api.glfwCreateWindowSurface, Handling.discarded⟩,
   ⟨Api.vmaCreateAllocator, Handling.discarded⟩,
  -- init_swapchain
   ⟨Api.vmaCreateImage, Handling.discarded⟩,
   ⟨Api.vkCreateImageView, Handling.vkCheck⟩,
  -- init_default_renderpass
   ⟨Api.vkCreateRenderPass, Handling.vkCheck⟩] ++
  -- init_framebuffers
  List.replicate imageCount ⟨Api.vkCreateFramebuffer, Handling.vkCheck⟩ ++
  -- init_commands
  (List.replicate FRAME_OVERLAP
    [⟨Api.vkCreateCommandPool, Handling.vkCheck⟩,
     ⟨Api.vkAllocateCommandBuffers, Handling.vkCheck⟩]).flatten ++
  -- init_sync_structures
  (List.replicate FRAME_OVERLAP
    [⟨Api.vkCreateFence, Handling.vkCheck⟩,
     ⟨Api.vkCreateSemaphore, Handling.vkCheck⟩,
     ⟨Api.vkCreateSemaphore, Handling.vkCheck⟩]).flatten ++
  -- init_descriptors
  [⟨Api.vkCreateDescriptorPool, Handling.discarded⟩,
   ⟨Api.vkCreateDescriptorSetLayout, Handling.discarded⟩,
   ⟨Api.vkCreateDescriptorSetLayout, Handling.discarded⟩,
   ⟨Api.vmaCreateBuffer, Handling.vkCheck⟩] ++
  (List.replicate FRAME_OVERLAP
    [⟨Api.vmaCreateBuffer, Handling.vkCheck⟩,
     ⟨Api.vmaCreateBuffer, Handling.vkCheck⟩,
     ⟨Api.vkAllocateDescriptorSets, Handling.discarded⟩,
     ⟨Api.vkAllocateDescriptorSets, Handling.discarded⟩]).flatten ++
  -- init_pipelines
  [⟨Api.vkCreateShaderModule, Handling.compared⟩,
   ⟨Api.vkCreateShaderModule, Handling.compared⟩,
   ⟨Api.vkCreatePipelineLayout, Handling.vkCheck⟩,
   ⟨Api.vkCreateGraphicsPipelines, Handling.compared⟩,
  -- load_meshes
   ⟨Api.vmaCreateBuffer, Handling.vkCheck⟩,
   ⟨Api.vmaMapMemory, Handling.discarded⟩,
   ⟨Api.vmaCreateBuffer, Handling.vkCheck⟩,
   ⟨Api.vmaMapMemory, Handling.discarded⟩]

/-- The result-returning calls of one `draw`, in execution order. -/
def drawCalls : List CallSite :=
  [⟨Api.vkWaitForFences, Handling.vkCheck⟩,
   ⟨Api.vkResetFences, Handling.vkCheck⟩,
   ⟨Api.vkResetCommandBuffer, Handling.vkCheck⟩,
   ⟨Api.vkAcquireNextImageKHR, Handling.vkCheck⟩,
   ⟨Api.vkBeginCommandBuffer, Handling.vkCheck⟩,
  -- draw_objects
   ⟨Api.vmaMapMemory, Handling.discarded⟩,
   ⟨Api.vmaMapMemory, Handling.discarded⟩,
   ⟨Api.vmaMapMemory, Handling.discarded⟩,
   ⟨Api.vkEndCommandBuffer, Handling.vkCheck⟩,
   ⟨Api.vkQueueSubmit, Handling.vkCheck⟩,
   ⟨Api.vkQueuePresentKHR, Handling.vkCheck⟩]

/-- The result-returning calls of `cleanup`, in execution order. -/
def cleanupCalls : List CallSite :=
  [⟨Api.vkWaitForFences, Handling.discarded⟩,
   ⟨Api.vkWaitForFences, Handling.discarded⟩]

/-- The result-returning calls of a run of the engine: `init`, `frames` calls of `draw`,
`cleanup`. -/
def engineCalls (imageCount frames : Nat) : List CallSite :=
  initCalls imageCount ++ (List.replicate frames drawCalls).flatten ++ cleanupCalls

/-- The process as far as result codes matter: the calls made with their results, and
whether `abort()` was called. -/
structure Process where
  calls : List (Api × Int)
  aborted : Bool
  deriving DecidableEq

/-- A process that has made no call. -/
def Process.start : Process := { calls := [], aborted := false }

/-- One call returning `result`, treated as its call site says. After a comparison with
`VK_SUCCESS` the enclosing function returns and its caller goes on. -/
def callSite (c : CallSite) (result : Int) (p : Process) : Process :=
  let made : Process → Int × Process :=
    fun q => (result, { q with calls := q.calls ++ [(c.api, result)] })
  match c.handling with
  | Handling.vkCheck =>
    match VK_CHECK made p with
    | Outcome.continues q => q
    | Outcome.aborts _ q => { q with aborted := true }
  | Handling.compared => (made p).2
  | Handling.discarded => (made p).2

/-- The calls `cs` made one after the other with the results `rs` (success where the
list is too short); nothing is called after `abort()`. -/
def execCalls : List CallSite → List Int → Process → Process
  | [], _, p => p
  | c :: cs, rs, p =>
    if p.aborted then p else execCalls cs rs.tail (callSite c (rs.headD 0) p)

/-! ## Vertex description, framebuffer create-infos -/

/-- The value of `sizeof(glm::vec3)`: three 4-byte floats. -/
def sizeof_vec3 : Nat := 3 * 4

/-- The value of `sizeof(Vertex)`: the three `glm::vec3` members, without padding. -/
def sizeof_Vertex : Nat := sizeof_vec3 + sizeof_vec3 + sizeof_vec3

/-- The value of `offsetof(Vertex, position)`. -/
def offsetof_Vertex_position : Nat := 0

/-- The value of `offsetof(Vertex, normal)`. -/
def offsetof_Vertex_normal : Nat := sizeof_vec3

/-- The value of `offsetof(Vertex, color)`. -/
def offsetof_Vertex_color : Nat := sizeof_vec3 + sizeof_vec3

/-- The value of `VK_VERTEX_INPUT_RATE_VERTEX` in the Vulkan headers. -/
def VK_VERTEX_INPUT_RATE_VERTEX : Nat := 0

/-- The value of `VK_FORMAT_R32G32B32_SFLOAT` in the Vulkan headers. -/
def VK_FORMAT_R32G32B32_SFLOAT : Nat := 106

/-- The number of bytes of one element of format `VK_FORMAT_R32G32B32_SFLOAT`. -/
def sizeof_R32G32B32_SFLOAT : Nat := 3 * 4

/-- The struct `VkVertexInputBindingDescription`. -/
structure VkVertexInputBindingDescription where
  binding : Nat
  stride : Nat
  inputRate : Nat
  deriving DecidableEq

/-- The struct `VkVertexInputAttributeDescription`. -/
structure VkVertexInputAttributeDescription where
  location : Nat
  binding : Nat
  format : Nat
  offset : Nat
  deriving DecidableEq

/-- The struct `VertexInputDescription`. -/
structure VertexInputDescription where
  bindings : List VkVertexInputBindingDescription
  attributes : List VkVertexInputAttributeDescription
  flags : Nat
  deriving DecidableEq

/-- The function `Vertex::get_vertex_description`. -/
def get_vertex_description : VertexInputDescription :=
  let description : VertexInputDescription := { bindings := [], attributes := [], flags := 0 }
  let mainBinding : VkVertexInputBindingDescription :=
    { binding := 0, stride := sizeof_Vertex, inputRate := VK_VERTEX_INPUT_RATE_VERTEX }
  let description := { description with bindings := description.bindings ++ [mainBinding] }
  let positionAttribute : VkVertexInputAttributeDescription :=
    { binding := 0, location := 0, format := VK_FORMAT_R32G32B32_SFLOAT,
      offset := offsetof_Vertex_position }
  let normalAttribute : VkVertexInputAttributeDescription :=
    { binding := 0, location := 1, format := VK_FORMAT_R32G32B32_SFLOAT,
      offset := offsetof_Vertex_normal }
  let colorAttribute : VkVertexInputAttributeDescription :=
    { binding := 0, location := 2, format := VK_FORMAT_R32G32B32_SFLOAT,
      offset := offsetof_Vertex_color }
  let description :=
    { description with attributes := description.attributes ++ [positionAttribute] }
  let description :=
    { description with attributes := description.attributes ++ [normalAttribute] }
  let description :=
    { description with attributes := description.attributes ++ [colorAttribute] }
  description

/-- The fields of `VkFramebufferCreateInfo` that name other objects; `pAttachments` is the
array of `attachmentCount` image views it points to (empty for a null pointer). -/
structure VkFramebufferCreateInfo where
  renderPass : Resource
  attachmentCount : Nat
  pAttachments : List Resource
  deriving DecidableEq

/-- The function `vkinit::framebuffer_create_info`, called with `_renderPass`. -/
def framebuffer_create_info (renderPassHandle : Resource) : VkFramebufferCreateInfo :=
  { renderPass := renderPassHandle, attachmentCount := 1, pAttachments := [] }

/-- The loop of `init_framebuffers` in the final chapter: for each `i` below
`swapchain_imagecount`, the element `_framebuffers[i]` that `vkCreateFramebuffer` fills
and the create-info it is given. The result is the vector `_framebuffers`, element by
element. -/
def init_framebuffers_created (swapchain_imagecount : Nat) :
    List (Resource × VkFramebufferCreateInfo) :=
  let fb_info := framebuffer_create_info Resource.renderPass
  (List.range swapchain_imagecount).map (fun i =>
    let attachments := [Resource.swapchainImageView i, Resource.depthImageView]
    let fb_info := { fb_info with attachmentCount := 2 }
    let fb_info := { fb_info with pAttachments := attachments }
    (Resource.framebuffer i, fb_info))

/-- The loop of `init_framebuffers` in Chapter 1, where the only attachment is the
swapchain image view. -/
def init_framebuffers_created_chapter1 (swapchain_imagecount : Nat) :
    List (Resource × VkFramebufferCreateInfo) :=
  let fb_info := framebuffer_create_info Resource.renderPass
  (List.range swapchain_imagecount).map (fun i =>
    let fb_info := { fb_info with pAttachments := [Resource.swapchainImageView i] }
    (Resource.framebuffer i, fb_info))

/-! ## The scene and `draw_objects` -/

/-- The constant `MAX_OBJECTS` of `init_descriptors`: the number of `GPUObjectData`
elements of every per-frame object buffer. -/
def MAX_OBJECTS : Nat := 10000

/-- The struct `Material`, with handles as numbers. -/
structure Material where
  pipeline : Nat
  pipelineLayout : Nat
  deriving DecidableEq

/-- The struct `Mesh`; `_vertexBuffer` is the handle `_vertexBuffer._buffer`. -/
structure Mesh (α : Type) where
  _vertices : List (Vertex α)
  _vertexBuffer : Nat
  deriving DecidableEq

/-- The struct `RenderObject`. A pointer into `_meshes` or `_materials` is the key of the
map entry it points to; `none` is `nullptr`. `M` is the type of `glm::mat4`. -/
structure RenderObject (M : Type) where
  mesh : Option String
  material : Option String
  tranformMatrix : M
  deriving DecidableEq

/-- The commands `draw_objects` records into the command buffer. -/
inductive Cmd (M : Type) where
  | bindPipeline (pipeline : Nat)
  | bindGlobalDescriptor (layout : Nat) (slot : Nat) (uniform_offset : Nat)
  | bindObjectDescriptor (layout : Nat) (slot : Nat)
  | pushConstants (layout : Nat) (render_matrix : M)
  | bindVertexBuffers (buffer : Nat)
  | draw (vertexCount : Nat) (instanceCount : Nat) (firstVertex : Nat) (firstInstance : Nat)
  deriving DecidableEq

/-- The host-side data `draw` works on. The ambient colour of `_sceneParameters` is kept
as the frame number it was computed from; a camera buffer as whether `camData` was copied
into it; the scene-parameter buffer as the writes made to it (byte offset, content). -/
structure HostState (α M : Type) where
  _frameNumber : Int
  minUboAlignment : Nat
  _renderables : List (RenderObject M)
  _meshes : List (String × Mesh α)
  _materials : List (String × Material)
  ambientFrame : Int
  cameraBuffers : List Bool
  sceneBufferWrites : List (Nat × Int)
  objectBuffers : List (List (Option M))
  commandBuffers : List (List (Cmd M))

/-- The function `get_mesh`: a pointer to the entry, `nullptr` when there is none. -/
def get_mesh {α M : Type} (s : HostState α M) (name : String) : Option String :=
  match s._meshes.lookup name with
  | some _ => some name
  | none => none

/-- The function `get_material`. -/
def get_material {α M : Type} (s : HostState α M) (name : String) : Option String :=
  match s._materials.lookup name with
  | some _ => some name
  | none => none

/-- The mesh a pointer points to; `none` for `nullptr` (dereferencing it is undefined). -/
def derefMesh {α M : Type} (s : HostState α M) (p : Option String) : Option (Mesh α) :=
  p.bind (fun k => s._meshes.lookup k)

/-- The material a pointer points to; `none` for `nullptr`. -/
def derefMaterial {α M : Type} (s : HostState α M) (p : Option String) : Option Material :=
  p.bind (fun k => s._materials.lookup k)

/-- The loop `for (i = 0; i < count; i++) objectSSBO[i].modelMatrix = first[i].tranformMatrix`
from index `i` on; `none` when an element outside the mapped buffer would be written. -/
def writeObjectBuffer {M : Type} : Nat → List (RenderObject M) → List (Option M) →
    Option (List (Option M))
  | _, [], buf => some buf
  | i, object :: rest, buf =>
    if i < buf.length then writeObjectBuffer (i + 1) rest (buf.set i (some object.tranformMatrix))
    else none

/-- The second loop of `draw_objects` from index `i` on, with the current values of
`lastMesh` and `lastMaterial`: the commands recorded, or `none` when a null pointer is
dereferenced. -/
def recordObjects {α M : Type} (s : HostState α M) (slot : Nat) (uniform_offset : Nat) :
    Nat → Option String → Option String → List (RenderObject M) → Option (List (Cmd M))
  | _, _, _, [] => some []
  | i, lastMesh, lastMaterial, object :: rest =>
    match derefMaterial s object.material, derefMesh s object.mesh with
    | some material, some mesh =>
      let bindMaterial :=
        if object.material ≠ lastMaterial then
          [Cmd.bindPipeline material.pipeline,
           Cmd.bindGlobalDescriptor material.pipelineLayout slot uniform_offset,
           Cmd.bindObjectDescriptor material.pipelineLayout slot]
        else []
      let lastMaterial := if object.material ≠ lastMaterial then object.material else lastMaterial
      let push := [Cmd.pushConstants material.pipelineLayout object.tranformMatrix]
      let bindMesh :=
        if object.mesh ≠ lastMesh then [Cmd.bindVertexBuffers mesh._vertexBuffer] else []
      let lastMesh := if object.mesh ≠ lastMesh then object.mesh else lastMesh
      let drawCmd := [Cmd.draw (mesh._vertices.length % 2 ^ 32) 1 0 (i % 2 ^ 32)]
      (recordObjects s slot uniform_offset (i + 1) lastMesh lastMaterial rest).map
        (fun cmds => bindMaterial ++ push ++ bindMesh ++ drawCmd ++ cmds)
    | _, _ => none

/-- The function `draw_objects(cmd, first, count)` with `first` the `count` objects and
`cmd` the command buffer of the current slot (every mapping of memory succeeds). -/
def draw_objects {α M : Type} (s : HostState α M) (first : List (RenderObject M)) :
    Option (HostState α M) :=
  let slot := get_current_frame s._frameNumber
  let s1 := { s with cameraBuffers := s.cameraBuffers.set slot true }
  let s2 := { s1 with ambientFrame := s1._frameNumber }
  let s3 := { s2 with
    sceneBufferWrites := s2.sceneBufferWrites ++
      [(draw_objects_sceneOffset s2.minUboAlignment s2._frameNumber, s2.ambientFrame)] }
  match s3.objectBuffers.get? slot with
  | none => none
  | some objectSSBO =>
    match writeObjectBuffer 0 first objectSSBO with
    | none => none
    | some written =>
      let s4 := { s3 with objectBuffers := s3.objectBuffers.set slot written }
      match recordObjects s4 slot (draw_objects_uniform_offset s4.minUboAlignment s4._frameNumber)
          0 none none first with
      | none => none
      | some cmds =>
        some { s4 with
          commandBuffers :=
            s4.commandBuffers.set slot (s4.commandBuffers.getD slot [] ++ cmds) }

/-- The host-side data flow of one `draw` whose API calls all succeed: the command buffer
of the current slot is reset, `draw_objects` runs on `_renderables`, and `_frameNumber` is
incremented. -/
def draw_host {α M : Type} (s : HostState α M) : Option (HostState α M) :=
  let slot := get_current_frame s._frameNumber
  let s1 := { s with commandBuffers := s.commandBuffers.set slot [] }
  match draw_objects s1 s1._renderables with
  | none => none
  | some s2 => some { s2 with _frameNumber := incFrameNumber s2._frameNumber }

/-- The values `lo, lo + 1, ..., hi` of a loop `for (int x = lo; x <= hi; x++)`. -/
def intRange (lo hi : Int) : List Int :=
  (List.range (hi - lo + 1).toNat).map (fun k => lo + (k : Int))

/-- The function `init_scene`; `monkeyMatrix` and `triMatrix x y` stand for the matrices
computed with `glm::translate` and `glm::scale`. -/
def init_scene {α M : Type} (monkeyMatrix : M) (triMatrix : Int → Int → M)
    (s : HostState α M) : HostState α M :=
  let monkey : RenderObject M :=
    { mesh := get_mesh s "monkey", material := get_material s "defaultMesh",
      tranformMatrix := monkeyMatrix }
  let s1 := { s with _renderables := s._renderables ++ [monkey] }
  (intRange (-20) 20).foldl (fun sx x =>
    (intRange (-20) 20).foldl (fun sy y =>
      let tri : RenderObject M :=
        { mesh := get_mesh sy "triangle", material := get_material sy "defaultMesh",
          tranformMatrix := triMatrix x y }
      { sy with _renderables := sy._renderables ++ [tri] }) sx) s1

/-- The pipeline and the vertex buffer bound when each draw command of a command list is
reached, starting from the bindings `bound`. -/
def boundAtDraws {M : Type} : List (Cmd M) → Option Nat × Option Nat →
    List (Option Nat × Option Nat)
  | [], _ => []
  | Cmd.bindPipeline p :: rest, bound => boundAtDraws rest (some p, bound.2)
  | Cmd.bindVertexBuffers b :: rest, bound => boundAtDraws rest (bound.1, some b)
  | Cmd.draw _ _ _ _ :: rest, bound => bound :: boundAtDraws rest bound
  | _ :: rest, bound => boundAtDraws rest bound

/-- The draw commands of a command list, as (vertex count, first instance). -/
def drawsOf {M : Type} : List (Cmd M) → List (Nat × Nat)
  | [] => []
  | Cmd.draw vertexCount _ _ firstInstance :: rest => (vertexCount, firstInstance) :: drawsOf rest
  | _ :: rest => drawsOf rest

/-- A render object whose mesh and material pointers point to entries of the maps. -/
def validObject {α M : Type} (s : HostState α M) (object : RenderObject M) : Prop :=
  (derefMesh s object.mesh).isSome = true ∧ (derefMaterial s object.material).isSome = true

instance validObject_decidable {α M : Type} (s : HostState α M) (object : RenderObject M) :
    Decidable (validObject s object) := by
  unfold validObject
  infer_instance

/-- The second loop of `draw_objects` without the caching: the pipeline, the descriptor
sets and the vertex buffer are bound again for every object. -/
def recordObjectsRebinding {α M : Type} (s : HostState α M) (slot : Nat)
    (uniform_offset : Nat) : Nat → List (RenderObject M) → Option (List (Cmd M))
  | _, [] => some []
  | i, object :: rest =>
    match derefMaterial s object.material, derefMesh s object.mesh with
    | some material, some mesh =>
      (recordObjectsRebinding s slot uniform_offset (i + 1) rest).map (fun cmds =>
        [Cmd.bindPipeline material.pipeline,
         Cmd.bindGlobalDescriptor material.pipelineLayout slot uniform_offset,
         Cmd.bindObjectDescriptor material.pipelineLayout slot,
         Cmd.pushConstants material.pipelineLayout object.tranformMatrix,
         Cmd.bindVertexBuffers mesh._vertexBuffer,
         Cmd.draw (mesh._vertices.length % 2 ^ 32) 1 0 (i % 2 ^ 32)] ++ cmds)
    | _, _ => none

/-- A state after `init` for a scene of two meshes and one material, before the first
frame: object buffers of `MAX_OBJECTS` elements, empty command buffers. -/
def exampleState : HostState Nat Nat :=
  { _frameNumber := 0, minUboAlignment := 64, _renderables := [],
    _meshes := [("monkey", { _vertices := [], _vertexBuffer := 7 }),
                ("triangle", { _vertices := [], _vertexBuffer := 8 })],
    _materials := [("defaultMesh", { pipeline := 100, pipelineLayout := 200 })],
    ambientFrame := 0, cameraBuffers := [false, false], sceneBufferWrites := [],
    objectBuffers := [List.replicate MAX_OBJECTS none, List.replicate MAX_OBJECTS none],
    commandBuffers := [[], []] }

/-- A render object of `exampleState`: a triangle with transform `m`. -/
def exampleTriangle (m : Nat) : RenderObject Nat :=
  { mesh := some "triangle", material := some "defaultMesh", tranformMatrix := m }

/-- What `draw` needs of a host state: the pointers of the renderables point to map
entries, the renderables fit the object buffers, and every slot has an object buffer of
`MAX_OBJECTS` elements. -/
def SceneOk {α M : Type} (s : HostState α M) : Prop :=
  (∀ o ∈ s._renderables, validObject s o) ∧
  s._renderables.length ≤ MAX_OBJECTS ∧
  s.objectBuffers.length = FRAME_OVERLAP ∧
  (∀ b ∈ s.objectBuffers, b.length = MAX_OBJECTS)

/-- The host-side data flow of `n` successive calls of `draw`. -/
def drawFrames {α M : Type} : Nat → HostState α M → Option (HostState α M)
  | 0, s => some s
  | n + 1, s => (draw_host s).bind (drawFrames n)

/-- The vertex the innermost loop body of `load_from_obj` builds from the index `idx`:
the six array reads and the copy into `newVert`. -/
def vertexOfIndex {α : Type} (attrib : attrib_t α) (idx : index_t) : Option (Vertex α) :=
  match readComponent attrib.vertices idx.vertex_index 0,
        readComponent attrib.vertices idx.vertex_index 1,
        readComponent attrib.vertices idx.vertex_index 2,
        readComponent attrib.normals idx.normal_index 0,
        readComponent attrib.normals idx.normal_index 1,
        readComponent attrib.normals idx.normal_index 2 with
  | some vx, some vy, some vz, some nx, some ny, some nz =>
    some { position := { x := vx, y := vy, z := vz },
           normal := { x := nx, y := ny, z := nz },
           color := { x := nx, y := ny, z := nz } }
  | _, _, _, _, _, _ => none

/-- An index whose vertex and normal index are in range: not negative, and the largest
index expression `3 * index + 2` is an `int` and lies inside the array. -/
def indexInRange {α : Type} (attrib : attrib_t α) (idx : index_t) : Prop :=
  (0 ≤ idx.vertex_index ∧ 3 * idx.vertex_index + 2 ≤ INT_MAX ∧
    (3 * idx.vertex_index + 2).toNat < attrib.vertices.length) ∧
  (0 ≤ idx.normal_index ∧ 3 * idx.normal_index + 2 ≤ INT_MAX ∧
    (3 * idx.normal_index + 2).toNat < attrib.normals.length)

instance indexInRange_decidable {α : Type} (attrib : attrib_t α) (idx : index_t) :
    Decidable (indexInRange attrib idx) := by
  unfold indexInRange
  infer_instance

/-- A shape all of whose faces are triangles: every entry of `num_face_vertices` is 3 and
`indices` holds one index per face corner. -/
def allTriangles (shape : shape_t) : Prop :=
  (∀ n ∈ shape.num_face_vertices, n = 3) ∧
  shape.indices.length = shape.num_face_vertices.sum

instance allTriangles_decidable (shape : shape_t) : Decidable (allTriangles shape) := by
  unfold allTriangles
  infer_instance

/-- A loader output for one triangle with three positions and three normals. -/
def exampleObj : LoadObjOutput Nat :=
  { attrib := { vertices := [0, 1, 2, 3, 4, 5, 6, 7, 8],
                normals := [10, 11, 12, 13, 14, 15, 16, 17, 18] },
    shapes := [{ indices := [{ vertex_index := 2, normal_index := 0 },
                             { vertex_index := 0, normal_index := 1 },
                             { vertex_index := 1, normal_index := 2 }],
                 num_face_vertices := [3] }],
    warn := "", err := "" }

/-! ## Bitwise lemmas -/

theorem and_high_mask (w k x : Nat) (hk : k ≤ w) (hx : x < 2 ^ w) :
    x &&& (2 ^ w - 2 ^ k) = x / 2 ^ k * 2 ^ k := by
  have hmask : 2 ^ w - 2 ^ k = 2 ^ k * (2 ^ (w - k) - 1) := by
    have : 2 ^ w = 2 ^ k * 2 ^ (w - k) := by rw [← pow_add]; congr 1; omega
    rw [this, Nat.mul_sub, Nat.mul_one]
  apply Nat.eq_of_testBit_eq
  intro i
  rw [Nat.testBit_and, hmask, Nat.mul_comm (x / 2 ^ k), Nat.testBit_mul_pow_two,
    Nat.testBit_mul_pow_two, Nat.testBit_two_pow_sub_one, ← Nat.shiftRight_eq_div_pow,
    Nat.testBit_shiftRight]
  by_cases hik : i ≥ k
  · have e : k + (i - k) = i := by omega
    by_cases hiw : i < w
    · have : i - k < w - k := by omega
      simp [hik, this, e]
    · have hx0 : x.testBit i = false :=
        Nat.testBit_lt_two_pow (lt_of_lt_of_le hx (Nat.pow_le_pow_right (by decide) (by omega)))
      simp [hik, e, hx0]
  · simp [hik]

theorem and_compl_split (w x m : Nat) (hx : x < 2 ^ w) (hm : m < 2 ^ w) :
    (x &&& m) + (x &&& (2 ^ w - 1 - m)) = x := by
  have h0 : (BitVec.ofNat w x &&& BitVec.ofNat w m) &&&
      (BitVec.ofNat w x &&& ~~~ BitVec.ofNat w m) = 0#w := by
    ext i
    simp
    intro _ h2 _
    simp [h2]
  have h1 := BitVec.toNat_add_of_and_eq_zero h0
  have h2 : (BitVec.ofNat w x &&& BitVec.ofNat w m) +
      (BitVec.ofNat w x &&& ~~~ BitVec.ofNat w m) = BitVec.ofNat w x := by
    rw [BitVec.add_eq_or_of_and_eq_zero _ _ h0]
    ext i
    simp only [BitVec.getLsbD_or, BitVec.getLsbD_and, BitVec.getLsbD_not]
    cases (BitVec.ofNat w x).getLsbD ↑i <;> cases (BitVec.ofNat w m).getLsbD ↑i <;> simp
  rw [h2] at h1
  simp only [BitVec.toNat_and, BitVec.toNat_not, BitVec.toNat_ofNat, Nat.mod_eq_of_lt hx,
    Nat.mod_eq_of_lt hm] at h1
  exact h1.symm

/-- With a positive alignment and no overflow the padded size is the masked sum. -/
theorem pad_uniform_buffer_size_pos (a s : Nat) (ha : 0 < a) (hov : s + a - 1 < 2 ^ 64) :
    pad_uniform_buffer_size a s = (s + a - 1) &&& (2 ^ 64 - a) := by
  have e1 : sizeSub (sizeAdd s a) 1 = s + a - 1 := by
    simp only [sizeSub, sizeAdd, SIZE_BITS]
    norm_num
    omega
  have e2 : sizeNot (sizeSub a 1) = 2 ^ 64 - a := by
    simp only [sizeSub, sizeNot, SIZE_BITS]
    norm_num
    omega
  simp only [pad_uniform_buffer_size, ha, if_true, sizeAnd, e1, e2, gt_iff_lt]

/-- For a power-of-two alignment the padded size is the rounded-up quotient times the alignment. -/
theorem pad_uniform_buffer_size_pow2 (k s : Nat) (hov : s + 2 ^ k - 1 < 2 ^ 64) :
    pad_uniform_buffer_size (2 ^ k) s = (s + 2 ^ k - 1) / 2 ^ k * 2 ^ k := by
  have hpos : 0 < 2 ^ k := Nat.pos_pow_of_pos k (by decide)
  have hk : k ≤ 64 := by
    by_contra h
    have : 2 ^ 65 ≤ 2 ^ k := Nat.pow_le_pow_right (by decide) (by omega)
    omega
  rw [pad_uniform_buffer_size_pos _ _ hpos hov]
  exact and_high_mask 64 k _ hk hov

/-- The quotient form is the least multiple of the alignment that is not below the size. -/
theorem round_up_least (a s : Nat) (ha : 0 < a) :
    a ∣ (s + a - 1) / a * a ∧ s ≤ (s + a - 1) / a * a ∧
      ∀ m, a ∣ m → s ≤ m → (s + a - 1) / a * a ≤ m := by
  refine ⟨Dvd.intro_left _ rfl, ?_, ?_⟩
  · have h1 := Nat.div_add_mod (s + a - 1) a
    have h2 := Nat.mod_lt (s + a - 1) ha
    rw [Nat.mul_comm] at h1
    omega
  · rintro m ⟨q, rfl⟩ hs
    rw [Nat.mul_comm a q]
    apply Nat.mul_le_mul_right
    rw [Nat.div_le_iff_le_mul_add_pred ha]
    omega

/-- C1: for a power-of-two alignment `a` with `s + a - 1` inside `size_t`,
`pad_uniform_buffer_size` returns the smallest multiple of `a` that is at least `s`;
with alignment `0` the size is returned unchanged. -/
theorem pad_uniform_buffer_size_round_up (s a k : Nat) (ha : a = 2 ^ k)
    (hov : s + a - 1 < 2 ^ 64) :
    (a ∣ pad_uniform_buffer_size a s ∧ s ≤ pad_uniform_buffer_size a s ∧
      ∀ m, a ∣ m → s ≤ m → pad_uniform_buffer_size a s ≤ m) ∧
    pad_uniform_buffer_size 0 s = s := by
  subst ha
  refine ⟨?_, rfl⟩
  rw [pad_uniform_buffer_size_pow2 k s hov]
  exact round_up_least _ s (Nat.pos_pow_of_pos k (by decide))

/-- Instance at alignment 256 and size 80, where the padded size is 256. -/
theorem pad_uniform_buffer_size_round_up_witness :
    ((256 ∣ pad_uniform_buffer_size 256 80 ∧ 80 ≤ pad_uniform_buffer_size 256 80 ∧
      ∀ m, 256 ∣ m → 80 ≤ m → pad_uniform_buffer_size 256 80 ≤ m) ∧
    pad_uniform_buffer_size 0 80 = 80) ∧ pad_uniform_buffer_size 256 80 = 256 :=
  ⟨pad_uniform_buffer_size_round_up 80 256 8 (by decide) (by decide), by decide⟩

/-! ## Frame slots: theorems -/

theorem get_current_frame_eq_mod (n : Int) :
    ((get_current_frame n : Nat) : Int) = n % 2 := by
  simp only [get_current_frame, toUnsigned, FRAME_OVERLAP]
  norm_num
  omega

theorem get_current_frame_lt (n : Int) : get_current_frame n < FRAME_OVERLAP := by
  simp only [get_current_frame, FRAME_OVERLAP]
  omega

theorem get_current_frame_succ (n : Int) :
    get_current_frame (n + 1) = 1 - get_current_frame n := by
  simp only [get_current_frame, toUnsigned, FRAME_OVERLAP]
  norm_num
  omega

theorem incFrameNumber_eq (n : Int) (h0 : 0 ≤ n) (h1 : n < INT_MAX) :
    incFrameNumber n = n + 1 := by
  simp only [incFrameNumber, toInt, toUnsigned, INT_MAX] at *
  norm_num at *
  omega

theorem draw_objects_frameIndex_eq (n : Int) :
    draw_objects_frameIndex n = ((get_current_frame n : Nat) : Int) := by
  have h := get_current_frame_lt n
  change toInt (get_current_frame n) = _
  simp only [FRAME_OVERLAP] at h
  simp only [toInt]
  have : get_current_frame n % 2 ^ 32 = get_current_frame n := Nat.mod_eq_of_lt (by omega)
  rw [this, if_pos (by omega)]

/-- C4: for every frame number `n` (in particular every `n ≥ 0`), `get_current_frame`
indexes `_frames` at `n mod 2`, a valid index (0 or 1) of the array of `FRAME_OVERLAP = 2`
slots, and `draw_objects` computes the same index for its scene-data offset. -/
theorem get_current_frame_valid_index (n : Int) :
    ((get_current_frame n : Nat) : Int) = n % 2 ∧
    FRAME_OVERLAP = 2 ∧ Engine.fresh._frames.length = FRAME_OVERLAP ∧
    get_current_frame n < FRAME_OVERLAP ∧
    (get_current_frame n = 0 ∨ get_current_frame n = 1) ∧
    draw_objects_frameIndex n = ((get_current_frame n : Nat) : Int) := by
  have h := get_current_frame_lt n
  refine ⟨get_current_frame_eq_mod n, rfl, rfl, h, ?_, draw_objects_frameIndex_eq n⟩
  simp only [FRAME_OVERLAP] at h
  omega

/-! ## The scene-parameter buffer: theorems -/

/-- Padding never shrinks a size, whatever the alignment, as long as nothing overflows. -/
theorem le_pad_uniform_buffer_size (a s : Nat) (hov : s + a - 1 < 2 ^ 64) :
    s ≤ pad_uniform_buffer_size a s := by
  rcases Nat.eq_zero_or_pos a with h0 | hpos
  · subst h0
    exact Nat.le_of_eq rfl
  · rw [pad_uniform_buffer_size_pos a s hpos hov]
    have hm : a - 1 < 2 ^ 64 := by omega
    have hsplit := and_compl_split 64 (s + a - 1) (a - 1) hov hm
    have hle : (s + a - 1) &&& (a - 1) ≤ a - 1 := Nat.and_le_right
    have e : 2 ^ 64 - 1 - (a - 1) = 2 ^ 64 - a := by omega
    rw [e] at hsplit
    omega

/-- C5: with `S = sizeof(GPUSceneData) = 80` and `P = pad_uniform_buffer_size(S)`, for every
alignment for which neither the padding nor the buffer size overflows `size_t`, the
scene data written for frame number `n` occupies `[P * i, P * i + S)` with `i` the slot
of `n`, lies inside the buffer of `FRAME_OVERLAP * P` bytes allocated by
`init_descriptors`, and is disjoint from the range of every frame number of the other
slot. -/
theorem scene_data_slots_disjoint (a : Nat) (n m : Int)
    (hov : sizeof_GPUSceneData + a - 1 < 2 ^ 64)
    (hmul : FRAME_OVERLAP * pad_uniform_buffer_size a sizeof_GPUSceneData < 2 ^ 64) :
    sizeof_GPUSceneData = 80 ∧
    draw_objects_sceneOffset a n =
      pad_uniform_buffer_size a sizeof_GPUSceneData * get_current_frame n ∧
    sceneParamBufferSize a = FRAME_OVERLAP * pad_uniform_buffer_size a sizeof_GPUSceneData ∧
    draw_objects_sceneOffset a n + sizeof_GPUSceneData ≤ sceneParamBufferSize a ∧
    (get_current_frame n ≠ get_current_frame m →
      ∀ b, ¬ (draw_objects_sceneOffset a n ≤ b ∧
              b < draw_objects_sceneOffset a n + sizeof_GPUSceneData ∧
              draw_objects_sceneOffset a m ≤ b ∧
              b < draw_objects_sceneOffset a m + sizeof_GPUSceneData)) := by
  have hle := le_pad_uniform_buffer_size a sizeof_GPUSceneData hov
  generalize hP : pad_uniform_buffer_size a sizeof_GPUSceneData = P at *
  have hoff : ∀ k : Int, draw_objects_sceneOffset a k = P * get_current_frame k := by
    intro k
    have hlt := get_current_frame_lt k
    have hidx := draw_objects_frameIndex_eq k
    simp only [FRAME_OVERLAP] at hlt hmul
    simp only [draw_objects_sceneOffset, hP, hidx, sizeMul, intToSize, SIZE_BITS]
    have e1 : (((get_current_frame k : Nat) : Int) % 2 ^ 64).toNat = get_current_frame k := by
      norm_num
      omega
    rw [e1]
    apply Nat.mod_eq_of_lt
    have : P * get_current_frame k ≤ P * 1 := Nat.mul_le_mul_left P (by omega)
    omega
  have hsize : sceneParamBufferSize a = FRAME_OVERLAP * P := by
    simp only [sceneParamBufferSize, hP, sizeMul, SIZE_BITS]
    exact Nat.mod_eq_of_lt hmul
  have hn := get_current_frame_lt n
  have hm := get_current_frame_lt m
  simp only [FRAME_OVERLAP] at hn hm hsize
  refine ⟨rfl, hoff n, ?_, ?_, ?_⟩
  · rw [hsize]; rfl
  · rw [hoff n, hsize]
    have : P * get_current_frame n ≤ P * 1 := Nat.mul_le_mul_left P (by omega)
    omega
  · intro hne b
    rw [hoff n, hoff m]
    have hcases : (get_current_frame n = 0 ∧ get_current_frame m = 1) ∨
        (get_current_frame n = 1 ∧ get_current_frame m = 0) := by omega
    rcases hcases with ⟨e1, e2⟩ | ⟨e1, e2⟩ <;> rw [e1, e2] <;> omega

/-- Instance at alignment 64 and frame numbers 3 and 4: offsets 128 and 0 in a buffer of
256 bytes. -/
theorem scene_data_slots_disjoint_witness :
    (sizeof_GPUSceneData = 80 ∧
    draw_objects_sceneOffset 64 3 =
      pad_uniform_buffer_size 64 sizeof_GPUSceneData * get_current_frame 3 ∧
    sceneParamBufferSize 64 = FRAME_OVERLAP * pad_uniform_buffer_size 64 sizeof_GPUSceneData ∧
    draw_objects_sceneOffset 64 3 + sizeof_GPUSceneData ≤ sceneParamBufferSize 64 ∧
    (get_current_frame 3 ≠ get_current_frame 4 →
      ∀ b, ¬ (draw_objects_sceneOffset 64 3 ≤ b ∧
              b < draw_objects_sceneOffset 64 3 + sizeof_GPUSceneData ∧
              draw_objects_sceneOffset 64 4 ≤ b ∧
              b < draw_objects_sceneOffset 64 4 + sizeof_GPUSceneData))) ∧
    draw_objects_sceneOffset 64 3 = 128 ∧ draw_objects_sceneOffset 64 4 = 0 ∧
    sceneParamBufferSize 64 = 256 :=
  ⟨scene_data_slots_disjoint 64 3 4 (by decide) (by decide), by decide, by decide, by decide⟩


/-! ## The frame loop: theorems -/

theorem draw_succeeds (s : LoopState) (hpc : s.pc = DrawPc.getFrame) (hab : s.aborted = false)
    (hf : s.fences.getD (get_current_frame s._frameNumber) false = true) :
    draw s = some
      { _frameNumber := incFrameNumber s._frameNumber, pc := DrawPc.getFrame,
        frame := get_current_frame s._frameNumber,
        fences := s.fences.set (get_current_frame s._frameNumber) false,
        inFlight := s.inFlight ++ [get_current_frame s._frameNumber], aborted := false } := by
  obtain ⟨n, pc, frame, fences, inFlight, aborted⟩ := s
  simp only at hpc hab hf
  subst hpc hab
  have hf1 : fences[get_current_frame n]?.getD false = true := by simpa using hf
  simp [draw, List.replicate, run, step, hostStep, checked, VK_CHECK, apiCall, hf1]

theorem not_mem_eraseIdx_of_nodup (l : List Nat) (i k : Nat) (hnd : l.Nodup)
    (hk : l[i]? = some k) : k ∉ l.eraseIdx i := by
  intro h
  obtain ⟨j, hj, hjk⟩ := List.mem_eraseIdx_iff_getElem?.1 h
  have hi : i < l.length := (List.getElem?_eq_some.1 hk).1
  exact hj (List.getElem?_inj hi hnd (hk.trans hjk.symm)).symm

theorem loopInv_init : LoopInv loopInit := by
  refine ⟨?_, ?_, ?_, ?_, ?_⟩ <;> simp [loopInit, afterWait, afterReset]

theorem getD_set_false_self (l : List Bool) (i : Nat) :
    (l.set i false)[i]?.getD false = false := by
  rw [List.getElem?_set]
  by_cases h : i < l.length <;> simp [h]

theorem loopInv_hostStep (r : Int) (s t : LoopState) (hinv : LoopInv s)
    (hstep : hostStep r s = some t) : LoopInv t := by
  obtain ⟨n, pc, frame, fences, inFlight, aborted⟩ := s
  obtain ⟨hb, hnd, hfr, hw, hrs⟩ := hinv
  simp only [List.getD_eq_getElem?_getD] at hb hnd hfr hw hrs
  cases aborted
  · cases pc <;> by_cases hr : r = 0 <;>
      simp [hostStep, checked, VK_CHECK, apiCall, hr] at hstep <;>
      (try obtain ⟨hsig, hstep⟩ := hstep) <;>
      (try subst hstep) <;>
      simp [LoopInv, afterWait, afterReset] at hfr hw hrs ⊢ <;>
      (try tauto) <;>
      first
        | exact ⟨hb, hnd, hfr, fun h => by rw [hb _ h] at hsig; exact Bool.noConfusion hsig⟩
        | exact ⟨fun k hk => by
              rw [List.getElem?_set_ne (by rintro rfl; exact hw hk)]
              exact hb k hk,
            hnd, hfr, hw, getD_set_false_self _ _⟩
        | refine ⟨?_, ?_, hfr⟩
          · rintro k (hk | rfl)
            · exact hb k hk
            · exact hrs
          · rw [List.nodup_append]
            refine ⟨hnd, List.nodup_singleton _, ?_⟩
            intro a ha hb1
            rw [List.mem_singleton] at hb1
            subst hb1
            exact hw ha
  · simp [hostStep] at hstep

theorem loopInv_gpuStep (i : Nat) (s t : LoopState) (hinv : LoopInv s)
    (hstep : gpuStep i s = some t) : LoopInv t := by
  obtain ⟨n, pc, frame, fences, inFlight, aborted⟩ := s
  obtain ⟨hb, hnd, hfr, hw, hrs⟩ := hinv
  simp only [List.getD_eq_getElem?_getD] at hb hnd hfr hw hrs
  cases aborted
  · simp only [gpuStep, Bool.false_eq_true, if_false, List.get?_eq_getElem?] at hstep
    cases hk : inFlight[i]? with
    | none => rw [hk] at hstep; exact Option.noConfusion hstep
    | some k =>
      rw [hk] at hstep
      simp only [Option.some.injEq] at hstep
      subst hstep
      have hkmem : k ∈ inFlight := List.getElem?_mem hk
      have hknot : k ∉ inFlight.eraseIdx i := not_mem_eraseIdx_of_nodup _ _ _ hnd hk
      refine ⟨?_, hnd.eraseIdx i, hfr, ?_, ?_⟩
      · intro j hj
        have hjmem : j ∈ inFlight := List.mem_of_mem_eraseIdx hj
        have hne : k ≠ j := by rintro rfl; exact hknot hj
        simp only [List.getD_eq_getElem?_getD]
        rw [List.getElem?_set_ne hne]
        exact hb j hjmem
      · intro hpc hmem
        exact hw hpc (List.mem_of_mem_eraseIdx hmem)
      · intro hpc
        have hpcw : afterWait pc = true := by
          cases pc <;> simp_all [afterReset, afterWait]
        have hne : k ≠ frame := by rintro rfl; exact hw hpcw hkmem
        simp only [List.getD_eq_getElem?_getD]
        rw [List.getElem?_set_ne hne]
        exact hrs hpc
  · simp [gpuStep] at hstep

theorem loopInv_run (ls : List Label) (s t : LoopState) (hinv : LoopInv s)
    (hrun : run ls s = some t) : LoopInv t := by
  induction ls generalizing s with
  | nil =>
    simp only [run, Option.some.injEq] at hrun
    exact hrun ▸ hinv
  | cons l ls ih =>
    simp only [run] at hrun
    cases hst : step l s with
    | none => rw [hst] at hrun; exact Option.noConfusion hrun
    | some u =>
      rw [hst] at hrun
      refine ih u ?_ hrun
      cases l with
      | host r => exact loopInv_hostStep r s u hinv hst
      | gpu i => exact loopInv_gpuStep i s u hinv hst

/-- C2: in every state the frame loop reaches from the state left by `init` (fences created
signaled), through host statements of `draw` and GPU completions in any interleaving,
whenever the next host statement resets or records slot `k`'s command buffer or writes
slot `k`'s camera or object buffer, no submission that used slot `k` is still executing;
moreover the slot of an unfinished submission always has an unsignaled fence, so the
host only gets there through a successful wait on that slot's fence. -/
theorem no_reuse_before_fence (s : LoopState) (hreach : Reachable s) (k : Nat)
    (htouch : k ∈ hostTouches s) :
    k ∉ s.inFlight ∧ (∀ j ∈ s.inFlight, s.fences.getD j false = false) := by
  obtain ⟨ls, hrun⟩ := hreach
  obtain ⟨hb, _, hfr, hw, _⟩ := loopInv_run ls loopInit s loopInv_init hrun
  refine ⟨?_, hb⟩
  obtain ⟨n, pc, frame, fences, inFlight, aborted⟩ := s
  cases pc <;> simp [hostTouches] at htouch <;> simp [afterWait] at hfr hw <;>
    first
      | (subst htouch; exact hw)
      | (rcases htouch with h | h <;> subst h <;> first | exact hw | exact hfr ▸ hw)

/-- Instance in the third draw: after two draws and the completion of the first
submission the host is about to reset slot 0's command buffer while slot 1's submission
is still executing. -/
theorem no_reuse_before_fence_witness :
    run (List.replicate 26 (Label.host 0) ++ Label.gpu 0 :: List.replicate 3 (Label.host 0))
        loopInit =
      some { _frameNumber := 2, pc := DrawPc.resetCommandBuffer, frame := 0,
             fences := [false, false], inFlight := [1], aborted := false } ∧
    (0 ∉ [1] ∧ ∀ j ∈ [1], [false, false].getD j false = false) :=
  ⟨by decide,
   no_reuse_before_fence
     { _frameNumber := 2, pc := DrawPc.resetCommandBuffer, frame := 0,
       fences := [false, false], inFlight := [1], aborted := false }
     ⟨List.replicate 26 (Label.host 0) ++ Label.gpu 0 :: List.replicate 3 (Label.host 0),
      by decide⟩
     0 (by decide)⟩

/-- C3: a call of `draw` that returns raises `_frameNumber` by exactly one (below
`INT_MAX`) and uses the slot of its frame number; the slot selected by
`get_current_frame` at `n + 1` differs from the slot at `n`, so two consecutive draws
use different slots, and the slot at `n + 2` is the slot at `n`. -/
theorem draw_alternates_slots (s : LoopState) (hpc : s.pc = DrawPc.getFrame)
    (hab : s.aborted = false) (h0 : 0 ≤ s._frameNumber) (hmax : s._frameNumber < INT_MAX)
    (hf : s.fences.getD (get_current_frame s._frameNumber) false = true) :
    (∃ t, draw s = some t ∧ t._frameNumber = s._frameNumber + 1 ∧
      t.frame = get_current_frame s._frameNumber ∧
      get_current_frame t._frameNumber ≠ t.frame) ∧
    get_current_frame (s._frameNumber + 1) ≠ get_current_frame s._frameNumber ∧
    get_current_frame (s._frameNumber + 2) = get_current_frame s._frameNumber := by
  have hlt := get_current_frame_lt s._frameNumber
  have h1 := get_current_frame_succ s._frameNumber
  have h2 := get_current_frame_succ (s._frameNumber + 1)
  have e : s._frameNumber + 1 + 1 = s._frameNumber + 2 := by ring
  rw [e] at h2
  simp only [FRAME_OVERLAP] at hlt
  refine ⟨⟨_, draw_succeeds s hpc hab hf, ?_, rfl, ?_⟩, ?_, ?_⟩
  · exact incFrameNumber_eq _ h0 hmax
  · simp only [incFrameNumber_eq _ h0 hmax]
    omega
  · omega
  · omega

/-- Instance at the state left by `init`. -/
theorem draw_alternates_slots_witness :
    (∃ t, draw loopInit = some t ∧ t._frameNumber = loopInit._frameNumber + 1 ∧
      t.frame = get_current_frame loopInit._frameNumber ∧
      get_current_frame t._frameNumber ≠ t.frame) ∧
    get_current_frame (loopInit._frameNumber + 1) ≠ get_current_frame loopInit._frameNumber ∧
    get_current_frame (loopInit._frameNumber + 2) = get_current_frame loopInit._frameNumber :=
  draw_alternates_slots loopInit rfl rfl (by decide) (by decide) (by decide)

/-! ## Deletion queues: theorems -/

theorem push_all_deletors {F : Type} (q : DeletionQueue F) (fs : List F) :
    (fs.foldl DeletionQueue.push_function q).deletors = q.deletors ++ fs := by
  induction fs generalizing q with
  | nil => simp
  | cons f fs ih => simp [ih, DeletionQueue.push_function]

theorem foldl_recordCall {F : Type} (l log : List F) :
    l.foldl (fun acc f => recordCall f acc) log = log ++ l := by
  induction l generalizing log with
  | nil => simp
  | cons f l ih =>
    simp only [List.foldl_cons]
    rw [ih]
    simp [recordCall]

/-- C6: after `push_function` has added `f1, ..., fn` to a queue, `flush` calls
`fn, ..., f1` (and then the deletors the queue held before, newest first): the calls are
the queue's entries in exactly the reverse of the push order, each entry called exactly
once; the effect on any world is that of these calls in this order. -/
theorem flush_calls_in_reverse_push_order {F : Type} (q : DeletionQueue F) (fs : List F) :
    ((fs.foldl DeletionQueue.push_function q).flush recordCall []).2
      = fs.reverse ++ q.deletors.reverse ∧
    ((fs.foldl DeletionQueue.push_function DeletionQueue.empty).flush recordCall []).2
      = fs.reverse ∧
    (((fs.foldl DeletionQueue.push_function q).flush recordCall []).2).Perm
      (q.deletors ++ fs) ∧
    (∀ (W : Type) (call : F → W → W) (w : W),
      ((fs.foldl DeletionQueue.push_function q).flush call w).2
        = (fs.reverse ++ q.deletors.reverse).foldl (fun acc f => call f acc) w) := by
  have h1 : ((fs.foldl DeletionQueue.push_function q).flush recordCall []).2
      = fs.reverse ++ q.deletors.reverse := by
    simp only [DeletionQueue.flush, push_all_deletors, foldl_recordCall]
    simp
  refine ⟨h1, ?_, ?_, ?_⟩
  · simp only [DeletionQueue.flush, push_all_deletors, foldl_recordCall, DeletionQueue.empty]
    simp
  · rw [h1, ← List.reverse_append]
    exact List.reverse_perm _
  · intro W call w
    simp only [DeletionQueue.flush, push_all_deletors, List.reverse_append]

/-! ## `init` and `cleanup`: theorems -/

theorem forRange_succ (n : Nat) (body : Nat → Engine → Engine) (e : Engine) :
    forRange (n + 1) body e = body n (forRange n body e) := by
  simp [forRange, List.range_succ]

theorem forRange_zero (body : Nat → Engine → Engine) (e : Engine) :
    forRange 0 body e = e := rfl

theorem forRange_create (f : Nat → Resource) (n : Nat) (e : Engine) :
    forRange n (fun i acc => acc.create (f i)) e =
      { e with trace := e.trace ++ (List.range n).map (fun i => Event.create (f i)) } := by
  induction n with
  | zero => simp [forRange_zero]
  | succ n ih =>
    rw [forRange_succ, ih]
    simp [Engine.create, List.range_succ]

theorem forRange_destroy (f : Nat → Resource) (n : Nat) (e : Engine) :
    forRange n (fun i acc => acc.destroy (f i)) e =
      { e with trace := e.trace ++ (List.range n).map (fun i => Event.destroy (f i)) } := by
  induction n with
  | zero => simp [forRange_zero]
  | succ n ih =>
    rw [forRange_succ, ih]
    simp [Engine.destroy, List.range_succ]

theorem forRange_create_push (f : Nat → Resource) (n : Nat) (e : Engine) :
    forRange n (fun i acc => acc |>.create (f i) |>.pushMain [f i]) e =
      { e with
        trace := e.trace ++ (List.range n).map (fun i => Event.create (f i)),
        _mainDeletionQueue :=
          { deletors := e._mainDeletionQueue.deletors ++ (List.range n).map (fun i => [f i]) } } := by
  induction n with
  | zero => simp [forRange_zero]
  | succ n ih =>
    rw [forRange_succ, ih]
    simp [Engine.create, Engine.pushMain, DeletionQueue.push_function, List.range_succ]

theorem forRange_frame_overlap (body : Nat → Engine → Engine) (e : Engine) :
    forRange FRAME_OVERLAP body e = body 1 (body 0 e) := rfl

theorem init_eq (n : Nat) :
    init n Engine.fresh =
      { trace :=
          [Event.create Resource.glfw, Event.create Resource.window,
            Event.create Resource.vkInstance, Event.create Resource.debugMessenger,
            Event.create Resource.surface, Event.create Resource.device,
            Event.create Resource.allocator, Event.create Resource.swapchain] ++
          (List.range n).map (fun i => Event.create (Resource.swapchainImageView i)) ++
          [Event.create Resource.depthImage, Event.create Resource.depthImageView,
            Event.create Resource.renderPass] ++
          (List.range n).map (fun i => Event.create (Resource.framebuffer i)) ++
          [Event.create (Resource.commandPool 0), Event.create (Resource.commandPool 1),
            Event.create (Resource.renderFence 0), Event.create (Resource.presentSemaphore 0),
            Event.create (Resource.renderSemaphore 0), Event.create (Resource.renderFence 1),
            Event.create (Resource.presentSemaphore 1), Event.create (Resource.renderSemaphore 1),
            Event.create Resource.descriptorPool, Event.create Resource.globalSetLayout,
            Event.create Resource.objectSetLayout, Event.create Resource.sceneParameterBuffer,
            Event.create (Resource.cameraBuffer 0), Event.create (Resource.objectBuffer 0),
            Event.create (Resource.cameraBuffer 1), Event.create (Resource.objectBuffer 1),
            Event.create (Resource.shaderModule ShaderName.default_lit_frag),
            Event.create (Resource.shaderModule ShaderName.tri_mesh_ssbo_vert),
            Event.create Resource.pipelineLayout, Event.create Resource.pipeline,
            Event.destroy (Resource.shaderModule ShaderName.tri_mesh_ssbo_vert),
            Event.destroy (Resource.shaderModule ShaderName.default_lit_frag),
            Event.create (Resource.vertexBuffer MeshName.triangle),
            Event.create (Resource.vertexBuffer MeshName.monkey)],
        _mainDeletionQueue :=
          { deletors :=
              [[Resource.allocator], [Resource.swapchain],
                [Resource.depthImageView, Resource.depthImage], [Resource.renderPass]] ++
              (List.range n).map (fun i => [Resource.framebuffer i]) ++
              [[Resource.commandPool 0], [Resource.commandPool 1],
                [Resource.renderFence 0],
                [Resource.presentSemaphore 0, Resource.renderSemaphore 0],
                [Resource.renderFence 1],
                [Resource.presentSemaphore 1, Resource.renderSemaphore 1],
                [Resource.descriptorPool], [Resource.globalSetLayout],
                [Resource.objectSetLayout], [Resource.sceneParameterBuffer],
                [Resource.pipeline, Resource.pipelineLayout],
                [Resource.vertexBuffer MeshName.triangle],
                [Resource.vertexBuffer MeshName.monkey]] },
        _frames :=
          [{ deletors := [[Resource.cameraBuffer 0], [Resource.objectBuffer 0]] },
           { deletors := [[Resource.cameraBuffer 1], [Resource.objectBuffer 1]] }],
        _swapchainImageViews := n,
        _isInitialized := true } := by
  simp only [init, init_vulkan, init_swapchain, init_default_renderpass, init_framebuffers,
    init_commands, init_sync_structures, init_descriptors, init_pipelines, load_meshes,
    upload_mesh, forRange_frame_overlap, forRange_create, forRange_create_push]
  have hr : List.range 2 = [0, 1] := rfl
  simp [Engine.fresh, Engine.create, Engine.destroy, Engine.pushMain, Engine.pushFrame,
    DeletionQueue.push_function, DeletionQueue.empty, FRAME_OVERLAP, hr]

theorem foldl_callDeletor (ds : List Deletor) (tr : List Event) :
    ds.foldl (fun acc d => callDeletor d acc) tr = tr ++ ds.flatten.map Event.destroy := by
  induction ds generalizing tr with
  | nil => simp
  | cons d ds ih =>
    simp only [List.foldl_cons]
    rw [ih]
    simp [callDeletor]

theorem destroyed_map_destroy (l : List Resource) : destroyed (l.map Event.destroy) = l := by
  induction l with
  | nil => rfl
  | cons a l ih =>
    simp only [destroyed] at ih
    simp [destroyed, ih]

theorem flatten_map_singleton (f : Nat → Resource) (l : List Nat) :
    (l.map (fun i => [f i])).flatten = l.map f := by
  induction l with
  | nil => rfl
  | cons a l ih => simp [ih]

theorem cleanup_init_trace (n : Nat) :
    (cleanup (init n Engine.fresh)).trace =
      (init n Engine.fresh).trace ++
        (([Resource.objectBuffer 0, Resource.cameraBuffer 0, Resource.objectBuffer 1,
            Resource.cameraBuffer 1,
            Resource.vertexBuffer MeshName.monkey, Resource.vertexBuffer MeshName.triangle,
            Resource.pipeline, Resource.pipelineLayout, Resource.sceneParameterBuffer,
            Resource.objectSetLayout, Resource.globalSetLayout, Resource.descriptorPool,
            Resource.presentSemaphore 1, Resource.renderSemaphore 1, Resource.renderFence 1,
            Resource.presentSemaphore 0, Resource.renderSemaphore 0, Resource.renderFence 0,
            Resource.commandPool 1, Resource.commandPool 0] ++
          (List.range n).reverse.map Resource.framebuffer ++
          [Resource.renderPass, Resource.depthImageView, Resource.depthImage,
            Resource.swapchain, Resource.allocator] ++
          (List.range n).map Resource.swapchainImageView ++
          [Resource.device, Resource.surface, Resource.debugMessenger, Resource.vkInstance,
            Resource.window, Resource.glfw]).map Event.destroy) := by
  rw [init_eq]
  simp only [cleanup, if_true, forRange_frame_overlap, forRange_destroy, flushFrame, flushMain,
    DeletionQueue.flush, foldl_callDeletor]
  simp [Engine.destroy, List.flatten_reverse, flatten_map_singleton, List.map_reverse,
    Function.comp_def]

/-- The destroy calls of `cleanup` after `init`, for any number of swapchain images. -/
theorem cleanupDestroys_eq (n : Nat) :
    cleanupDestroys n =
      [Resource.objectBuffer 0, Resource.cameraBuffer 0, Resource.objectBuffer 1,
        Resource.cameraBuffer 1,
        Resource.vertexBuffer MeshName.monkey, Resource.vertexBuffer MeshName.triangle,
        Resource.pipeline, Resource.pipelineLayout, Resource.sceneParameterBuffer,
        Resource.objectSetLayout, Resource.globalSetLayout, Resource.descriptorPool,
        Resource.presentSemaphore 1, Resource.renderSemaphore 1, Resource.renderFence 1,
        Resource.presentSemaphore 0, Resource.renderSemaphore 0, Resource.renderFence 0,
        Resource.commandPool 1, Resource.commandPool 0] ++
      (List.range n).reverse.map Resource.framebuffer ++
      [Resource.renderPass, Resource.depthImageView, Resource.depthImage,
        Resource.swapchain, Resource.allocator] ++
      (List.range n).map Resource.swapchainImageView ++
      [Resource.device, Resource.surface, Resource.debugMessenger, Resource.vkInstance,
        Resource.window, Resource.glfw] := by
  simp only [cleanupDestroys]
  rw [cleanup_init_trace, List.drop_left, destroyed_map_destroy]

theorem filter_filterMap_some (p : Resource → Bool) (g : Nat → Resource) (l : List Nat)
    (h : ∀ x, p (g x) = true) :
    List.filter p (List.filterMap (fun x => some (g x)) l) = l.map g := by
  induction l with
  | nil => rfl
  | cons a l ih =>
    simp only [List.filterMap_cons, List.map_cons]
    rw [List.filter_cons_of_pos (h a), ih]

/-- The resources alive after `init`, in creation order, for any number of swapchain
images. -/
theorem initCreates_eq (n : Nat) :
    initCreates n =
      [Resource.glfw, Resource.window, Resource.vkInstance, Resource.debugMessenger,
        Resource.surface, Resource.device, Resource.allocator, Resource.swapchain] ++
      (List.range n).map Resource.swapchainImageView ++
      [Resource.depthImage, Resource.depthImageView, Resource.renderPass] ++
      (List.range n).map Resource.framebuffer ++
      [Resource.commandPool 0, Resource.commandPool 1,
        Resource.renderFence 0, Resource.presentSemaphore 0, Resource.renderSemaphore 0,
        Resource.renderFence 1, Resource.presentSemaphore 1, Resource.renderSemaphore 1,
        Resource.descriptorPool, Resource.globalSetLayout, Resource.objectSetLayout,
        Resource.sceneParameterBuffer,
        Resource.cameraBuffer 0, Resource.objectBuffer 0,
        Resource.cameraBuffer 1, Resource.objectBuffer 1,
        Resource.pipelineLayout, Resource.pipeline,
        Resource.vertexBuffer MeshName.triangle, Resource.vertexBuffer MeshName.monkey] := by
  simp only [initCreates]
  rw [init_eq]
  simp [created, destroyed, List.filterMap_append, List.filterMap_map, List.filter_append,
    Function.comp_def, List.filter_map]
  rw [filter_filterMap_some _ _ _ (fun x => by simp),
    filter_filterMap_some _ _ _ (fun x => by simp)]

/-- C7 (as claimed) fails: with three swapchain images `cleanup` starts with slot 0's
object buffer, whereas the reverse creation order starts with the monkey vertex buffer,
and the two sequences differ. -/
theorem cleanup_not_reverse_of_init :
    (cleanupDestroys 3).head? = some (Resource.objectBuffer 0) ∧
    (initCreates 3).reverse.head? = some (Resource.vertexBuffer MeshName.monkey) ∧
    cleanupDestroys 3 ≠ (initCreates 3).reverse := by
  rw [cleanupDestroys_eq, initCreates_eq]
  decide

/-- C7 (amended): `cleanup` destroys, in this order, the resources of the per-frame
deletion queues (slot by slot), those of the main deletion queue, the swapchain image
views in index order, and device, surface, debug messenger, instance, window and GLFW;
every queue runs its deletors in the reverse of the order in which `init` pushed them.
Within each per-frame queue, within the main queue (the order of a slot's two
semaphores, which share one deletor, left aside) and within the final explicit calls,
the destructions are in the reverse of the creation order. -/
theorem cleanup_reverse_within_each_queue (n : Nat) :
    cleanupDestroys n =
      ((init n Engine.fresh)._frames.map (fun q => q.deletors.reverse.flatten)).flatten ++
      (init n Engine.fresh)._mainDeletionQueue.deletors.reverse.flatten ++
      (List.range n).map Resource.swapchainImageView ++ explicitTail ∧
    (∀ q ∈ (init n Engine.fresh)._frames,
      (cleanupDestroys n).filter (queuedIn q) = ((initCreates n).filter (queuedIn q)).reverse) ∧
    (cleanupDestroys n).filter
        (fun r => queuedIn (init n Engine.fresh)._mainDeletionQueue r && !isRenderSemaphore r) =
      ((initCreates n).filter
        (fun r => queuedIn (init n Engine.fresh)._mainDeletionQueue r && !isRenderSemaphore r)).reverse ∧
    (cleanupDestroys n).filter (fun r => decide (r ∈ explicitTail)) =
      ((initCreates n).filter (fun r => decide (r ∈ explicitTail))).reverse := by
  rw [cleanupDestroys_eq, initCreates_eq, init_eq]
  refine ⟨?_, ?_, ?_, ?_⟩
  · simp [List.flatten_reverse, flatten_map_singleton, List.map_reverse, Function.comp_def,
      explicitTail]
  · intro q hq
    simp only [List.mem_cons, List.mem_singleton, List.not_mem_nil, or_false] at hq
    rcases hq with rfl | rfl <;>
      simp [queuedIn, List.filter_append, List.filter_map, Function.comp_def]
  · simp [queuedIn, isRenderSemaphore, List.filter_append, List.filter_map, Function.comp_def,
      flatten_map_singleton]
  · simp [explicitTail, List.filter_append, List.filter_map, Function.comp_def]

theorem cleanupDestroys_nodup (n : Nat) : (cleanupDestroys n).Nodup := by
  rw [cleanupDestroys_eq]
  have hfb : ((List.range n).map Resource.framebuffer).Nodup :=
    (List.nodup_range n).map (fun a b h => by injection h)
  have hsv : ((List.range n).map Resource.swapchainImageView).Nodup :=
    (List.nodup_range n).map (fun a b h => by injection h)
  have hdis : ((List.range n).map Resource.framebuffer).Disjoint
      ((List.range n).map Resource.swapchainImageView) := by
    intro r h1 h2
    obtain ⟨a, _, rfl⟩ := List.mem_map.1 h1
    obtain ⟨b, _, hb⟩ := List.mem_map.1 h2
    exact Resource.noConfusion hb
  simp [List.nodup_append, List.nodup_cons, hfb, hsv, hdis]

/-- C8: for every number `n` of swapchain images and every `i < n`, `cleanup` destroys
framebuffer `i` before the render pass, before swapchain image view `i` and before the
depth image view, i.e. before everything `init_framebuffers` created it from (each of
these destroyed exactly once). -/
theorem framebuffer_destroyed_before_references (n i : Nat) (hi : i < n) :
    (∀ r ∈ framebuffer_references i, Before (Resource.framebuffer i) r (cleanupDestroys n)) ∧
    (cleanupDestroys n).Nodup := by
  refine ⟨?_, cleanupDestroys_nodup n⟩
  have hfb : Resource.framebuffer i ∈ (List.range n).reverse.map Resource.framebuffer :=
    List.mem_map.2 ⟨i, List.mem_reverse.2 (List.mem_range.2 hi), rfl⟩
  have hsv : Resource.swapchainImageView i ∈ (List.range n).map Resource.swapchainImageView :=
    List.mem_map.2 ⟨i, List.mem_range.2 hi, rfl⟩
  obtain ⟨a1, a2, ha⟩ := List.append_of_mem hfb
  obtain ⟨b1, b2, hb⟩ := List.append_of_mem hsv
  intro r hr
  rw [cleanupDestroys_eq, ha, hb]
  generalize hpre : ([Resource.objectBuffer 0, Resource.cameraBuffer 0, Resource.objectBuffer 1,
    Resource.cameraBuffer 1,
    Resource.vertexBuffer MeshName.monkey, Resource.vertexBuffer MeshName.triangle,
    Resource.pipeline, Resource.pipelineLayout, Resource.sceneParameterBuffer,
    Resource.objectSetLayout, Resource.globalSetLayout, Resource.descriptorPool,
    Resource.presentSemaphore 1, Resource.renderSemaphore 1, Resource.renderFence 1,
    Resource.presentSemaphore 0, Resource.renderSemaphore 0, Resource.renderFence 0,
    Resource.commandPool 1, Resource.commandPool 0] : List Resource) = pre
  simp only [framebuffer_references, List.mem_cons, List.mem_singleton, List.not_mem_nil,
    or_false] at hr
  rcases hr with rfl | rfl | rfl
  · exact ⟨pre ++ a1, a2,
      [Resource.depthImageView, Resource.depthImage, Resource.swapchain, Resource.allocator] ++
        (b1 ++ Resource.swapchainImageView i :: b2) ++ explicitTail,
      by simp [explicitTail]⟩
  · exact ⟨pre ++ a1,
      a2 ++ [Resource.renderPass, Resource.depthImageView, Resource.depthImage,
        Resource.swapchain, Resource.allocator] ++ b1,
      b2 ++ explicitTail,
      by simp [explicitTail]⟩
  · exact ⟨pre ++ a1, a2 ++ [Resource.renderPass],
      [Resource.depthImage, Resource.swapchain, Resource.allocator] ++
        (b1 ++ Resource.swapchainImageView i :: b2) ++ explicitTail,
      by simp [explicitTail]⟩

/-- Instance with three swapchain images and framebuffer 1. -/
theorem framebuffer_destroyed_before_references_witness :
    1 < 3 ∧
    ((∀ r ∈ framebuffer_references 1, Before (Resource.framebuffer 1) r (cleanupDestroys 3)) ∧
      (cleanupDestroys 3).Nodup) :=
  ⟨by decide, framebuffer_destroyed_before_references 3 1 (by decide)⟩

theorem teardownList_subset (n : Nat) (r : Resource) (hr : r ∈ teardownList n) :
    r ∈ initCreates n := by
  have h2 : List.range 2 = [0, 1] := rfl
  rw [initCreates_eq]
  simp only [teardownList, FRAME_OVERLAP, h2, List.mem_append, List.mem_cons, List.mem_map,
    List.mem_range, List.mem_singleton, List.not_mem_nil, or_false, List.map_cons,
    List.map_nil] at hr
  casesm* _ ∨ _ <;> (try casesm* ∃ _, _) <;> (try casesm* _ ∧ _) <;> subst_vars <;> simp [*]

theorem cleanupDestroys_perm (n : Nat) : (cleanupDestroys n).Perm (initCreates n) := by
  rw [cleanupDestroys_eq, initCreates_eq, List.perm_iff_count]
  intro r
  simp only [List.count_append, List.count_cons, List.count_nil, List.map_reverse,
    List.count_reverse]
  omega

/-- When every create call of `init` succeeds, the destroy calls of `cleanup` are a
rearrangement without repetition of the resources `init` created and left alive. -/
theorem cleanupDestroys_spec (n : Nat) :
    (cleanupDestroys n).Perm (initCreates n) ∧
    (cleanupDestroys n).Nodup ∧
    (created (init n Engine.fresh).trace).Perm
      (initCreates n ++ [Resource.shaderModule ShaderName.default_lit_frag,
        Resource.shaderModule ShaderName.tri_mesh_ssbo_vert]) ∧
    (teardownList n).all (fun r => decide (r ∈ initCreates n) &&
      decide ((cleanupDestroys n).count r = 1)) = true := by
  refine ⟨cleanupDestroys_perm n, cleanupDestroys_nodup n, ?_, ?_⟩
  · rw [initCreates_eq, init_eq, List.perm_iff_count]
    intro r
    simp only [created, List.filterMap_append, List.filterMap_cons, List.filterMap_nil,
      List.filterMap_map, Function.comp_def, List.count_append, List.count_cons,
      List.count_nil]
    have e1 : List.filterMap (fun x => some (Resource.swapchainImageView x)) (List.range n)
        = (List.range n).map Resource.swapchainImageView := by
      rw [← List.filterMap_eq_map]; rfl
    have e2 : List.filterMap (fun x => some (Resource.framebuffer x)) (List.range n)
        = (List.range n).map Resource.framebuffer := by
      rw [← List.filterMap_eq_map]; rfl
    rw [e1, e2]
    omega
  · rw [List.all_eq_true]
    intro r hr
    have hmem := teardownList_subset n r hr
    have hmem2 : r ∈ cleanupDestroys n := (cleanupDestroys_perm n).mem_iff.2 hmem
    simp only [Bool.and_eq_true, decide_eq_true_eq]
    exact ⟨hmem, List.count_eq_one_of_mem (cleanupDestroys_nodup n) hmem2⟩

theorem init_results_eq (failed : Resource → Bool) (n : Nat) :
    init_results failed n Engine.fresh =
      { init n Engine.fresh with
        trace :=
          (if failed Resource.glfw then [] else [Event.create Resource.glfw]) ++
          (if failed Resource.window then [] else [Event.create Resource.window]) ++
          [Event.create Resource.vkInstance, Event.create Resource.debugMessenger] ++
          (if failed Resource.surface then [] else [Event.create Resource.surface]) ++
          [Event.create Resource.device] ++
          (if failed Resource.allocator then [] else [Event.create Resource.allocator]) ++
          [Event.create Resource.swapchain] ++
          (List.range n).map (fun i => Event.create (Resource.swapchainImageView i)) ++
          (if failed Resource.depthImage then [] else [Event.create Resource.depthImage]) ++
          [Event.create Resource.depthImageView, Event.create Resource.renderPass] ++
          (List.range n).map (fun i => Event.create (Resource.framebuffer i)) ++
          [Event.create (Resource.commandPool 0), Event.create (Resource.commandPool 1),
            Event.create (Resource.renderFence 0), Event.create (Resource.presentSemaphore 0),
            Event.create (Resource.renderSemaphore 0), Event.create (Resource.renderFence 1),
            Event.create (Resource.presentSemaphore 1),
            Event.create (Resource.renderSemaphore 1)] ++
          (if failed Resource.descriptorPool then []
            else [Event.create Resource.descriptorPool]) ++
          (if failed Resource.globalSetLayout then []
            else [Event.create Resource.globalSetLayout]) ++
          (if failed Resource.objectSetLayout then []
            else [Event.create Resource.objectSetLayout]) ++
          [Event.create Resource.sceneParameterBuffer,
            Event.create (Resource.cameraBuffer 0), Event.create (Resource.objectBuffer 0),
            Event.create (Resource.cameraBuffer 1), Event.create (Resource.objectBuffer 1)] ++
          (if failed (Resource.shaderModule ShaderName.default_lit_frag) then []
            else [Event.create (Resource.shaderModule ShaderName.default_lit_frag)]) ++
          (if failed (Resource.shaderModule ShaderName.tri_mesh_ssbo_vert) then []
            else [Event.create (Resource.shaderModule ShaderName.tri_mesh_ssbo_vert)]) ++
          [Event.create Resource.pipelineLayout] ++
          (if failed Resource.pipeline then [] else [Event.create Resource.pipeline]) ++
          [Event.destroy (Resource.shaderModule ShaderName.tri_mesh_ssbo_vert),
            Event.destroy (Resource.shaderModule ShaderName.default_lit_frag),
            Event.create (Resource.vertexBuffer MeshName.triangle),
            Event.create (Resource.vertexBuffer MeshName.monkey)] } := by
  rw [init_eq]
  simp only [init_results, init_vulkan_results, init_swapchain_results,
    init_default_renderpass, init_framebuffers, init_commands, init_sync_structures,
    init_descriptors_results, init_pipelines_results, load_meshes,
    upload_mesh, forRange_frame_overlap, forRange_create, forRange_create_push]
  have hr : List.range 2 = [0, 1] := rfl
  simp [Engine.fresh, Engine.create, Engine.createUnchecked, Engine.destroy, Engine.pushMain,
    Engine.pushFrame, DeletionQueue.push_function, DeletionQueue.empty, FRAME_OVERLAP, hr]

theorem init_results_of_succeed (failed : Resource → Bool) (n : Nat)
    (hok : ∀ r ∈ uncheckedCreates, failed r = false) :
    init_results failed n Engine.fresh = init n Engine.fresh := by
  rw [init_results_eq]
  have h1 := hok Resource.glfw (by decide)
  have h2 := hok Resource.window (by decide)
  have h3 := hok Resource.surface (by decide)
  have h4 := hok Resource.allocator (by decide)
  have h5 := hok Resource.depthImage (by decide)
  have h6 := hok Resource.descriptorPool (by decide)
  have h7 := hok Resource.globalSetLayout (by decide)
  have h8 := hok Resource.objectSetLayout (by decide)
  have h9 := hok (Resource.shaderModule ShaderName.default_lit_frag) (by decide)
  have h10 := hok (Resource.shaderModule ShaderName.tri_mesh_ssbo_vert) (by decide)
  have h11 := hok Resource.pipeline (by decide)
  rw [init_eq]
  simp [h1, h2, h3, h4, h5, h6, h7, h8, h9, h10, h11]

theorem cleanup_trace_of (n : Nat) (tr : List Event) :
    (cleanup { init n Engine.fresh with trace := tr }).trace =
      tr ++ (cleanupDestroys n).map Event.destroy := by
  rw [cleanupDestroys_eq, init_eq]
  simp only [cleanup, if_true, forRange_frame_overlap, forRange_destroy, flushFrame, flushMain,
    DeletionQueue.flush, foldl_callDeletor]
  simp [Engine.destroy, List.flatten_reverse, flatten_map_singleton, List.map_reverse,
    Function.comp_def]

/-- The destroy calls of `cleanup` do not depend on the outcome of the create calls. -/
theorem cleanupDestroysWith_eq (failed : Resource → Bool) (n : Nat) :
    cleanupDestroysWith failed n = cleanupDestroys n := by
  simp only [cleanupDestroysWith]
  rw [init_results_eq, cleanup_trace_of]
  simp only [List.drop_left, destroyed_map_destroy]

/-- C9 (as claimed) fails. In the run with three swapchain images in which
`vkCreateGraphicsPipelines` fails, `build_pipeline` returns a null handle and `init`
returns; no pipeline was created, and `cleanup` still makes the `vkDestroyPipeline` call
of the deletor. In the run in which `vkCreateDescriptorPool` fails, its result is not
read, `init` returns without a descriptor pool, and `cleanup` still makes the
`vkDestroyDescriptorPool` call: the destroy calls are not a rearrangement of the resources
`init` created. -/
theorem cleanup_destroys_never_created :
    (init_results pipelineFails 3 Engine.fresh)._isInitialized = true ∧
    Resource.pipeline ∉ created (init_results pipelineFails 3 Engine.fresh).trace ∧
    Resource.pipeline ∈ cleanupDestroysWith pipelineFails 3 ∧
    (init_results descriptorPoolFails 3 Engine.fresh)._isInitialized = true ∧
    Resource.descriptorPool ∉
      created (init_results descriptorPoolFails 3 Engine.fresh).trace ∧
    Resource.descriptorPool ∈ cleanupDestroysWith descriptorPoolFails 3 ∧
    ¬ (cleanupDestroysWith descriptorPoolFails 3).Perm
        (initCreatesWith descriptorPoolFails 3) := by
  have h1 : Resource.descriptorPool ∈ cleanupDestroysWith descriptorPoolFails 3 := by decide
  have h2 : Resource.descriptorPool ∉ initCreatesWith descriptorPoolFails 3 := by decide
  refine ⟨rfl, by decide, by decide, rfl, by decide, h1, fun hperm => h2 (hperm.mem_iff.1 h1)⟩

/-- C9 (amended): in a run of `init` in which every create call succeeds (the checked
ones, whose failure aborts, and the ones whose result `init` does not check), for every
number of swapchain images the destroy calls of one `cleanup` after one `init` are a
rearrangement without repetition of the resources `init` created and left alive
(everything it created apart from the two shader modules it destroys itself): each of them
is destroyed exactly once and nothing else is destroyed; the resources named in the claim
are all among them. -/
theorem cleanup_destroys_each_created_once (failed : Resource → Bool) (n : Nat)
    (hok : ∀ r ∈ uncheckedCreates, failed r = false) :
    (cleanupDestroysWith failed n).Perm (initCreatesWith failed n) ∧
    (cleanupDestroysWith failed n).Nodup ∧
    (created (init_results failed n Engine.fresh).trace).Perm
      (initCreatesWith failed n ++ [Resource.shaderModule ShaderName.default_lit_frag,
        Resource.shaderModule ShaderName.tri_mesh_ssbo_vert]) ∧
    (teardownList n).all (fun r => decide (r ∈ initCreatesWith failed n) &&
      decide ((cleanupDestroysWith failed n).count r = 1)) = true := by
  have hi := init_results_of_succeed failed n hok
  have hc : initCreatesWith failed n = initCreates n := by
    simp only [initCreatesWith, initCreates, hi]
  rw [cleanupDestroysWith_eq, hc, hi]
  exact cleanupDestroys_spec n

/-- Instance: three swapchain images and no failing create call. -/
theorem cleanup_destroys_each_created_once_witness :
    (∀ r ∈ uncheckedCreates, nothingFails r = false) ∧
    (cleanupDestroysWith nothingFails 3).Perm (initCreatesWith nothingFails 3) ∧
    (cleanupDestroysWith nothingFails 3).Nodup :=
  ⟨by decide,
   (cleanup_destroys_each_created_once nothingFails 3 (by decide)).1,
   (cleanup_destroys_each_created_once nothingFails 3 (by decide)).2.1⟩

/-! ## The abort policy: theorems -/

/-- C10: `VK_CHECK(x)` aborts the process if and only if `x` evaluates to a result code
different from 0; when the code is 0 execution continues in the state left by `x`, with
no other effect; and `x` is evaluated exactly once (a counter of its evaluations goes up
by one, whether or not the process aborts). -/
theorem VK_CHECK_aborts_iff_nonzero {σ : Type} (x : σ → Int × σ) (s : σ) (c : Nat) :
    ((VK_CHECK x s).aborted = true ↔ (x s).1 ≠ 0) ∧
    (VK_CHECK x s = Outcome.continues (x s).2 ↔ (x s).1 = 0) ∧
    (VK_CHECK x s = Outcome.aborts (x s).1 (x s).2 ↔ (x s).1 ≠ 0) ∧
    (VK_CHECK x s).state = (x s).2 ∧
    (VK_CHECK (counted x) (s, c)).state = ((x s).2, c + 1) ∧
    (VK_CHECK (counted x) (s, c)).aborted = (VK_CHECK x s).aborted := by
  by_cases h : (x s).1 = 0 <;>
    simp [VK_CHECK, counted, Outcome.aborted, Outcome.state, h]

/-! ## Padding bounds, dynamic offset, last frame: theorems -/

/-- C20: for every size `s` and every alignment `a > 0`, power of two or not, with
`s + a - 1` inside `size_t`, the padded size `r` satisfies `s ≤ r ≤ s + a - 1`: padding
never shrinks a size and adds less than one alignment unit. -/
theorem pad_uniform_buffer_size_bounds (s a : Nat) (ha : 0 < a) (hov : s + a - 1 < 2 ^ 64) :
    s ≤ pad_uniform_buffer_size a s ∧ pad_uniform_buffer_size a s ≤ s + a - 1 ∧
    pad_uniform_buffer_size a s - s < a := by
  have hlo := le_pad_uniform_buffer_size a s hov
  have hhi : pad_uniform_buffer_size a s ≤ s + a - 1 := by
    rw [pad_uniform_buffer_size_pos a s ha hov]
    exact Nat.and_le_left
  refine ⟨hlo, hhi, ?_⟩
  omega

/-- Instances at the alignments 64 (a power of two) and 48 (not one) with size 80. -/
theorem pad_uniform_buffer_size_bounds_witness :
    (80 ≤ pad_uniform_buffer_size 48 80 ∧ pad_uniform_buffer_size 48 80 ≤ 80 + 48 - 1 ∧
      pad_uniform_buffer_size 48 80 - 80 < 48) ∧
    pad_uniform_buffer_size 48 80 = 80 ∧ pad_uniform_buffer_size 64 80 = 128 :=
  ⟨pad_uniform_buffer_size_bounds 80 48 (by decide) (by decide), by decide, by decide⟩

theorem get_last_frame_eq (n : Int) : get_last_frame n = 1 - get_current_frame n := by
  simp only [get_last_frame, get_current_frame, toUnsigned, FRAME_OVERLAP]
  norm_num
  omega

/-- C19: for every frame number `n` (in particular every `n ≥ 0`), also `n = 0` where
`n - 1 = -1` becomes `2 ^ 32 - 1` before the remainder is taken, `get_last_frame` selects
a valid slot (0 or 1) different from the slot of `get_current_frame`, so the two fence
waits at the top of `cleanup` cover the fences of all `FRAME_OVERLAP` slots. -/
theorem get_last_frame_other_slot (n : Int) :
    get_last_frame n < FRAME_OVERLAP ∧
    (get_last_frame n = 0 ∨ get_last_frame n = 1) ∧
    get_last_frame n ≠ get_current_frame n ∧
    (List.range FRAME_OVERLAP).all (fun k => decide (k ∈ cleanup_fence_waits n)) = true ∧
    toUnsigned (0 - 1) = 2 ^ 32 - 1 ∧ get_last_frame 0 = 1 := by
  have hl := get_last_frame_eq n
  have hc := get_current_frame_lt n
  have hr : List.range 2 = [0, 1] := rfl
  simp only [FRAME_OVERLAP] at hc ⊢
  refine ⟨by omega, by omega, by omega, ?_, by decide, by decide⟩
  simp only [hr, cleanup_fence_waits, List.all_cons, List.all_nil, Bool.and_true,
    Bool.and_eq_true, decide_eq_true_eq, List.mem_cons, List.mem_singleton,
    List.not_mem_nil, or_false]
  omega

/-- Instance at frame number 0, the state in which `cleanup` runs when no frame was drawn. -/
theorem get_last_frame_other_slot_witness :
    (get_last_frame 0 < FRAME_OVERLAP ∧
    (get_last_frame 0 = 0 ∨ get_last_frame 0 = 1) ∧
    get_last_frame 0 ≠ get_current_frame 0 ∧
    (List.range FRAME_OVERLAP).all (fun k => decide (k ∈ cleanup_fence_waits 0)) = true ∧
    toUnsigned (0 - 1) = 2 ^ 32 - 1 ∧ get_last_frame 0 = 1) ∧
    cleanup_fence_waits 0 = [1, 0] :=
  ⟨get_last_frame_other_slot 0, by decide⟩

/-- C16: `vkinit::command_pool_create_info(queueFamilyIndex, flags)` returns a create-info
whose `flags` field is the `flags` argument, but whose `queueFamilyIndex` field is 0
whatever the argument: called with family 1 the field is not 1, and the create-info that
`init_commands` builds for graphics queue family 1 names family 0. -/
theorem command_pool_create_info_drops_family :
    (command_pool_create_info 1 VK_COMMAND_POOL_CREATE_RESET_COMMAND_BUFFER_BIT).queueFamilyIndex
      = 0 ∧
    (command_pool_create_info 1 VK_COMMAND_POOL_CREATE_RESET_COMMAND_BUFFER_BIT).queueFamilyIndex
      ≠ 1 ∧
    (init_commands_commandPoolInfo 1).queueFamilyIndex ≠ 1 ∧
    (∀ q f, (command_pool_create_info q f).flags = f ∧
      (command_pool_create_info q f).queueFamilyIndex = 0 ∧
      (command_pool_create_info q f).sType = VK_STRUCTURE_TYPE_COMMAND_POOL_CREATE_INFO) := by
  refine ⟨rfl, by decide, by decide, ?_⟩
  intro q f
  exact ⟨rfl, rfl, rfl⟩

/-! ## Allocator lifetime: theorems -/

theorem before_of_mem_append (a b : Resource) (l1 l2 : List Resource)
    (ha : a ∈ l1) (hb : b ∈ l2) : Before a b (l1 ++ l2) := by
  obtain ⟨s1, t1, rfl⟩ := List.append_of_mem ha
  obtain ⟨s2, t2, rfl⟩ := List.append_of_mem hb
  exact ⟨s1, t1 ++ s2, t2, by simp⟩

theorem cleanupDestroys_split_at_allocator (n : Nat) :
    cleanupDestroys n =
      ([Resource.objectBuffer 0, Resource.cameraBuffer 0, Resource.objectBuffer 1,
          Resource.cameraBuffer 1,
          Resource.vertexBuffer MeshName.monkey, Resource.vertexBuffer MeshName.triangle,
          Resource.pipeline, Resource.pipelineLayout, Resource.sceneParameterBuffer,
          Resource.objectSetLayout, Resource.globalSetLayout, Resource.descriptorPool,
          Resource.presentSemaphore 1, Resource.renderSemaphore 1, Resource.renderFence 1,
          Resource.presentSemaphore 0, Resource.renderSemaphore 0, Resource.renderFence 0,
          Resource.commandPool 1, Resource.commandPool 0] ++
        (List.range n).reverse.map Resource.framebuffer ++
        [Resource.renderPass, Resource.depthImageView, Resource.depthImage,
          Resource.swapchain]) ++
      ([Resource.allocator] ++
        ((List.range n).map Resource.swapchainImageView ++ explicitTail)) := by
  rw [cleanupDestroys_eq]
  simp [explicitTail]

/-- C18: for every number of swapchain images, `cleanup` destroys every buffer and image
allocated from the memory allocator (depth image, scene-parameter buffer, the camera and
object buffer of every slot, the two mesh vertex buffers) before the allocator, and the
allocator before the logical device (each of them exactly once). -/
theorem allocations_destroyed_before_allocator (n : Nat) (r : Resource)
    (hr : r ∈ allocatedFromAllocator) :
    Before r Resource.allocator (cleanupDestroys n) ∧
    Before Resource.allocator Resource.device (cleanupDestroys n) ∧
    (cleanupDestroys n).Nodup := by
  have h2 : List.range 2 = [0, 1] := rfl
  refine ⟨?_, ?_, cleanupDestroys_nodup n⟩
  · rw [cleanupDestroys_split_at_allocator]
    apply before_of_mem_append
    · simp only [allocatedFromAllocator, FRAME_OVERLAP, h2, List.map_cons, List.map_nil,
        List.cons_append, List.nil_append, List.mem_cons, List.mem_singleton,
        List.not_mem_nil, or_false] at hr
      rcases hr with rfl | rfl | rfl | rfl | rfl | rfl | rfl | rfl <;> simp
    · simp
  · rw [cleanupDestroys_split_at_allocator, ← List.append_assoc]
    apply before_of_mem_append
    · simp
    · simp [explicitTail]

/-- Instance with three swapchain images and the depth image. -/
theorem allocations_destroyed_before_allocator_witness :
    Resource.depthImage ∈ allocatedFromAllocator ∧
    (Before Resource.depthImage Resource.allocator (cleanupDestroys 3) ∧
    Before Resource.allocator Resource.device (cleanupDestroys 3) ∧
    (cleanupDestroys 3).Nodup) :=
  ⟨by decide, allocations_destroyed_before_allocator 3 Resource.depthImage (by decide)⟩

/-! ## Shader and model loading: theorems -/

theorem load_shader_module_of_fits {H : Type} (file : Option Nat) (createResult : Int)
    (shaderModule : H) (outShaderModule : Option H)
    (hfits : ∀ n, file = some n → n % 4 = 0) :
    load_shader_module file createResult shaderModule outShaderModule =
      some (if file = none ∨ createResult ≠ 0 then (false, outShaderModule)
        else (true, some shaderModule)) := by
  cases file with
  | none => simp [load_shader_module]
  | some n =>
    have hn := hfits n rfl
    have hle : ¬ load_shader_module_bufferBytes n < load_shader_module_bytesRead n := by
      simp only [load_shader_module_bufferBytes, load_shader_module_bufferWords,
        load_shader_module_bytesRead, sizeof_uint32_t]
      omega
    by_cases h : createResult = 0 <;> simp [load_shader_module, hle, h]

theorem load_shader_module_of_overrun {H : Type} (n : Nat) (createResult : Int)
    (shaderModule : H) (outShaderModule : Option H) (hn : n % 4 ≠ 0) :
    load_shader_module (some n) createResult shaderModule outShaderModule = none := by
  have hlt : load_shader_module_bufferBytes n < load_shader_module_bytesRead n := by
    simp only [load_shader_module_bufferBytes, load_shader_module_bufferWords,
      load_shader_module_bytesRead, sizeof_uint32_t]
    omega
  simp [load_shader_module, hlt]

/-- C12: for a file of 6 bytes that opens, `load_shader_module` reads 6 bytes into a buffer
of 4 and has no defined result, whatever `vkCreateShaderModule` would return; the same
holds for every size that is not a multiple of 4. For a file that cannot be opened or
whose size is a multiple of 4 the function returns `false` exactly when the file cannot be
opened or `vkCreateShaderModule` does not return success, and then `*outShaderModule`
keeps its content; otherwise it returns `true` and `*outShaderModule` is the created
module. -/
theorem load_shader_module_result {H : Type} (file : Option Nat) (createResult : Int)
    (shaderModule : H) (outShaderModule : Option H) :
    load_shader_module (some 6) 0 shaderModule outShaderModule = none ∧
    (∀ n, n % 4 ≠ 0 →
      load_shader_module (some n) createResult shaderModule outShaderModule = none) ∧
    ((∀ n, file = some n → n % 4 = 0) →
      ((∃ out, load_shader_module file createResult shaderModule outShaderModule =
          some (false, out)) ↔ (file = none ∨ createResult ≠ 0)) ∧
      (load_shader_module file createResult shaderModule outShaderModule =
          some (false, outShaderModule) ↔ (file = none ∨ createResult ≠ 0)) ∧
      (load_shader_module file createResult shaderModule outShaderModule =
          some (true, some shaderModule) ↔ (file ≠ none ∧ createResult = 0))) := by
  refine ⟨load_shader_module_of_overrun 6 0 shaderModule outShaderModule (by decide),
    fun n hn => load_shader_module_of_overrun n createResult shaderModule outShaderModule hn,
    fun hfits => ?_⟩
  rw [load_shader_module_of_fits file createResult shaderModule outShaderModule hfits]
  by_cases h : file = none ∨ createResult ≠ 0
  · simp [h]
    exact fun hf => h.resolve_left hf
  · have h2 : file ≠ none ∧ createResult = 0 := by
      constructor
      · exact fun hf => h (Or.inl hf)
      · exact not_not.1 (fun hc => h (Or.inr hc))
    simp [h, h2]

theorem load_from_obj_of_err {α : Type} (out : LoadObjOutput α) (verts : List (Vertex α))
    (herr : out.err ≠ "") : load_from_obj out verts = some (false, verts) := by
  simp [load_from_obj, herr]

theorem load_from_obj_of_no_err {α : Type} (out : LoadObjOutput α) (verts : List (Vertex α))
    (herr : out.err = "") (vs : List (Vertex α)) :
    load_from_obj out verts ≠ some (false, vs) := by
  simp [load_from_obj, herr]

/-- C14: `Mesh::load_from_obj` returns `false` if and only if the loader's error string is
non-empty, and then `_vertices` is unchanged; the warning string has no influence on the
result. -/
theorem load_from_obj_false_iff {α : Type} (out : LoadObjOutput α) (verts : List (Vertex α)) :
    ((∃ vs, load_from_obj out verts = some (false, vs)) ↔ out.err ≠ "") ∧
    (load_from_obj out verts = some (false, verts) ↔ out.err ≠ "") ∧
    (∀ w, load_from_obj { out with warn := w } verts = load_from_obj out verts) := by
  refine ⟨⟨?_, ?_⟩, ⟨?_, ?_⟩, ?_⟩
  · rintro ⟨vs, h⟩ herr
    exact load_from_obj_of_no_err out verts herr vs h
  · intro herr
    exact ⟨verts, load_from_obj_of_err out verts herr⟩
  · intro h herr
    exact load_from_obj_of_no_err out verts herr verts h
  · exact load_from_obj_of_err out verts
  · intro w
    rfl

theorem afterCheck_eq (result : Int) (rest : List InitStep) :
    afterCheck result rest = if result = 0 then rest else [InitStep.abort] := by
  by_cases h : result = 0 <;> simp [afterCheck, VK_CHECK, h]

theorem load_shader_module_unset {H : Type} (file : Option Nat) (createResult : Int)
    (shaderModule : H) (r : Bool × Option H)
    (h : load_shader_module file createResult shaderModule none = some r) :
    (r.1 = false → r.2 = none) ∧ (r.1 = true → r.2 = some shaderModule) := by
  cases file with
  | none =>
    simp only [load_shader_module, Option.some.injEq] at h
    subst h
    simp
  | some n =>
    simp only [load_shader_module] at h
    split at h
    · cases h
    · split at h <;>
      · simp only [Option.some.injEq] at h
        subst h
        simp

theorem init_pipelines_steps_of_loads (fragFile vertFile : Option Nat)
    (fragCreate vertCreate layoutResult : Int)
    (colorMeshShader meshVertShader : Bool × Option ShaderName)
    (hfrag : load_shader_module fragFile fragCreate ShaderName.default_lit_frag none
      = some colorMeshShader)
    (hvert : load_shader_module vertFile vertCreate ShaderName.tri_mesh_ssbo_vert none
      = some meshVertShader) :
    init_pipelines_steps fragFile vertFile fragCreate vertCreate layoutResult =
      some
        ((if colorMeshShader.1 then [] else [InitStep.print ConsoleLine.errorDefaultLit]) ++
         (if meshVertShader.1 then [InitStep.print ConsoleLine.vertexShaderLoaded]
          else [InitStep.print ConsoleLine.errorVertexShader]) ++
         [InitStep.shaderStage ShaderStage.vertex meshVertShader.2,
          InitStep.shaderStage ShaderStage.fragment colorMeshShader.2] ++
         (if layoutResult = 0 then
            [InitStep.createPipelineLayout, InitStep.buildPipeline, InitStep.createMaterial,
             InitStep.destroyShaderModule meshVertShader.2,
             InitStep.destroyShaderModule colorMeshShader.2,
             InitStep.pushMain [Resource.pipeline, Resource.pipelineLayout]]
          else [InitStep.abort])) := by
  simp only [init_pipelines_steps, hfrag, hvert, afterCheck_eq]
  obtain ⟨bf, mf⟩ := colorMeshShader
  obtain ⟨bv, mv⟩ := meshVertShader
  cases bf <;> cases bv <;> simp

theorem load_meshes_steps_of_load {α : Type} (out : LoadObjOutput α)
    (triResult monkeyResult : Int) (loaded : Bool × List (Vertex α))
    (h : load_from_obj out [] = some loaded) :
    load_meshes_steps out triResult monkeyResult =
      some (InitStep.createVertexBuffer MeshName.triangle 3 ::
        (if triResult = 0 then
          [InitStep.pushMain [Resource.vertexBuffer MeshName.triangle],
           InitStep.copyVertices MeshName.triangle 3,
           InitStep.createVertexBuffer MeshName.monkey loaded.2.length] ++
          (if monkeyResult = 0 then
            [InitStep.pushMain [Resource.vertexBuffer MeshName.monkey],
             InitStep.copyVertices MeshName.monkey loaded.2.length,
             InitStep.registerMesh MeshName.monkey, InitStep.registerMesh MeshName.triangle]
           else [InitStep.abort])
         else [InitStep.abort])) := by
  simp only [load_meshes_steps, h, upload_mesh_steps, afterCheck_eq]
  by_cases ht : triResult = 0 <;> by_cases hm : monkeyResult = 0 <;> simp [ht, hm]

/-- C13: a load failure is not propagated. Whatever the two `load_shader_module` calls
return, `init_pipelines` goes on with: the vertex and the fragment shader stage built from
the module variables (unset after a load that returned `false`), the checked creation of
the pipeline layout, `build_pipeline`, `create_material`, the two `vkDestroyShaderModule`
calls and the deletor; console lines and module variables aside these are the steps of
the run in which both loads succeed, and the function aborts only if
`vkCreatePipelineLayout` fails. When `load_from_obj` returns `false` (non-empty error
string), `load_meshes` still creates the monkey's vertex buffer (for the unchanged, empty
vertex list), pushes its deletor, copies the vertices and registers both meshes: vertex
counts aside the steps are those after any load that returns, and it aborts only if a
checked `vmaCreateBuffer` fails. -/
theorem load_failure_not_propagated {α : Type} (fragFile vertFile : Option Nat)
    (fragCreate vertCreate layoutResult : Int)
    (colorMeshShader meshVertShader : Bool × Option ShaderName) (out : LoadObjOutput α)
    (triResult monkeyResult : Int)
    (hfrag : load_shader_module fragFile fragCreate ShaderName.default_lit_frag none
      = some colorMeshShader)
    (hvert : load_shader_module vertFile vertCreate ShaderName.tri_mesh_ssbo_vert none
      = some meshVertShader)
    (herr : out.err ≠ "") :
    init_pipelines_steps fragFile vertFile fragCreate vertCreate layoutResult =
      some
        ((if colorMeshShader.1 then [] else [InitStep.print ConsoleLine.errorDefaultLit]) ++
         (if meshVertShader.1 then [InitStep.print ConsoleLine.vertexShaderLoaded]
          else [InitStep.print ConsoleLine.errorVertexShader]) ++
         [InitStep.shaderStage ShaderStage.vertex meshVertShader.2,
          InitStep.shaderStage ShaderStage.fragment colorMeshShader.2] ++
         (if layoutResult = 0 then
            [InitStep.createPipelineLayout, InitStep.buildPipeline, InitStep.createMaterial,
             InitStep.destroyShaderModule meshVertShader.2,
             InitStep.destroyShaderModule colorMeshShader.2,
             InitStep.pushMain [Resource.pipeline, Resource.pipelineLayout]]
          else [InitStep.abort])) ∧
    (colorMeshShader.1 = false → colorMeshShader.2 = none) ∧
    (meshVertShader.1 = false → meshVertShader.2 = none) ∧
    (init_pipelines_steps fragFile vertFile fragCreate vertCreate layoutResult).map
        (fun steps => (steps.filter (fun st => !st.isPrint)).map InitStep.shape) =
      some
        ([InitStep.shaderStage ShaderStage.vertex none,
          InitStep.shaderStage ShaderStage.fragment none] ++
         (if layoutResult = 0 then
            [InitStep.createPipelineLayout, InitStep.buildPipeline, InitStep.createMaterial,
             InitStep.destroyShaderModule none, InitStep.destroyShaderModule none,
             InitStep.pushMain [Resource.pipeline, Resource.pipelineLayout]]
          else [InitStep.abort])) ∧
    (init_pipelines_steps (some 0) (some 0) 0 0 layoutResult).map
        (fun steps => (steps.filter (fun st => !st.isPrint)).map InitStep.shape) =
      (init_pipelines_steps fragFile vertFile fragCreate vertCreate layoutResult).map
        (fun steps => (steps.filter (fun st => !st.isPrint)).map InitStep.shape) ∧
    load_from_obj out [] = some (false, []) ∧
    load_meshes_steps out triResult monkeyResult =
      some (InitStep.createVertexBuffer MeshName.triangle 3 ::
        (if triResult = 0 then
          [InitStep.pushMain [Resource.vertexBuffer MeshName.triangle],
           InitStep.copyVertices MeshName.triangle 3,
           InitStep.createVertexBuffer MeshName.monkey 0] ++
          (if monkeyResult = 0 then
            [InitStep.pushMain [Resource.vertexBuffer MeshName.monkey],
             InitStep.copyVertices MeshName.monkey 0,
             InitStep.registerMesh MeshName.monkey, InitStep.registerMesh MeshName.triangle]
           else [InitStep.abort])
         else [InitStep.abort])) ∧
    (∀ (out2 : LoadObjOutput α) (loaded : Bool × List (Vertex α)),
      load_from_obj out2 [] = some loaded →
      (load_meshes_steps out2 triResult monkeyResult).map (List.map InitStep.shape) =
        (load_meshes_steps out triResult monkeyResult).map (List.map InitStep.shape)) ∧
    (∀ steps, init_pipelines_steps fragFile vertFile fragCreate vertCreate layoutResult
        = some steps → (InitStep.abort ∈ steps ↔ layoutResult ≠ 0)) ∧
    (∀ steps, load_meshes_steps out triResult monkeyResult = some steps →
      (InitStep.abort ∈ steps ↔ (triResult ≠ 0 ∨ monkeyResult ≠ 0))) := by
  have hload := load_from_obj_of_err out [] herr
  have hshape : ∀ (f v : Option Nat) (fc vc : Int) (cf cv : Bool × Option ShaderName),
      load_shader_module f fc ShaderName.default_lit_frag none = some cf →
      load_shader_module v vc ShaderName.tri_mesh_ssbo_vert none = some cv →
      (init_pipelines_steps f v fc vc layoutResult).map
          (fun steps => (steps.filter (fun st => !st.isPrint)).map InitStep.shape) =
        some
          ([InitStep.shaderStage ShaderStage.vertex none,
            InitStep.shaderStage ShaderStage.fragment none] ++
           (if layoutResult = 0 then
              [InitStep.createPipelineLayout, InitStep.buildPipeline, InitStep.createMaterial,
               InitStep.destroyShaderModule none, InitStep.destroyShaderModule none,
               InitStep.pushMain [Resource.pipeline, Resource.pipelineLayout]]
            else [InitStep.abort])) := by
    intro f v fc vc cf cv h1 h2
    rw [init_pipelines_steps_of_loads f v fc vc layoutResult cf cv h1 h2]
    obtain ⟨bf, mf⟩ := cf
    obtain ⟨bv, mv⟩ := cv
    by_cases hl : layoutResult = 0 <;> cases bf <;> cases bv <;>
      simp [hl, InitStep.isPrint, InitStep.shape]
  refine ⟨init_pipelines_steps_of_loads _ _ _ _ _ _ _ hfrag hvert,
    (load_shader_module_unset _ _ _ _ hfrag).1, (load_shader_module_unset _ _ _ _ hvert).1,
    hshape _ _ _ _ _ _ hfrag hvert, ?_, hload, ?_, ?_, ?_, ?_⟩
  · rw [hshape _ _ _ _ _ _ hfrag hvert]
    exact hshape (some 0) (some 0) 0 0 (true, some ShaderName.default_lit_frag)
      (true, some ShaderName.tri_mesh_ssbo_vert) (by decide) (by decide)
  · exact load_meshes_steps_of_load out triResult monkeyResult (false, []) hload
  · intro out2 loaded h2
    rw [load_meshes_steps_of_load out2 triResult monkeyResult loaded h2,
      load_meshes_steps_of_load out triResult monkeyResult (false, []) hload]
    by_cases ht : triResult = 0 <;> by_cases hm : monkeyResult = 0 <;>
      simp [ht, hm, InitStep.shape]
  · intro steps hsteps
    rw [init_pipelines_steps_of_loads _ _ _ _ _ _ _ hfrag hvert, Option.some.injEq] at hsteps
    subst hsteps
    obtain ⟨bf, mf⟩ := colorMeshShader
    obtain ⟨bv, mv⟩ := meshVertShader
    by_cases hl : layoutResult = 0 <;> cases bf <;> cases bv <;> simp [hl]
  · intro steps hsteps
    rw [load_meshes_steps_of_load out triResult monkeyResult (false, []) hload,
      Option.some.injEq] at hsteps
    subst hsteps
    by_cases ht : triResult = 0 <;> by_cases hm : monkeyResult = 0 <;> simp [ht, hm]

/-- Instance: the fragment shader file is missing, the vertex shader module cannot be
created, and the loader reports an error. -/
theorem load_failure_not_propagated_witness :
    init_pipelines_steps none (some 1024) 0 (-3) 0 =
      some
        [InitStep.print ConsoleLine.errorDefaultLit,
         InitStep.print ConsoleLine.errorVertexShader,
         InitStep.shaderStage ShaderStage.vertex none,
         InitStep.shaderStage ShaderStage.fragment none,
         InitStep.createPipelineLayout, InitStep.buildPipeline, InitStep.createMaterial,
         InitStep.destroyShaderModule none, InitStep.destroyShaderModule none,
         InitStep.pushMain [Resource.pipeline, Resource.pipelineLayout]] ∧
    load_meshes_steps
        ({ attrib := { vertices := [], normals := [] }, shapes := [], warn := "",
           err := "Cannot open file" } : LoadObjOutput Nat) 0 0 =
      some
        [InitStep.createVertexBuffer MeshName.triangle 3,
         InitStep.pushMain [Resource.vertexBuffer MeshName.triangle],
         InitStep.copyVertices MeshName.triangle 3,
         InitStep.createVertexBuffer MeshName.monkey 0,
         InitStep.pushMain [Resource.vertexBuffer MeshName.monkey],
         InitStep.copyVertices MeshName.monkey 0,
         InitStep.registerMesh MeshName.monkey, InitStep.registerMesh MeshName.triangle] :=
  ⟨(load_failure_not_propagated none (some 1024) 0 (-3) 0 (false, none) (false, none)
      ({ attrib := { vertices := [], normals := [] }, shapes := [], warn := "",
         err := "Cannot open file" } : LoadObjOutput Nat) 0 0
      (by decide) (by decide) (by decide)).1,
   (load_failure_not_propagated none (some 1024) 0 (-3) 0 (false, none) (false, none)
      ({ attrib := { vertices := [], normals := [] }, shapes := [], warn := "",
         err := "Cannot open file" } : LoadObjOutput Nat) 0 0
      (by decide) (by decide) (by decide)).2.2.2.2.2.2.1⟩

/-! ## The operations of one `draw`: theorems -/

/-- C15: a call of `draw` that returns performs exactly these operations, in this order,
all on the slot `k` of the current frame number: the wait on slot `k`'s fence first, then
the fence reset, the command-buffer reset, the image acquire, the recording, one queue
submission that signals slot `k`'s fence, and one present; nothing precedes the wait. -/
theorem draw_operation_order (s : LoopState) (hpc : s.pc = DrawPc.getFrame)
    (hab : s.aborted = false)
    (hf : s.fences.getD (get_current_frame s._frameNumber) false = true) :
    drawOps s =
      [DrawOp.waitForFences (get_current_frame s._frameNumber),
       DrawOp.resetFences (get_current_frame s._frameNumber),
       DrawOp.resetCommandBuffer (get_current_frame s._frameNumber),
       DrawOp.acquireNextImage (get_current_frame s._frameNumber),
       DrawOp.beginCommandBuffer (get_current_frame s._frameNumber),
       DrawOp.cmdBeginRenderPass (get_current_frame s._frameNumber),
       DrawOp.draw_objects (get_current_frame s._frameNumber)
         (get_current_frame s._frameNumber),
       DrawOp.cmdEndRenderPass (get_current_frame s._frameNumber),
       DrawOp.endCommandBuffer (get_current_frame s._frameNumber),
       DrawOp.queueSubmit (get_current_frame s._frameNumber)
         (get_current_frame s._frameNumber) (get_current_frame s._frameNumber)
         (get_current_frame s._frameNumber),
       DrawOp.queuePresent (get_current_frame s._frameNumber)] ∧
    (drawOps s).head? = some (DrawOp.waitForFences (get_current_frame s._frameNumber)) ∧
    (drawOps s).filter DrawOp.isSubmit =
      [DrawOp.queueSubmit (get_current_frame s._frameNumber)
         (get_current_frame s._frameNumber) (get_current_frame s._frameNumber)
         (get_current_frame s._frameNumber)] ∧
    (drawOps s).filter DrawOp.isPresent =
      [DrawOp.queuePresent (get_current_frame s._frameNumber)] := by
  obtain ⟨n, pc, frame, fences, inFlight, aborted⟩ := s
  simp only at hpc hab hf
  subst hpc hab
  have hf1 : fences[get_current_frame n]?.getD false = true := by simpa using hf
  have h : drawOps { _frameNumber := n, pc := DrawPc.getFrame, frame := frame,
                     fences := fences, inFlight := inFlight, aborted := false } =
      [DrawOp.waitForFences (get_current_frame n), DrawOp.resetFences (get_current_frame n),
       DrawOp.resetCommandBuffer (get_current_frame n),
       DrawOp.acquireNextImage (get_current_frame n),
       DrawOp.beginCommandBuffer (get_current_frame n),
       DrawOp.cmdBeginRenderPass (get_current_frame n),
       DrawOp.draw_objects (get_current_frame n) (get_current_frame n),
       DrawOp.cmdEndRenderPass (get_current_frame n),
       DrawOp.endCommandBuffer (get_current_frame n),
       DrawOp.queueSubmit (get_current_frame n) (get_current_frame n) (get_current_frame n)
         (get_current_frame n),
       DrawOp.queuePresent (get_current_frame n)] := by
    simp [drawOps, List.replicate, runOps, hostOp, step, hostStep, checked, VK_CHECK, apiCall,
      hf1]
  rw [h]
  simp [DrawOp.isSubmit, DrawOp.isPresent]

/-- Instance at the state left by `init`: the first draw works on slot 0. -/
theorem draw_operation_order_witness :
    (drawOps loopInit).head? = some (DrawOp.waitForFences 0) ∧
    (drawOps loopInit).filter DrawOp.isSubmit = [DrawOp.queueSubmit 0 0 0 0] ∧
    (drawOps loopInit).filter DrawOp.isPresent = [DrawOp.queuePresent 0] :=
  (draw_operation_order loopInit rfl rfl (by decide)).2

/-! ## Result codes of the API calls: theorems -/

theorem execCalls_of_aborted (cs : List CallSite) (rs : List Int) (p : Process)
    (hp : p.aborted = true) : execCalls cs rs p = p := by
  cases cs with
  | nil => rfl
  | cons c cs => simp [execCalls, hp]

theorem callSite_calls_length (c : CallSite) (r : Int) (p : Process) :
    (callSite c r p).calls.length = p.calls.length + 1 := by
  obtain ⟨api, h⟩ := c
  cases h <;> by_cases hr : r = 0 <;> simp [callSite, VK_CHECK, hr]

theorem callSite_aborted (c : CallSite) (r : Int) (p : Process) (hp : p.aborted = false) :
    (callSite c r p).aborted = true ↔ (c.handling = Handling.vkCheck ∧ r ≠ 0) := by
  obtain ⟨api, h⟩ := c
  cases h <;> by_cases hr : r = 0 <;> simp [callSite, VK_CHECK, hr, hp]

/-- A failing checked call aborts the process, and no call is made after it. -/
theorem execCalls_checked_failure (cs : List CallSite) (rs : List Int) (p : Process)
    (i : Nat) (hi : (cs.get? i).map CallSite.handling = some Handling.vkCheck)
    (hr : rs.getD i 0 ≠ 0) :
    (execCalls cs rs p).aborted = true ∧
    (execCalls cs rs p).calls.length ≤ p.calls.length + i + 1 := by
  induction cs generalizing rs p i with
  | nil => simp at hi
  | cons c cs ih =>
    by_cases hp : p.aborted = true
    · rw [execCalls_of_aborted _ _ _ hp]
      exact ⟨hp, by omega⟩
    · have hp0 : p.aborted = false := by simpa using hp
      simp only [execCalls, hp0, Bool.false_eq_true, if_false]
      cases i with
      | zero =>
        have hc : c.handling = Handling.vkCheck := by simpa using hi
        have hr0 : rs.headD 0 ≠ 0 := by
          cases rs with
          | nil => simp at hr
          | cons r rs => simpa using hr
        have hab : (callSite c (rs.headD 0) p).aborted = true :=
          (callSite_aborted c _ p hp0).2 ⟨hc, hr0⟩
        rw [execCalls_of_aborted _ _ _ hab]
        exact ⟨hab, by rw [callSite_calls_length]⟩
      | succ j =>
        have hi2 : (cs.get? j).map CallSite.handling = some Handling.vkCheck := by
          simpa using hi
        have hr2 : rs.tail.getD j 0 ≠ 0 := by
          cases rs with
          | nil => simp at hr
          | cons r rs => simpa using hr
        obtain ⟨h1, h2⟩ := ih rs.tail (callSite c (rs.headD 0) p) j hi2 hr2
        refine ⟨h1, ?_⟩
        rw [callSite_calls_length] at h2
        omega

/-- When every checked call succeeds, all calls are made and the process is not aborted,
whatever the other calls return. -/
theorem execCalls_no_checked_failure (cs : List CallSite) (rs : List Int) (p : Process)
    (hp : p.aborted = false)
    (hok : ∀ j c, cs.get? j = some c → c.handling = Handling.vkCheck → rs.getD j 0 = 0) :
    (execCalls cs rs p).aborted = false ∧
    (execCalls cs rs p).calls.length = p.calls.length + cs.length := by
  induction cs generalizing rs p with
  | nil => exact ⟨hp, rfl⟩
  | cons c cs ih =>
    simp only [execCalls, hp, Bool.false_eq_true, if_false]
    have hc : (callSite c (rs.headD 0) p).aborted = false := by
      by_contra h
      have h1 : (callSite c (rs.headD 0) p).aborted = true := by simpa using h
      obtain ⟨h2, h3⟩ := (callSite_aborted c _ p hp).1 h1
      apply h3
      have := hok 0 c rfl h2
      cases rs with
      | nil => rfl
      | cons r rs => simpa using this
    have hok2 : ∀ j d, cs.get? j = some d → d.handling = Handling.vkCheck →
        rs.tail.getD j 0 = 0 := by
      intro j d hj hd
      have := hok (j + 1) d (by simpa using hj) hd
      cases rs with
      | nil => rfl
      | cons r rs => simpa using this
    obtain ⟨h1, h2⟩ := ih rs.tail (callSite c (rs.headD 0) p) hc hok2
    refine ⟨h1, ?_⟩
    rw [h2, callSite_calls_length, List.length_cons]
    omega

theorem all_replicate_flatten (p : CallSite → Bool) (k : Nat) (l : List CallSite)
    (h : l.all p = true) : ((List.replicate k l).flatten).all p = true := by
  induction k with
  | zero => rfl
  | succ k ih => simp only [List.replicate_succ, List.flatten_cons, List.all_append, h, ih,
      Bool.and_self]

theorem engineCalls_all (p : CallSite → Bool) (n frames : Nat)
    (h1 : (initCalls 1).all p = true) (h2 : drawCalls.all p = true)
    (h3 : cleanupCalls.all p = true) : (engineCalls n frames).all p = true := by
  have hfb : (List.replicate n (⟨Api.vkCreateFramebuffer, Handling.vkCheck⟩ : CallSite)).all p
      = true := by
    have : p ⟨Api.vkCreateFramebuffer, Handling.vkCheck⟩ = true := by
      simp only [initCalls, List.all_append, Bool.and_eq_true] at h1
      simpa using h1.1.1.1.1.1.2
    induction n with
    | zero => rfl
    | succ n ih => simp only [List.replicate_succ, List.all_cons, this, ih, Bool.and_self]
  simp only [engineCalls, initCalls, List.all_append, Bool.and_eq_true] at h1 ⊢
  exact ⟨⟨⟨⟨⟨⟨⟨⟨h1.1.1.1.1.1.1, hfb⟩, h1.1.1.1.1.2⟩, h1.1.1.1.2⟩, h1.1.1.2⟩, h1.1.2⟩, h1.2⟩,
    all_replicate_flatten p frames drawCalls h2⟩, h3⟩

/-- C11 (as claimed) fails: in a run with three swapchain images and one frame, a failing
`vkCreateGraphicsPipelines` (call 33, compared with `VK_SUCCESS` in `build_pipeline`) and
a failing `vkCreateDescriptorPool` (call 18, result not read in `init_descriptors`) each
leave the process running: every later call is still made. -/
theorem unchecked_failure_continues :
    (engineCalls 3 1).get? 33 = some ⟨Api.vkCreateGraphicsPipelines, Handling.compared⟩ ∧
    (execCalls (engineCalls 3 1) (List.replicate 33 0 ++ [-1]) Process.start).aborted = false ∧
    (execCalls (engineCalls 3 1) (List.replicate 33 0 ++ [-1]) Process.start).calls.length
      = (engineCalls 3 1).length ∧
    (execCalls (engineCalls 3 1) (List.replicate 33 0 ++ [-1]) Process.start).calls.get? 33
      = some (Api.vkCreateGraphicsPipelines, -1) ∧
    (engineCalls 3 1).get? 18 = some ⟨Api.vkCreateDescriptorPool, Handling.discarded⟩ ∧
    (execCalls (engineCalls 3 1) (List.replicate 18 0 ++ [-1]) Process.start).aborted = false ∧
    (execCalls (engineCalls 3 1) (List.replicate 18 0 ++ [-1]) Process.start).calls.length
      = (engineCalls 3 1).length := by
  decide

/-- C11 (amended): in a run of `init`, any number of `draw` calls and `cleanup`, a
non-success code returned by a call wrapped in `VK_CHECK` terminates the process, and no
later call is made. The results of `vkCreateShaderModule` and `vkCreateGraphicsPipelines`
(and of no other call) are compared with `VK_SUCCESS` instead; whatever they return, the
process is not aborted and all calls are made as long as the other calls succeed. -/
theorem checked_call_failure_aborts (n frames i : Nat) (rs : List Int)
    (hi : ((engineCalls n frames).get? i).map CallSite.handling = some Handling.vkCheck)
    (hr : rs.getD i 0 ≠ 0) :
    (execCalls (engineCalls n frames) rs Process.start).aborted = true ∧
    (execCalls (engineCalls n frames) rs Process.start).calls.length ≤ i + 1 ∧
    (engineCalls n frames).all (fun c => decide (c.handling = Handling.compared ↔
      (c.api = Api.vkCreateShaderModule ∨ c.api = Api.vkCreateGraphicsPipelines))) = true ∧
    (∀ rs2 : List Int,
      (∀ j c, (engineCalls n frames).get? j = some c → c.handling ≠ Handling.compared →
        rs2.getD j 0 = 0) →
      (execCalls (engineCalls n frames) rs2 Process.start).aborted = false ∧
      (execCalls (engineCalls n frames) rs2 Process.start).calls.length
        = (engineCalls n frames).length) := by
  obtain ⟨h1, h2⟩ := execCalls_checked_failure (engineCalls n frames) rs Process.start i hi hr
  refine ⟨h1, ?_, ?_, ?_⟩
  · simpa [Process.start] using h2
  · exact engineCalls_all _ n frames (by decide) (by decide) (by decide)
  · intro rs2 hok
    have h := execCalls_no_checked_failure (engineCalls n frames) rs2 Process.start rfl
      (fun j c hj hc => hok j c hj (by rw [hc]; decide))
    simpa [Process.start] using h

/-- Instance with three swapchain images and one frame: `vkCreateImageView` (call 3, in
`VK_CHECK`) fails, the process aborts after four calls. -/
theorem checked_call_failure_aborts_witness :
    (execCalls (engineCalls 3 1) [0, 0, 0, -1] Process.start).aborted = true ∧
    (execCalls (engineCalls 3 1) [0, 0, 0, -1] Process.start).calls.length ≤ 3 + 1 ∧
    (execCalls (engineCalls 3 1) [0, 0, 0, -1] Process.start).calls =
      [(Api.glfwCreateWindowSurface, 0), (Api.vmaCreateAllocator, 0), (Api.vmaCreateImage, 0),
       (Api.vkCreateImageView, -1)] :=
  ⟨(checked_call_failure_aborts 3 1 3 [0, 0, 0, -1] (by decide) (by decide)).1,
   (checked_call_failure_aborts 3 1 3 [0, 0, 0, -1] (by decide) (by decide)).2.1,
   by decide⟩

/-! ## Flushing twice, shader file buffer, vertex description, framebuffers: theorems -/

/-- C21 (as claimed) fails: a queue on which 1 and then 2 were pushed still holds both
deletors after `flush`, and a second `flush` right after the first calls both again. -/
theorem flush_twice_calls_twice :
    (((([1, 2] : List Nat).foldl DeletionQueue.push_function DeletionQueue.empty).flush
        recordCall []).1).deletors = [1, 2] ∧
    (((([1, 2] : List Nat).foldl DeletionQueue.push_function DeletionQueue.empty).flush
        recordCall []).1.flush recordCall
      ((([1, 2] : List Nat).foldl DeletionQueue.push_function DeletionQueue.empty).flush
        recordCall []).2).2 = [2, 1, 2, 1] := by
  decide

/-- C21 (amended): `DeletionQueue::flush` leaves the deque as it is, so after a flush the
queue holds the same deletors; flushing twice in a row runs every pushed function twice,
the second flush repeating the calls of the first in the same reverse order. Each
function runs exactly once in total only when the queue is flushed once. -/
theorem flush_keeps_deletors {F : Type} (q : DeletionQueue F) :
    (∀ (W : Type) (call : F → W → W) (w : W), (q.flush call w).1 = q) ∧
    ((q.flush recordCall []).1.flush recordCall (q.flush recordCall []).2).2
      = q.deletors.reverse ++ q.deletors.reverse ∧
    (q.flush recordCall []).2 = q.deletors.reverse := by
  refine ⟨fun _ _ _ => rfl, ?_, ?_⟩
  · simp only [DeletionQueue.flush, foldl_recordCall]
    simp
  · simp only [DeletionQueue.flush, foldl_recordCall]
    simp

/-- C22: for a file of 6 bytes `load_shader_module` allocates one 32-bit word (4 bytes) and
reads 6 bytes into it, and passes `codeSize = 4`; in general the buffer never exceeds the
file, holds the whole file exactly when the size is a multiple of 4, and only then is
`codeSize` the file size. -/
theorem load_shader_module_buffer_short :
    load_shader_module_bufferWords 6 = 1 ∧
    load_shader_module_bufferBytes 6 = 4 ∧
    load_shader_module_bytesRead 6 = 6 ∧
    load_shader_module_bufferBytes 6 < load_shader_module_bytesRead 6 ∧
    load_shader_module_codeSize 6 = 4 ∧
    (∀ n, load_shader_module_bufferBytes n ≤ n ∧
      (load_shader_module_bytesRead n ≤ load_shader_module_bufferBytes n ↔ n % 4 = 0) ∧
      (n < 2 ^ 64 → (load_shader_module_codeSize n = n ↔ n % 4 = 0))) := by
  refine ⟨by decide, by decide, by decide, by decide, by decide, ?_⟩
  intro n
  simp only [load_shader_module_bufferBytes, load_shader_module_bufferWords,
    load_shader_module_bytesRead, load_shader_module_codeSize, sizeof_uint32_t, sizeMul,
    SIZE_BITS]
  norm_num
  refine ⟨by omega, by omega, ?_⟩
  intro hn
  omega

/-- C28: `Vertex::get_vertex_description` returns exactly one binding (binding 0,
per-vertex rate, stride `sizeof(Vertex) = 36`, the `vec3` fields being 12 bytes) and
exactly the three attributes position, normal, color at locations 0, 1, 2 with byte
offsets 0, 12, 24, all on binding 0; their 12-byte ranges are pairwise disjoint and end
within the stride. -/
theorem get_vertex_description_layout :
    get_vertex_description =
      { bindings := [{ binding := 0, stride := 36, inputRate := VK_VERTEX_INPUT_RATE_VERTEX }],
        attributes :=
          [{ location := 0, binding := 0, format := VK_FORMAT_R32G32B32_SFLOAT, offset := 0 },
           { location := 1, binding := 0, format := VK_FORMAT_R32G32B32_SFLOAT, offset := 12 },
           { location := 2, binding := 0, format := VK_FORMAT_R32G32B32_SFLOAT, offset := 24 }],
        flags := 0 } ∧
    sizeof_Vertex = 36 ∧ sizeof_vec3 = 12 ∧ sizeof_R32G32B32_SFLOAT = 12 ∧
    get_vertex_description.attributes.map VkVertexInputAttributeDescription.offset =
      [offsetof_Vertex_position, offsetof_Vertex_normal, offsetof_Vertex_color] ∧
    get_vertex_description.attributes.Pairwise
      (fun a b => a.offset + sizeof_R32G32B32_SFLOAT ≤ b.offset ∨
        b.offset + sizeof_R32G32B32_SFLOAT ≤ a.offset) ∧
    get_vertex_description.attributes.all
      (fun a => decide (a.offset + sizeof_R32G32B32_SFLOAT ≤ sizeof_Vertex)) = true := by
  decide

theorem init_framebuffers_trace (n : Nat) (e : Engine) (he : e._swapchainImageViews = n) :
    (init_framebuffers e).trace =
      e.trace ++ (init_framebuffers_created n).map (fun p => Event.create p.1) := by
  simp only [init_framebuffers, he, forRange_create_push, init_framebuffers_created,
    List.map_map]
  rfl

/-- C27: `init_framebuffers` creates exactly one framebuffer per swapchain image, and for
every `i` below the image count framebuffer `i` is created from the render pass, swapchain
image view `i` and (final chapter) the depth image view; `_framebuffers` has one element
per image, so every image index below the count is a valid index in `draw`. -/
theorem init_framebuffers_one_per_image (n i : Nat) (hi : i < n) :
    (init_framebuffers_created n).length = n ∧
    i < (init_framebuffers_created n).length ∧
    (init_framebuffers_created n).get? i =
      some (Resource.framebuffer i,
        { renderPass := Resource.renderPass, attachmentCount := 2,
          pAttachments := [Resource.swapchainImageView i, Resource.depthImageView] }) ∧
    framebuffer_references i =
      Resource.renderPass :: [Resource.swapchainImageView i, Resource.depthImageView] ∧
    (init_framebuffers_created_chapter1 n).get? i =
      some (Resource.framebuffer i,
        { renderPass := Resource.renderPass, attachmentCount := 1,
          pAttachments := [Resource.swapchainImageView i] }) ∧
    created (init_framebuffers { Engine.fresh with _swapchainImageViews := n }).trace =
      (List.range n).map Resource.framebuffer ∧
    ((List.range n).map Resource.framebuffer).Nodup := by
  refine ⟨by simp [init_framebuffers_created], by simpa [init_framebuffers_created] using hi,
    ?_, rfl, ?_, ?_, ?_⟩
  · simp [init_framebuffers_created, framebuffer_create_info, List.getElem?_range hi]
  · simp [init_framebuffers_created_chapter1, framebuffer_create_info, List.getElem?_range hi]
  · rw [init_framebuffers_trace n _ rfl]
    simp [Engine.fresh, created, init_framebuffers_created, List.filterMap_map,
      Function.comp_def]
    rw [← List.filterMap_eq_map]
    rfl
  · exact (List.nodup_range n).map (fun a b h => by injection h)

/-- Instance with three swapchain images and image index 2. -/
theorem init_framebuffers_one_per_image_witness :
    2 < 3 ∧ (init_framebuffers_created 3).length = 3 ∧
    (init_framebuffers_created 3).get? 2 =
      some (Resource.framebuffer 2,
        { renderPass := Resource.renderPass, attachmentCount := 2,
          pAttachments := [Resource.swapchainImageView 2, Resource.depthImageView] }) :=
  ⟨by decide, (init_framebuffers_one_per_image 3 2 (by decide)).1,
    (init_framebuffers_one_per_image 3 2 (by decide)).2.2.1⟩

/-! ## `draw_objects`: theorems -/

theorem recordObjects_congr {α M : Type} (s t : HostState α M) (slot off : Nat)
    (hm : t._meshes = s._meshes) (hmat : t._materials = s._materials)
    (i : Nat) (lastMesh lastMaterial : Option String) (objects : List (RenderObject M)) :
    recordObjects t slot off i lastMesh lastMaterial objects =
      recordObjects s slot off i lastMesh lastMaterial objects := by
  induction objects generalizing i lastMesh lastMaterial with
  | nil => rfl
  | cons o os ih =>
    simp only [recordObjects, derefMaterial, derefMesh, hm, hmat, ih]

/-- The loop invariant of the bind caching: what `lastMaterial` and `lastMesh` point to is
what is bound. -/
theorem recordObjects_bound {α M : Type} (s : HostState α M) (slot off : Nat)
    (objects : List (RenderObject M)) (hvalid : ∀ o ∈ objects, validObject s o)
    (i : Nat) (lastMesh lastMaterial : Option String) (bound : Option Nat × Option Nat)
    (hmat : ∀ k, lastMaterial = some k →
      bound.1 = (s._materials.lookup k).map Material.pipeline)
    (hmesh : ∀ k, lastMesh = some k →
      bound.2 = (s._meshes.lookup k).map Mesh._vertexBuffer) :
    ∃ cmds, recordObjects s slot off i lastMesh lastMaterial objects = some cmds ∧
      boundAtDraws cmds bound = objects.map (fun o =>
        ((derefMaterial s o.material).map Material.pipeline,
         (derefMesh s o.mesh).map Mesh._vertexBuffer)) ∧
      drawsOf cmds = (objects.zip (List.range' i objects.length)).map (fun p =>
        (((derefMesh s p.1.mesh).map (fun m => m._vertices.length)).getD 0 % 2 ^ 32,
          p.2 % 2 ^ 32)) := by
  induction objects generalizing i lastMesh lastMaterial bound with
  | nil => exact ⟨[], rfl, rfl, rfl⟩
  | cons o os ih =>
    obtain ⟨hm, hma⟩ := hvalid o (List.mem_cons_self _ _)
    obtain ⟨mesh, hmesh1⟩ := Option.isSome_iff_exists.1 hm
    obtain ⟨mat, hmat1⟩ := Option.isSome_iff_exists.1 hma
    obtain ⟨pm, pmat, tm⟩ := o
    simp only at hmesh1 hmat1
    cases pm with
    | none => simp [derefMesh] at hmesh1
    | some km =>
      cases pmat with
      | none => simp [derefMaterial] at hmat1
      | some kmat =>
        have hl1 : s._meshes.lookup km = some mesh := by simpa [derefMesh] using hmesh1
        have hl2 : s._materials.lookup kmat = some mat := by simpa [derefMaterial] using hmat1
        obtain ⟨cmds, hc, hb, hd⟩ := ih (fun o ho => hvalid o (List.mem_cons_of_mem _ ho))
          (i + 1) (some km) (some kmat) (some mat.pipeline, some mesh._vertexBuffer)
          (fun k hk => by
            have : kmat = k := by simpa using hk
            subst this
            simp [hl2])
          (fun k hk => by
            have : km = k := by simpa using hk
            subst this
            simp [hl1])
        have hlm : (if some kmat ≠ lastMaterial then some kmat else lastMaterial) = some kmat := by
          by_cases h : some kmat = lastMaterial <;> simp [h]
        have hlme : (if some km ≠ lastMesh then some km else lastMesh) = some km := by
          by_cases h : some km = lastMesh <;> simp [h]
        refine ⟨(if some kmat ≠ lastMaterial then
              [Cmd.bindPipeline mat.pipeline,
               Cmd.bindGlobalDescriptor mat.pipelineLayout slot off,
               Cmd.bindObjectDescriptor mat.pipelineLayout slot]
            else []) ++ [Cmd.pushConstants mat.pipelineLayout tm] ++
            (if some km ≠ lastMesh then [Cmd.bindVertexBuffers mesh._vertexBuffer] else []) ++
            [Cmd.draw (mesh._vertices.length % 2 ^ 32) 1 0 (i % 2 ^ 32)] ++ cmds, ?_, ?_, ?_⟩
        · simp only [recordObjects, hmesh1, hmat1, hlm, hlme, hc, Option.map_some']
        · obtain ⟨b1, b2⟩ := bound
          have e1 : lastMaterial = some kmat → b1 = some mat.pipeline := fun h => by
            have := hmat kmat h
            simp only [hl2, Option.map_some'] at this
            exact this
          have e2 : lastMesh = some km → b2 = some mesh._vertexBuffer := fun h => by
            have := hmesh km h
            simp only [hl1, Option.map_some'] at this
            exact this
          by_cases h1 : lastMaterial = some kmat <;> by_cases h2 : lastMesh = some km
          · simp [boundAtDraws, h1, h2, e1 h1, e2 h2, hb, hmesh1, hmat1]
          · have h2n : ¬ some km = lastMesh := fun h => h2 h.symm
            simp [boundAtDraws, h1, h2n, e1 h1, hb, hmesh1, hmat1]
          · have h1n : ¬ some kmat = lastMaterial := fun h => h1 h.symm
            simp [boundAtDraws, h1n, h2, e2 h2, hb, hmesh1, hmat1]
          · have h1n : ¬ some kmat = lastMaterial := fun h => h1 h.symm
            have h2n : ¬ some km = lastMesh := fun h => h2 h.symm
            simp [boundAtDraws, h1n, h2n, hb, hmesh1, hmat1]
        · by_cases h1 : lastMaterial = some kmat <;> by_cases h2 : lastMesh = some km
          · simp [drawsOf, h1, h2, hd, hmesh1, List.range'_succ]
          · have h2n : ¬ some km = lastMesh := fun h => h2 h.symm
            simp [drawsOf, h1, h2n, hd, hmesh1, List.range'_succ]
          · have h1n : ¬ some kmat = lastMaterial := fun h => h1 h.symm
            simp [drawsOf, h1n, h2, hd, hmesh1, List.range'_succ]
          · have h1n : ¬ some kmat = lastMaterial := fun h => h1 h.symm
            have h2n : ¬ some km = lastMesh := fun h => h2 h.symm
            simp [drawsOf, h1n, h2n, hd, hmesh1, List.range'_succ]

theorem recordObjectsRebinding_bound {α M : Type} (s : HostState α M) (slot off : Nat)
    (objects : List (RenderObject M)) (hvalid : ∀ o ∈ objects, validObject s o)
    (i : Nat) (bound : Option Nat × Option Nat) :
    ∃ cmds, recordObjectsRebinding s slot off i objects = some cmds ∧
      boundAtDraws cmds bound = objects.map (fun o =>
        ((derefMaterial s o.material).map Material.pipeline,
         (derefMesh s o.mesh).map Mesh._vertexBuffer)) ∧
      drawsOf cmds = (objects.zip (List.range' i objects.length)).map (fun p =>
        (((derefMesh s p.1.mesh).map (fun m => m._vertices.length)).getD 0 % 2 ^ 32,
          p.2 % 2 ^ 32)) := by
  induction objects generalizing i bound with
  | nil => exact ⟨[], rfl, rfl, rfl⟩
  | cons o os ih =>
    obtain ⟨hm, hma⟩ := hvalid o (List.mem_cons_self _ _)
    obtain ⟨mesh, hmesh1⟩ := Option.isSome_iff_exists.1 hm
    obtain ⟨mat, hmat1⟩ := Option.isSome_iff_exists.1 hma
    obtain ⟨cmds, hc, hb, hd⟩ := ih (fun o ho => hvalid o (List.mem_cons_of_mem _ ho))
      (i + 1) (some mat.pipeline, some mesh._vertexBuffer)
    refine ⟨[Cmd.bindPipeline mat.pipeline,
         Cmd.bindGlobalDescriptor mat.pipelineLayout slot off,
         Cmd.bindObjectDescriptor mat.pipelineLayout slot,
         Cmd.pushConstants mat.pipelineLayout o.tranformMatrix,
         Cmd.bindVertexBuffers mesh._vertexBuffer,
         Cmd.draw (mesh._vertices.length % 2 ^ 32) 1 0 (i % 2 ^ 32)] ++ cmds, ?_, ?_, ?_⟩
    · simp only [recordObjectsRebinding, hmesh1, hmat1, hc, Option.map_some']
    · simp [boundAtDraws, hb, hmesh1, hmat1]
    · simp [drawsOf, hd, hmesh1, List.range'_succ]

/-- C23: for every sequence of render objects whose mesh and material pointers point to
map entries (in particular are non-null), the commands recorded with the bind caching
and those recorded when everything is bound again for every object give, at each draw
command, the same bound pipeline and vertex buffer, namely the pipeline of that object's
material and the vertex buffer of that object's mesh, and the same draw commands. -/
theorem bind_caching_equals_rebinding {α M : Type} (s : HostState α M) (slot off : Nat)
    (objects : List (RenderObject M)) (hvalid : ∀ o ∈ objects, validObject s o) :
    ∃ cached rebound,
      recordObjects s slot off 0 none none objects = some cached ∧
      recordObjectsRebinding s slot off 0 objects = some rebound ∧
      boundAtDraws cached (none, none) = boundAtDraws rebound (none, none) ∧
      boundAtDraws cached (none, none) = objects.map (fun o =>
        ((derefMaterial s o.material).map Material.pipeline,
         (derefMesh s o.mesh).map Mesh._vertexBuffer)) ∧
      (boundAtDraws cached (none, none)).all (fun b => b.1.isSome && b.2.isSome) = true ∧
      drawsOf cached = drawsOf rebound := by
  obtain ⟨cached, h1, h2, h3⟩ := recordObjects_bound s slot off objects hvalid 0 none none
    (none, none) (fun k hk => Option.noConfusion hk) (fun k hk => Option.noConfusion hk)
  obtain ⟨rebound, g1, g2, g3⟩ := recordObjectsRebinding_bound s slot off objects hvalid 0
    (none, none)
  refine ⟨cached, rebound, h1, g1, h2.trans g2.symm, h2, ?_, h3.trans g3.symm⟩
  rw [h2, List.all_eq_true]
  intro b hb
  obtain ⟨o, ho, rfl⟩ := List.mem_map.1 hb
  obtain ⟨hm, hma⟩ := hvalid o ho
  simp [Option.isSome_map', hm, hma]

/-- Instance: a monkey followed by two triangles in `exampleState`; the pipeline is bound
once, the vertex buffer twice. -/
theorem bind_caching_equals_rebinding_witness :
    recordObjects exampleState 0 0 0 none none
        [{ mesh := some "monkey", material := some "defaultMesh", tranformMatrix := 1 },
         exampleTriangle 2, exampleTriangle 3] =
      some [Cmd.bindPipeline 100, Cmd.bindGlobalDescriptor 200 0 0,
        Cmd.bindObjectDescriptor 200 0, Cmd.pushConstants 200 1, Cmd.bindVertexBuffers 7,
        Cmd.draw 0 1 0 0, Cmd.pushConstants 200 2, Cmd.bindVertexBuffers 8, Cmd.draw 0 1 0 1,
        Cmd.pushConstants 200 3, Cmd.draw 0 1 0 2] ∧
    ∃ cached rebound,
      recordObjects exampleState 0 0 0 none none
        [{ mesh := some "monkey", material := some "defaultMesh", tranformMatrix := 1 },
         exampleTriangle 2, exampleTriangle 3] = some cached ∧
      recordObjectsRebinding exampleState 0 0 0
        [{ mesh := some "monkey", material := some "defaultMesh", tranformMatrix := 1 },
         exampleTriangle 2, exampleTriangle 3] = some rebound ∧
      boundAtDraws cached (none, none) = boundAtDraws rebound (none, none) :=
  ⟨by decide,
   (bind_caching_equals_rebinding exampleState 0 0
      [{ mesh := some "monkey", material := some "defaultMesh", tranformMatrix := 1 },
       exampleTriangle 2, exampleTriangle 3]
      (by decide)).imp fun _ h => h.imp fun _ h2 => ⟨h2.1, h2.2.1, h2.2.2.1⟩⟩

theorem writeObjectBuffer_spec {M : Type} (objects : List (RenderObject M)) (i : Nat)
    (buf : List (Option M)) (h : i + objects.length ≤ buf.length) :
    ∃ w, writeObjectBuffer i objects buf = some w ∧ w.length = buf.length ∧
      (∀ j o, objects[j]? = some o → w[i + j]? = some (some o.tranformMatrix)) ∧
      (∀ k, k < i → w[k]? = buf[k]?) := by
  induction objects generalizing i buf with
  | nil => exact ⟨buf, rfl, rfl, fun j o hj => by simp at hj, fun _ _ => rfl⟩
  | cons o os ih =>
    simp only [List.length_cons] at h
    obtain ⟨w, hw, hlen, hin, hout⟩ := ih (i + 1) (buf.set i (some o.tranformMatrix))
      (by simp only [List.length_set]; omega)
    refine ⟨w, ?_, ?_, ?_, ?_⟩
    · rw [writeObjectBuffer, if_pos (by omega), hw]
    · simpa using hlen
    · intro j x hj
      cases j with
      | zero =>
        simp only [List.getElem?_cons_zero, Option.some.injEq] at hj
        subst hj
        rw [Nat.add_zero, hout i (Nat.lt_succ_self i), List.getElem?_set_self (by omega)]
      | succ j =>
        simp only [List.getElem?_cons_succ] at hj
        have := hin j x hj
        rwa [show i + (j + 1) = i + 1 + j by omega]
    · intro k hk
      rw [hout k (by omega), List.getElem?_set_ne (by omega)]

theorem writeObjectBuffer_none {M : Type} (objects : List (RenderObject M)) (i : Nat)
    (buf : List (Option M)) (hi : i ≤ buf.length) (h : buf.length < i + objects.length) :
    writeObjectBuffer i objects buf = none := by
  induction objects generalizing i buf with
  | nil => simp only [List.length_nil] at h; omega
  | cons o os ih =>
    simp only [List.length_cons] at h
    rw [writeObjectBuffer]
    split
    · apply ih
      · simp only [List.length_set]; omega
      · simp only [List.length_set]; omega
    · rfl

theorem draw_objects_overflow {α M : Type} (s : HostState α M)
    (objects : List (RenderObject M)) (buf : List (Option M))
    (hbuf : s.objectBuffers.get? (get_current_frame s._frameNumber) = some buf)
    (h : buf.length < objects.length) : draw_objects s objects = none := by
  simp only [draw_objects, hbuf,
    writeObjectBuffer_none objects 0 buf (Nat.zero_le _) (by omega)]

theorem draw_objects_spec {α M : Type} (s : HostState α M)
    (objects : List (RenderObject M)) (buf : List (Option M))
    (hvalid : ∀ o ∈ objects, validObject s o)
    (hbuf : s.objectBuffers.get? (get_current_frame s._frameNumber) = some buf)
    (hcount : objects.length ≤ buf.length) :
    ∃ t written cmds, draw_objects s objects = some t ∧
      writeObjectBuffer 0 objects buf = some written ∧
      recordObjects s (get_current_frame s._frameNumber)
        (draw_objects_uniform_offset s.minUboAlignment s._frameNumber) 0 none none objects
        = some cmds ∧
      t._frameNumber = s._frameNumber ∧ t.minUboAlignment = s.minUboAlignment ∧
      t._renderables = s._renderables ∧ t._meshes = s._meshes ∧
      t._materials = s._materials ∧
      t.objectBuffers = s.objectBuffers.set (get_current_frame s._frameNumber) written ∧
      t.commandBuffers = s.commandBuffers.set (get_current_frame s._frameNumber)
        (s.commandBuffers.getD (get_current_frame s._frameNumber) [] ++ cmds) := by
  obtain ⟨w, hw, -⟩ := writeObjectBuffer_spec objects 0 buf (by omega)
  obtain ⟨cmds, hc, -⟩ := recordObjects_bound s (get_current_frame s._frameNumber)
    (draw_objects_uniform_offset s.minUboAlignment s._frameNumber) objects hvalid 0 none none
    (none, none) (fun k hk => Option.noConfusion hk) (fun k hk => Option.noConfusion hk)
  have hd : ∃ t, draw_objects s objects = some t ∧
      t._frameNumber = s._frameNumber ∧ t.minUboAlignment = s.minUboAlignment ∧
      t._renderables = s._renderables ∧ t._meshes = s._meshes ∧
      t._materials = s._materials ∧
      t.objectBuffers = s.objectBuffers.set (get_current_frame s._frameNumber) w ∧
      t.commandBuffers = s.commandBuffers.set (get_current_frame s._frameNumber)
        (s.commandBuffers.getD (get_current_frame s._frameNumber) [] ++ cmds) := by
    have key : ∀ t : HostState α M, t._meshes = s._meshes → t._materials = s._materials →
        recordObjects t (get_current_frame s._frameNumber)
          (draw_objects_uniform_offset s.minUboAlignment s._frameNumber) 0 none none objects
          = some cmds :=
      fun t h1 h2 => (recordObjects_congr s t _ _ h1 h2 _ _ _ _).trans hc
    simp only [draw_objects, hbuf, hw]
    rw [key]
    · exact ⟨_, rfl, rfl, rfl, rfl, rfl, rfl, rfl, rfl⟩
    · rfl
    · rfl
  obtain ⟨t, ht, hrest⟩ := hd
  exact ⟨t, w, cmds, ht, hw, hc, hrest⟩

theorem exampleState_objectBuffers :
    ∀ b ∈ exampleState.objectBuffers, b.length = MAX_OBJECTS := by
  intro b hb
  simp only [exampleState, List.mem_cons, List.mem_singleton, List.not_mem_nil,
    or_false, or_self] at hb
  rw [hb, List.length_replicate]

/-- C24 counterexample: `MAX_OBJECTS + 1` triangles with non-null mesh and material, drawn
in a state whose object buffers hold `MAX_OBJECTS` elements: the first loop of
`draw_objects` writes element `MAX_OBJECTS`, outside the buffer, and no command list
results. -/
theorem draw_objects_overflows_object_buffer :
    (List.replicate (MAX_OBJECTS + 1) (exampleTriangle 0)).length = 10001 ∧
    (∀ o ∈ List.replicate (MAX_OBJECTS + 1) (exampleTriangle 0), validObject exampleState o) ∧
    (∀ b ∈ exampleState.objectBuffers, b.length = MAX_OBJECTS) ∧
    draw_objects exampleState (List.replicate (MAX_OBJECTS + 1) (exampleTriangle 0)) = none := by
  refine ⟨?_, ?_, ?_, ?_⟩
  · rw [List.length_replicate]
    rfl
  · intro o ho
    rw [List.eq_of_mem_replicate ho]
    decide
  · exact exampleState_objectBuffers
  · exact draw_objects_overflow _ _ (List.replicate MAX_OBJECTS none) rfl
      (by simp only [List.length_replicate]; omega)

/-- C24 (amended): for every list of at most `MAX_OBJECTS` render objects whose mesh and
material pointers point to map entries, drawn in a state whose current object buffer holds
`MAX_OBJECTS` elements, `draw_objects` returns, records exactly one draw command per
object, the i-th draw has first-instance index i and as vertex count the size of object
i's mesh vertex list reduced to 32 bits, and element i of the current frame's object
buffer holds object i's transform matrix. -/
theorem draw_objects_draws_each_object {α M : Type} (s : HostState α M)
    (objects : List (RenderObject M)) (buf : List (Option M))
    (hvalid : ∀ o ∈ objects, validObject s o)
    (hbuf : s.objectBuffers.get? (get_current_frame s._frameNumber) = some buf)
    (hcap : buf.length = MAX_OBJECTS) (hcount : objects.length ≤ MAX_OBJECTS) :
    ∃ t written cmds, draw_objects s objects = some t ∧
      t.objectBuffers.get? (get_current_frame s._frameNumber) = some written ∧
      t.commandBuffers = s.commandBuffers.set (get_current_frame s._frameNumber)
        (s.commandBuffers.getD (get_current_frame s._frameNumber) [] ++ cmds) ∧
      (drawsOf cmds).length = objects.length ∧
      ∀ i o, objects.get? i = some o →
        ∃ mesh, derefMesh s o.mesh = some mesh ∧
          (drawsOf cmds).get? i = some (mesh._vertices.length % 2 ^ 32, i) ∧
          written.get? i = some (some o.tranformMatrix) := by
  obtain ⟨t, w, cmds, ht, hw, hc, -, -, -, -, -, hob, hcb⟩ :=
    draw_objects_spec s objects buf hvalid hbuf (by omega)
  obtain ⟨w2, hw2, -, hin, -⟩ := writeObjectBuffer_spec objects 0 buf (by omega)
  obtain ⟨cmds2, hc2, -, hd⟩ := recordObjects_bound s (get_current_frame s._frameNumber)
    (draw_objects_uniform_offset s.minUboAlignment s._frameNumber) objects hvalid 0 none none
    (none, none) (fun k hk => Option.noConfusion hk) (fun k hk => Option.noConfusion hk)
  obtain rfl : w = w2 := Option.some.inj (hw.symm.trans hw2)
  obtain rfl : cmds = cmds2 := Option.some.inj (hc.symm.trans hc2)
  have hslot : get_current_frame s._frameNumber < s.objectBuffers.length := by
    have := List.get?_eq_some.1 hbuf
    exact this.1
  refine ⟨t, w, cmds, ht, ?_, hcb, ?_, ?_⟩
  · rw [hob, List.get?_eq_getElem?, List.getElem?_set_self hslot]
  · rw [hd, List.length_map, List.length_zip, List.length_range', Nat.min_self]
  · intro i o hio
    rw [List.get?_eq_getElem?] at hio
    have hi : i < objects.length := (List.getElem?_eq_some.1 hio).1
    have hmem : o ∈ objects := by
      obtain ⟨h, rfl⟩ := List.getElem?_eq_some.1 hio
      exact List.getElem_mem _
    obtain ⟨mesh, hmesh⟩ := Option.isSome_iff_exists.1 (hvalid o hmem).1
    refine ⟨mesh, hmesh, ?_, ?_⟩
    · have hz : (objects.zip (List.range' 0 objects.length))[i]? = some (o, i) := by
        rw [List.getElem?_zip_eq_some]
        refine ⟨hio, ?_⟩
        rw [List.getElem?_range' _ _ hi]
        simp
      rw [List.get?_eq_getElem?, hd, List.getElem?_map, hz]
      simp only [Option.map_some', hmesh, Option.getD_some]
      rw [Nat.mod_eq_of_lt (a := i)]
      simp only [MAX_OBJECTS] at hcount
      omega
    · have := hin i o hio
      rwa [Nat.zero_add, ← List.get?_eq_getElem?] at this

/-- Instance: two triangles drawn in `exampleState`. -/
theorem draw_objects_draws_each_object_witness :
    ∃ t written cmds,
      draw_objects exampleState [exampleTriangle 5, exampleTriangle 6] = some t ∧
      t.objectBuffers.get? (get_current_frame exampleState._frameNumber) = some written ∧
      t.commandBuffers = exampleState.commandBuffers.set
        (get_current_frame exampleState._frameNumber)
        (exampleState.commandBuffers.getD (get_current_frame exampleState._frameNumber) []
          ++ cmds) ∧
      (drawsOf cmds).length = [exampleTriangle 5, exampleTriangle 6].length ∧
      ∀ i o, [exampleTriangle 5, exampleTriangle 6].get? i = some o →
        ∃ mesh, derefMesh exampleState o.mesh = some mesh ∧
          (drawsOf cmds).get? i = some (mesh._vertices.length % 2 ^ 32, i) ∧
          written.get? i = some (some o.tranformMatrix) :=
  draw_objects_draws_each_object exampleState [exampleTriangle 5, exampleTriangle 6]
    (List.replicate MAX_OBJECTS none) (by decide) rfl (List.length_replicate _ _) (by decide)

theorem init_scene_inner {α M : Type} (tm : Int → M) (ys : List Int)
    (sx : HostState α M) :
    ys.foldl (fun sy y =>
      { sy with _renderables := sy._renderables ++
          [{ mesh := get_mesh sy "triangle", material := get_material sy "defaultMesh",
             tranformMatrix := tm y }] }) sx =
      { sx with _renderables := sx._renderables ++ ys.map (fun y =>
          { mesh := get_mesh sx "triangle", material := get_material sx "defaultMesh",
            tranformMatrix := tm y }) } := by
  induction ys generalizing sx with
  | nil => simp
  | cons y ys ih =>
    simp only [List.foldl_cons]
    rw [ih]
    simp [get_mesh, get_material]

theorem init_scene_outer {α M : Type} (tm : Int → Int → M) (xs ys : List Int)
    (s : HostState α M) :
    xs.foldl (fun sx x =>
      ys.foldl (fun sy y =>
        { sy with _renderables := sy._renderables ++
            [{ mesh := get_mesh sy "triangle", material := get_material sy "defaultMesh",
               tranformMatrix := tm x y }] }) sx) s =
      { s with _renderables := s._renderables ++ xs.flatMap (fun x => ys.map (fun y =>
          { mesh := get_mesh s "triangle", material := get_material s "defaultMesh",
            tranformMatrix := tm x y })) } := by
  induction xs generalizing s with
  | nil => simp
  | cons x xs ih =>
    simp only [List.foldl_cons]
    rw [ih, init_scene_inner]
    simp [get_mesh, get_material]

theorem length_flatMap_map {β γ δ : Type} (xs : List β) (ys : List γ) (f : β → γ → δ) :
    (xs.flatMap (fun x => ys.map (f x))).length = xs.length * ys.length := by
  induction xs with
  | nil => simp
  | cons x xs ih => simp [List.flatMap_cons, ih, Nat.succ_mul, Nat.add_comm]

theorem init_scene_eq {α M : Type} (monkeyMatrix : M) (triMatrix : Int → Int → M)
    (s : HostState α M) :
    init_scene monkeyMatrix triMatrix s =
      { s with _renderables := s._renderables ++
          ({ mesh := get_mesh s "monkey", material := get_material s "defaultMesh",
             tranformMatrix := monkeyMatrix } ::
           (intRange (-20) 20).flatMap (fun x => (intRange (-20) 20).map (fun y =>
             { mesh := get_mesh s "triangle", material := get_material s "defaultMesh",
               tranformMatrix := triMatrix x y }))) } := by
  rw [init_scene, init_scene_outer]
  simp [get_mesh, get_material]

theorem intRange_length : (intRange (-20) 20).length = 41 := by decide

/-- C25: `init_scene`, run on an empty renderable list, leaves the monkey followed by one
triangle for each of the 41 x 41 pairs (x, y), 1682 render objects in all; that is at most
`MAX_OBJECTS` = 10000, and the first loop of `draw_objects` on these renderables writes
only elements inside an object buffer of `MAX_OBJECTS` elements. -/
theorem init_scene_fits_object_buffer {α M : Type} (monkeyMatrix : M)
    (triMatrix : Int → Int → M) (s : HostState α M) (hempty : s._renderables = []) :
    (init_scene monkeyMatrix triMatrix s)._renderables =
      { mesh := get_mesh s "monkey", material := get_material s "defaultMesh",
        tranformMatrix := monkeyMatrix } ::
      (intRange (-20) 20).flatMap (fun x => (intRange (-20) 20).map (fun y =>
        { mesh := get_mesh s "triangle", material := get_material s "defaultMesh",
          tranformMatrix := triMatrix x y })) ∧
    (intRange (-20) 20).length = 41 ∧
    (init_scene monkeyMatrix triMatrix s)._renderables.length = 1682 ∧
    MAX_OBJECTS = 10000 ∧
    (init_scene monkeyMatrix triMatrix s)._renderables.length ≤ MAX_OBJECTS ∧
    ∀ buf : List (Option M), buf.length = MAX_OBJECTS →
      ∃ written,
        writeObjectBuffer 0 (init_scene monkeyMatrix triMatrix s)._renderables buf
          = some written ∧
        written.length = MAX_OBJECTS ∧
        ∀ i o, (init_scene monkeyMatrix triMatrix s)._renderables.get? i = some o →
          i < MAX_OBJECTS ∧ written.get? i = some (some o.tranformMatrix) := by
  have hr : (init_scene monkeyMatrix triMatrix s)._renderables =
      { mesh := get_mesh s "monkey", material := get_material s "defaultMesh",
        tranformMatrix := monkeyMatrix } ::
      (intRange (-20) 20).flatMap (fun x => (intRange (-20) 20).map (fun y =>
        { mesh := get_mesh s "triangle", material := get_material s "defaultMesh",
          tranformMatrix := triMatrix x y })) := by
    rw [init_scene_eq]
    simp only [hempty, List.nil_append]
  have hl : (init_scene monkeyMatrix triMatrix s)._renderables.length = 1682 := by
    rw [hr, List.length_cons, length_flatMap_map, intRange_length]
  refine ⟨hr, intRange_length, hl, rfl, ?_, ?_⟩
  · rw [hl]
    decide
  · intro buf hbuf
    obtain ⟨w, hw, hlen, hin, -⟩ := writeObjectBuffer_spec
      (init_scene monkeyMatrix triMatrix s)._renderables 0 buf
      (by rw [hl, hbuf]; decide)
    refine ⟨w, hw, hlen.trans hbuf, ?_⟩
    intro i o hio
    rw [List.get?_eq_getElem?] at hio
    have hi := (List.getElem?_eq_some.1 hio).1
    rw [hl] at hi
    refine ⟨?_, ?_⟩
    · simp only [MAX_OBJECTS]
      omega
    · have := hin i o hio
      rwa [Nat.zero_add, ← List.get?_eq_getElem?] at this

/-- Instance: `init_scene` on `exampleState`, whose renderable list is empty. -/
theorem init_scene_fits_object_buffer_witness :
    exampleState._renderables = [] ∧
    (init_scene 1 (fun x y => (x * y).natAbs) exampleState)._renderables.length = 1682 ∧
    (init_scene 1 (fun x y => (x * y).natAbs) exampleState)._renderables.length ≤ MAX_OBJECTS :=
  ⟨rfl,
   (init_scene_fits_object_buffer 1 (fun x y => (x * y).natAbs) exampleState rfl).2.2.1,
   (init_scene_fits_object_buffer 1 (fun x y => (x * y).natAbs) exampleState rfl).2.2.2.2.1⟩

theorem validObject_congr {α M : Type} (s t : HostState α M) (hm : t._meshes = s._meshes)
    (hmat : t._materials = s._materials) (o : RenderObject M) :
    validObject t o ↔ validObject s o := by
  simp only [validObject, derefMesh, derefMaterial, hm, hmat]

theorem draw_host_spec {α M : Type} (s : HostState α M) (hok : SceneOk s) :
    ∃ t, draw_host s = some t ∧ t._renderables = s._renderables ∧ t._meshes = s._meshes ∧
      t._materials = s._materials ∧ SceneOk t := by
  obtain ⟨hvalid, hcount, hlen, hbufs⟩ := hok
  have hslot : get_current_frame s._frameNumber < s.objectBuffers.length := by
    rw [hlen]
    exact get_current_frame_lt _
  have hbuf : s.objectBuffers.get? (get_current_frame s._frameNumber) =
      some (s.objectBuffers.get ⟨_, hslot⟩) := List.get?_eq_get hslot
  have hcap : (s.objectBuffers.get ⟨_, hslot⟩).length = MAX_OBJECTS :=
    hbufs _ (List.get_mem _ _ _)
  obtain ⟨t, w, cmds, ht, hw, -, -, -, hr, hm, hmat, hob, -⟩ := draw_objects_spec
    { s with commandBuffers := s.commandBuffers.set (get_current_frame s._frameNumber) [] }
    s._renderables (s.objectBuffers.get ⟨_, hslot⟩) hvalid hbuf (by omega)
  obtain ⟨w2, hw2, hwlen, -⟩ := writeObjectBuffer_spec s._renderables 0
    (s.objectBuffers.get ⟨_, hslot⟩) (by omega)
  obtain rfl : w = w2 := Option.some.inj (hw.symm.trans hw2)
  refine ⟨{ t with _frameNumber := incFrameNumber t._frameNumber }, ?_, hr, hm, hmat, ?_⟩
  · simp only [draw_host, ht]
  · refine ⟨?_, ?_, ?_, ?_⟩
    · intro o ho
      have ho2 : o ∈ s._renderables := by
        rw [← hr]
        exact ho
      exact (validObject_congr s _ hm hmat o).2 (hvalid o ho2)
    · show t._renderables.length ≤ MAX_OBJECTS
      rw [hr]
      exact hcount
    · show t.objectBuffers.length = FRAME_OVERLAP
      rw [hob, List.length_set]
      exact hlen
    · intro b hb
      have hb2 : b ∈ (s.objectBuffers.set (get_current_frame s._frameNumber) w) := by
        rw [← hob]
        exact hb
      rcases List.mem_or_eq_of_mem_set hb2 with h | h
      · exact hbufs b h
      · rw [h, hwlen, hcap]

theorem drawFrames_spec {α M : Type} (n : Nat) (s : HostState α M) (hok : SceneOk s) :
    ∃ t, drawFrames n s = some t ∧ t._renderables = s._renderables ∧ t._meshes = s._meshes ∧
      t._materials = s._materials ∧ SceneOk t := by
  induction n generalizing s with
  | zero => exact ⟨s, rfl, rfl, rfl, rfl, hok⟩
  | succ n ih =>
    obtain ⟨t, ht, hr, hm, hmat, hokt⟩ := draw_host_spec s hok
    obtain ⟨u, hu, hr2, hm2, hmat2, hoku⟩ := ih t hokt
    refine ⟨u, ?_, hr2.trans hr, hm2.trans hm, hmat2.trans hmat, hoku⟩
    simp only [drawFrames, ht, Option.some_bind, hu]

theorem init_scene_sceneOk {α M : Type} (monkeyMatrix : M) (triMatrix : Int → Int → M)
    (s : HostState α M) (hempty : s._renderables = [])
    (hmonkey : (s._meshes.lookup "monkey").isSome = true)
    (htriangle : (s._meshes.lookup "triangle").isSome = true)
    (hmaterial : (s._materials.lookup "defaultMesh").isSome = true)
    (hlen : s.objectBuffers.length = FRAME_OVERLAP)
    (hbufs : ∀ b ∈ s.objectBuffers, b.length = MAX_OBJECTS) :
    SceneOk (init_scene monkeyMatrix triMatrix s) := by
  obtain ⟨m1, h1⟩ := Option.isSome_iff_exists.1 hmonkey
  obtain ⟨m2, h2⟩ := Option.isSome_iff_exists.1 htriangle
  obtain ⟨m3, h3⟩ := Option.isSome_iff_exists.1 hmaterial
  have hl : (init_scene monkeyMatrix triMatrix s)._renderables.length = 1682 := by
    rw [init_scene_eq]
    simp only [hempty, List.nil_append]
    rw [List.length_cons, length_flatMap_map, intRange_length]
  refine ⟨?_, ?_, ?_, ?_⟩
  · intro o ho
    rw [init_scene_eq] at ho ⊢
    simp only [hempty, List.nil_append, List.mem_cons, List.mem_flatMap, List.mem_map] at ho
    rcases ho with rfl | ⟨x, -, y, -, rfl⟩
    · simp [validObject, derefMesh, derefMaterial, get_mesh, get_material, h1, h3]
    · simp [validObject, derefMesh, derefMaterial, get_mesh, get_material, h2, h3]
  · rw [hl]
    decide
  · rw [init_scene_eq]
    exact hlen
  · rw [init_scene_eq]
    exact hbufs

/-- C29: in every state in which the renderables point to map entries and fit the object
buffers of `MAX_OBJECTS` elements (the state `init_scene` leaves, and every state a draw
leaves from such a state), a draw call returns and leaves the renderables list, the mesh
map with every mesh's vertex list, and the material map as they were; the same holds
after any number of draw calls. -/
theorem draw_keeps_scene_description {α M : Type} (s : HostState α M) (hok : SceneOk s) :
    (∃ t, draw_host s = some t ∧ t._renderables = s._renderables ∧ t._meshes = s._meshes ∧
      t._materials = s._materials ∧ SceneOk t) ∧
    ∀ n, ∃ t, drawFrames n s = some t ∧ t._renderables = s._renderables ∧
      t._meshes = s._meshes ∧ t._materials = s._materials := by
  refine ⟨draw_host_spec s hok, fun n => ?_⟩
  obtain ⟨t, ht, hr, hm, hmat, -⟩ := drawFrames_spec n s hok
  exact ⟨t, ht, hr, hm, hmat⟩

/-- Instance: the scene `init_scene` builds on `exampleState`, drawn three times. -/
theorem draw_keeps_scene_description_witness :
    SceneOk (init_scene 1 (fun x y => (x * y).natAbs) exampleState) ∧
    ∃ t, drawFrames 3 (init_scene 1 (fun x y => (x * y).natAbs) exampleState) = some t ∧
      t._renderables = (init_scene 1 (fun x y => (x * y).natAbs) exampleState)._renderables ∧
      t._meshes = exampleState._meshes ∧ t._materials = exampleState._materials :=
  have hok : SceneOk (init_scene 1 (fun x y => (x * y).natAbs) exampleState) :=
    init_scene_sceneOk 1 (fun x y => (x * y).natAbs) exampleState rfl (by decide) (by decide)
      (by decide) rfl exampleState_objectBuffers
  ⟨hok, (draw_keeps_scene_description _ hok).2 3 |>.imp fun _ h =>
    ⟨h.1, h.2.1, h.2.2.1.trans (by rw [init_scene_eq]),
      h.2.2.2.trans (by rw [init_scene_eq])⟩⟩

theorem loadVertex_eq {α : Type} (attrib : attrib_t α) (indices : List index_t) (pos : Nat) :
    loadVertex attrib indices pos = (indices.get? pos).bind (vertexOfIndex attrib) := by
  unfold loadVertex
  cases indices.get? pos <;> rfl

theorem readComponent_inRange {α : Type} (v : List α) (index : Int) (k : Int)
    (h0 : 0 ≤ index) (hk0 : 0 ≤ k) (hk2 : k ≤ 2) (hmax : 3 * index + 2 ≤ INT_MAX)
    (hlen : (3 * index + 2).toNat < v.length) :
    ∃ a, readComponent v index k = some a ∧ v.get? (3 * index + k).toNat = some a := by
  have hlt : (3 * index + k).toNat < v.length := by omega
  refine ⟨v.get ⟨_, hlt⟩, ?_, List.get?_eq_get hlt⟩
  rw [readComponent, if_pos ⟨by omega, by omega⟩, List.get?_eq_get hlt]

theorem vertexOfIndex_inRange {α : Type} (attrib : attrib_t α) (idx : index_t)
    (h : indexInRange attrib idx) :
    ∃ v, vertexOfIndex attrib idx = some v ∧
      attrib.vertices.get? (3 * idx.vertex_index + 0).toNat = some v.position.x ∧
      attrib.vertices.get? (3 * idx.vertex_index + 1).toNat = some v.position.y ∧
      attrib.vertices.get? (3 * idx.vertex_index + 2).toNat = some v.position.z ∧
      attrib.normals.get? (3 * idx.normal_index + 0).toNat = some v.normal.x ∧
      attrib.normals.get? (3 * idx.normal_index + 1).toNat = some v.normal.y ∧
      attrib.normals.get? (3 * idx.normal_index + 2).toNat = some v.normal.z ∧
      v.color = v.normal := by
  obtain ⟨⟨hv0, hvm, hvl⟩, ⟨hn0, hnm, hnl⟩⟩ := h
  obtain ⟨vx, hvx, gvx⟩ := readComponent_inRange attrib.vertices idx.vertex_index 0 hv0
    (by decide) (by decide) hvm hvl
  obtain ⟨vy, hvy, gvy⟩ := readComponent_inRange attrib.vertices idx.vertex_index 1 hv0
    (by decide) (by decide) hvm hvl
  obtain ⟨vz, hvz, gvz⟩ := readComponent_inRange attrib.vertices idx.vertex_index 2 hv0
    (by decide) (by decide) hvm hvl
  obtain ⟨nx, hnx, gnx⟩ := readComponent_inRange attrib.normals idx.normal_index 0 hn0
    (by decide) (by decide) hnm hnl
  obtain ⟨ny, hny, gny⟩ := readComponent_inRange attrib.normals idx.normal_index 1 hn0
    (by decide) (by decide) hnm hnl
  obtain ⟨nz, hnz, gnz⟩ := readComponent_inRange attrib.normals idx.normal_index 2 hn0
    (by decide) (by decide) hnm hnl
  refine ⟨{ position := { x := vx, y := vy, z := vz }, normal := { x := nx, y := ny, z := nz },
            color := { x := nx, y := ny, z := nz } }, ?_, gvx, gvy, gvz, gnx, gny, gnz, rfl⟩
  simp only [vertexOfIndex, hvx, hvy, hvz, hnx, hny, hnz]

theorem loadFace_eq {α : Type} (attrib : attrib_t α) (indices : List index_t)
    (index_offset : Nat) (vs : List (Vertex α)) (i0 i1 i2 : index_t) (v0 v1 v2 : Vertex α)
    (h0 : indices.get? index_offset = some i0) (h1 : indices.get? (index_offset + 1) = some i1)
    (h2 : indices.get? (index_offset + 2) = some i2)
    (g0 : vertexOfIndex attrib i0 = some v0) (g1 : vertexOfIndex attrib i1 = some v1)
    (g2 : vertexOfIndex attrib i2 = some v2) :
    loadFace attrib indices index_offset vs = some (vs ++ [v0, v1, v2]) := by
  have e : List.range 3 = [0, 1, 2] := rfl
  simp only [loadFace, e, List.foldlM, loadVertex_eq, Nat.add_zero, h0, h1, h2,
    Option.some_bind, g0, g1, g2, Option.map_some', Option.bind_eq_bind, Option.pure_def,
    List.append_assoc, List.singleton_append, List.cons_append, List.nil_append]

theorem sum_of_all_three (l : List Nat) (h : ∀ n ∈ l, n = 3) : l.sum = 3 * l.length := by
  induction l with
  | nil => rfl
  | cons a l ih =>
    have ha := h a (List.mem_cons_self _ _)
    have := ih (fun n hn => h n (List.mem_cons_of_mem _ hn))
    simp only [List.sum_cons, List.length_cons]
    omega

theorem loadShape_faces {α : Type} (attrib : attrib_t α) (indices : List index_t)
    (hrange : ∀ idx ∈ indices, indexInRange attrib idx) (vs : List (Vertex α)) (n : Nat)
    (hn : 3 * n ≤ indices.length) :
    ∃ new, (List.range n).foldlM
        (fun (st : Nat × List (Vertex α)) (_ : Nat) =>
          (loadFace attrib indices st.1 st.2).map (fun vs => (st.1 + 3, vs)))
        (0, vs) = some (3 * n, vs ++ new) ∧
      new.map some = (indices.take (3 * n)).map (vertexOfIndex attrib) := by
  induction n with
  | zero => exact ⟨[], by simp, by simp⟩
  | succ n ih =>
    obtain ⟨new, hnew, hmap⟩ := ih (by omega)
    have l0 : 3 * n < indices.length := by omega
    have l1 : 3 * n + 1 < indices.length := by omega
    have l2 : 3 * n + 2 < indices.length := by omega
    obtain ⟨v0, g0, -⟩ := vertexOfIndex_inRange attrib _ (hrange _ (List.get_mem indices _ l0))
    obtain ⟨v1, g1, -⟩ := vertexOfIndex_inRange attrib _ (hrange _ (List.get_mem indices _ l1))
    obtain ⟨v2, g2, -⟩ := vertexOfIndex_inRange attrib _ (hrange _ (List.get_mem indices _ l2))
    have hf := loadFace_eq attrib indices (3 * n) (vs ++ new) _ _ _ v0 v1 v2
      (List.get?_eq_get l0) (List.get?_eq_get l1) (List.get?_eq_get l2) g0 g1 g2
    refine ⟨new ++ [v0, v1, v2], ?_, ?_⟩
    · rw [List.range_succ, List.foldlM_append, hnew]
      simp only [Option.bind_eq_bind, Option.some_bind, List.foldlM, hf, Option.map_some',
        Option.pure_def, List.append_assoc]
      rfl
    · have ht : indices.take (3 * (n + 1)) =
          indices.take (3 * n) ++ [indices.get ⟨_, l0⟩, indices.get ⟨_, l1⟩,
            indices.get ⟨_, l2⟩] := by
        rw [show 3 * (n + 1) = 3 * n + 1 + 1 + 1 by omega, List.take_succ, List.take_succ,
          List.take_succ, List.getElem?_eq_getElem l0, List.getElem?_eq_getElem l1,
          List.getElem?_eq_getElem l2]
        simp only [Option.toList, List.append_assoc, List.singleton_append, List.cons_append,
          List.nil_append, List.get_eq_getElem]
      rw [ht, List.map_append, List.map_append, hmap]
      simp only [List.map_cons, List.map_nil, g0, g1, g2]

theorem loadShape_spec {α : Type} (attrib : attrib_t α) (shape : shape_t)
    (htri : allTriangles shape) (hrange : ∀ idx ∈ shape.indices, indexInRange attrib idx)
    (vs : List (Vertex α)) :
    ∃ new, loadShape attrib shape vs = some (vs ++ new) ∧
      new.map some = shape.indices.map (vertexOfIndex attrib) := by
  have hlen : shape.indices.length = 3 * shape.num_face_vertices.length := by
    rw [htri.2, sum_of_all_three _ htri.1]
  obtain ⟨new, hnew, hmap⟩ := loadShape_faces attrib shape.indices hrange vs
    shape.num_face_vertices.length (by omega)
  refine ⟨new, ?_, ?_⟩
  · rw [loadShape, hnew]
    rfl
  · rw [hmap, ← hlen, List.take_length]

theorem loadShapes_spec {α : Type} (attrib : attrib_t α) (shapes : List shape_t)
    (htri : ∀ sh ∈ shapes, allTriangles sh)
    (hrange : ∀ sh ∈ shapes, ∀ idx ∈ sh.indices, indexInRange attrib idx)
    (vs : List (Vertex α)) :
    ∃ new, shapes.foldlM (fun vs shape => loadShape attrib shape vs) vs = some (vs ++ new) ∧
      new.map some = (shapes.flatMap (fun sh => sh.indices)).map (vertexOfIndex attrib) := by
  induction shapes generalizing vs with
  | nil => exact ⟨[], by simp, by simp⟩
  | cons sh shapes ih =>
    obtain ⟨new1, h1, m1⟩ := loadShape_spec attrib sh (htri sh (List.mem_cons_self _ _))
      (hrange sh (List.mem_cons_self _ _)) vs
    obtain ⟨new2, h2, m2⟩ := ih (fun s hs => htri s (List.mem_cons_of_mem _ hs))
      (fun s hs => hrange s (List.mem_cons_of_mem _ hs)) (vs ++ new1)
    refine ⟨new1 ++ new2, ?_, ?_⟩
    · simp only [List.foldlM, h1, Option.bind_eq_bind, Option.some_bind, h2,
        List.append_assoc]
    · rw [List.flatMap_cons, List.map_append, List.map_append, m1, m2]

theorem length_flatMap_indices (shapes : List shape_t) (htri : ∀ sh ∈ shapes, allTriangles sh) :
    (shapes.flatMap (fun sh => sh.indices)).length =
      3 * (shapes.map (fun sh => sh.num_face_vertices.length)).sum := by
  induction shapes with
  | nil => rfl
  | cons sh shapes ih =>
    have h1 := htri sh (List.mem_cons_self _ _)
    have h2 := ih (fun s hs => htri s (List.mem_cons_of_mem _ hs))
    have h3 := sum_of_all_three _ h1.1
    rw [List.flatMap_cons, List.length_append, h2, h1.2, h3, List.map_cons, List.sum_cons]
    omega

/-- C26: when the loader reports no error, all faces are triangles and every vertex and
normal index is in range, `Mesh::load_from_obj` returns `true` and appends to `_vertices`,
keeping the existing entries, exactly one vertex per mesh index in shape order and, within
a shape, in the order of its index list (face by face, corner by corner), 3 x total face
count vertices in all; the vertex for an index has as position the three entries of
`attrib.vertices` from `3 * vertex_index` on, as normal the three entries of
`attrib.normals` from `3 * normal_index` on, and as colour its normal. -/
theorem load_from_obj_appends_vertices {α : Type} (out : LoadObjOutput α)
    (verts : List (Vertex α)) (herr : out.err = "")
    (htri : ∀ sh ∈ out.shapes, allTriangles sh)
    (hrange : ∀ sh ∈ out.shapes, ∀ idx ∈ sh.indices, indexInRange out.attrib idx) :
    ∃ new, load_from_obj out verts = some (true, verts ++ new) ∧
      new.length = 3 * (out.shapes.map (fun sh => sh.num_face_vertices.length)).sum ∧
      new.length = (out.shapes.flatMap (fun sh => sh.indices)).length ∧
      ∀ k idx, (out.shapes.flatMap (fun sh => sh.indices)).get? k = some idx →
        ∃ v, new.get? k = some v ∧
          out.attrib.vertices.get? (3 * idx.vertex_index + 0).toNat = some v.position.x ∧
          out.attrib.vertices.get? (3 * idx.vertex_index + 1).toNat = some v.position.y ∧
          out.attrib.vertices.get? (3 * idx.vertex_index + 2).toNat = some v.position.z ∧
          out.attrib.normals.get? (3 * idx.normal_index + 0).toNat = some v.normal.x ∧
          out.attrib.normals.get? (3 * idx.normal_index + 1).toNat = some v.normal.y ∧
          out.attrib.normals.get? (3 * idx.normal_index + 2).toNat = some v.normal.z ∧
          v.color = v.normal := by
  obtain ⟨new, hnew, hmap⟩ := loadShapes_spec out.attrib out.shapes htri hrange verts
  have hlen : new.length = (out.shapes.flatMap (fun sh => sh.indices)).length := by
    have := congrArg List.length hmap
    simpa only [List.length_map] using this
  refine ⟨new, ?_, ?_, hlen, ?_⟩
  · rw [load_from_obj, if_neg (not_not.2 herr), hnew]
    rfl
  · rw [hlen, length_flatMap_indices out.shapes htri]
  · intro k idx hk
    rw [List.get?_eq_getElem?] at hk
    have hmem : idx ∈ out.shapes.flatMap (fun sh => sh.indices) := by
      obtain ⟨h, rfl⟩ := List.getElem?_eq_some.1 hk
      exact List.getElem_mem _
    obtain ⟨sh, hsh, hidx⟩ := List.mem_flatMap.1 hmem
    obtain ⟨v, hv, hprops⟩ := vertexOfIndex_inRange out.attrib idx (hrange sh hsh idx hidx)
    refine ⟨v, ?_, hprops⟩
    have hk2 := congrArg (fun l => l[k]?) hmap
    simp only [List.getElem?_map, hk, Option.map_some', hv] at hk2
    rw [List.get?_eq_getElem?]
    cases hnk : new[k]? with
    | none => rw [hnk] at hk2; cases hk2
    | some w =>
      rw [hnk] at hk2
      simp only [Option.map_some', Option.some.injEq] at hk2
      rw [hk2]

/-- Instance: the single triangle of `exampleObj`, loaded into an empty vertex list. -/
theorem load_from_obj_appends_vertices_witness :
    load_from_obj exampleObj [] =
      some (true,
        [{ position := { x := 6, y := 7, z := 8 }, normal := { x := 10, y := 11, z := 12 },
           color := { x := 10, y := 11, z := 12 } },
         { position := { x := 0, y := 1, z := 2 }, normal := { x := 13, y := 14, z := 15 },
           color := { x := 13, y := 14, z := 15 } },
         { position := { x := 3, y := 4, z := 5 }, normal := { x := 16, y := 17, z := 18 },
           color := { x := 16, y := 17, z := 18 } }]) ∧
    ∃ new, load_from_obj exampleObj [] = some (true, [] ++ new) ∧ new.length = 3 * 1 :=
  ⟨by decide,
   (load_from_obj_appends_vertices exampleObj [] rfl (by decide) (by decide)).imp
     fun _ h => ⟨h.1, h.2.1⟩⟩

end VkGuide
